import Mathlib

/-!
# RomanScutumOpenGL: the OBJ loader and its normals

A shallow embedding of `ReadOBJFile.cpp` (the classification of lines, the
selection of the face format, the face records, `Convert_Data`,
`Convert_Data_With_Texcoords`) and of the parts of `math3d.cpp` they call
(`SurfaceNormal`, `ComputeVertexNormals` and the vector helpers).

Modelling conventions:

* `float` is an arbitrary field `F` with decidable equality; `sqrtf` is passed
  to the functions that call it.  Nothing in the mesh assembly depends on the
  arithmetic: vertices and texture coordinates are copied, never computed.
* C arrays are lists.  `int` counters are natural numbers and `int` indices
  read from the file are integers (signed overflow is undefined in C++, so the
  model covers the range in which no `int` overflows).
* `unsigned short` is a natural number below `65536`; a store of an `int`
  into an `unsigned short` reduces the value modulo `65536`.
* A read outside an array is undefined in C++; `readNat` and `readArr` return
  the zero element there, so that every function is total.  What the model
  returns is what the program returns when every read is inside its array
  (`loadReadsInBounds`); statements about files with indices out of range are
  about the records and the reads, not about a returned object.
* `memcmp` on stored floats is equality of values in `adjacentPolygon`; the two
  differ for `0.0` and `-0.0`, which `adjacentPolygonStored` tells apart.
* `exit(0)` in `Convert_Data_With_Texcoords` is the result `none`.
* A line is the list of characters that `fgets` stored in the line buffer (at
  most 499); `sscanf_s` is modelled on characters for the formats used, which
  have no conversion but `%d` and `%f`; the value of a `%d` is an integer that is
  not reduced to the range of `int`, so it is the stored value for numerals up
  to `INT_MAX`.
* Claims "in exact arithmetic" are stated over the reals with `Real.sqrt`.
* `malloc` and `calloc` are assumed to succeed, and every temporary array
  holds `max_gx_vertices` entries of its element type (`tmp_gx_vertices_sig` is
  allocated with `sizeof(SrcPolyVertex *)` bytes per entry, which is the size of
  a `SrcPolyVertex` where pointers have 8 bytes).
-/

namespace RomanScutum

/-! ## Types of `math3d.h` and `ReadOBJFile.cpp` -/

/-- The struct `Vector3D` of `math3d.h`. -/
structure Vector3D (F : Type) where
  x : F
  y : F
  z : F
  deriving DecidableEq, Repr

/-- The struct `UVCoordinate` of `math3d.h`. -/
structure UVCoordinate (F : Type) where
  u : F
  v : F
  deriving DecidableEq, Repr

/-- The struct `Polygon3D` of `math3d.h`: `unsigned short index[3]`. -/
structure Polygon3D where
  index0 : Nat
  index1 : Nat
  index2 : Nat
  deriving DecidableEq, Repr

/-- The member `index[j]` of a `Polygon3D`. -/
def Polygon3D.index (p : Polygon3D) (j : Fin 3) : Nat :=
  match j with
  | ⟨0, _⟩ => p.index0
  | ⟨1, _⟩ => p.index1
  | ⟨_ + 2, _⟩ => p.index2

/-- The struct `Object3D` of `math3d.h`.  A null `tex_coords` pointer is `none`. -/
structure Object3D (F : Type) where
  num_vertices : Nat
  num_polygons : Nat
  vertex : List (Vector3D F)
  vertex_normal : List (Vector3D F)
  tex_coords : Option (List (UVCoordinate F))
  polygon : List Polygon3D
  polygon_normal : List (Vector3D F)

/-- The struct `SrcPolyVertex` of `ReadOBJFile.cpp`: a vertex signature, the
index into the source vertex array and the index into the source texcoord
array. -/
structure SrcPolyVertex where
  v : Int
  t : Int
  deriving DecidableEq, Repr

/-- The struct `SrcPoly` of `ReadOBJFile.cpp`: `SrcPolyVertex vdata[3]`. -/
structure SrcPoly where
  vdata0 : SrcPolyVertex
  vdata1 : SrcPolyVertex
  vdata2 : SrcPolyVertex
  deriving DecidableEq, Repr

/-- The member `vdata[j]` of a `SrcPoly`. -/
def SrcPoly.vdata (p : SrcPoly) (j : Fin 3) : SrcPolyVertex :=
  match j with
  | ⟨0, _⟩ => p.vdata0
  | ⟨1, _⟩ => p.vdata1
  | ⟨_ + 2, _⟩ => p.vdata2

/-- The value `2^16`, the number of values of an `unsigned short`. -/
def USHORT_RANGE : Nat := 65536

/-- Conversion of a non-negative `int` to `unsigned short`. -/
def toUShort (k : Nat) : Nat := k % USHORT_RANGE

/-- Conversion of an `int` (possibly negative) to `unsigned short`. -/
def intToUShort (k : Int) : Nat := (k % (USHORT_RANGE : Int)).toNat

/-- The largest value of an `int` (32 bits). -/
def INT_MAX : Nat := 2147483647

/-- The array read `a[i]` for a natural-number index.  Outside the array the
read is undefined in C++ (the program may stop there); the model yields `dflt`,
which is the behaviour of the program only for reads inside the array
(`Convert_Data_readsInBounds`, `Convert_Data_With_Texcoords_readsInBounds`). -/
def readNat {α : Type} (dflt : α) (a : List α) (i : Nat) : α := a.getD i dflt

/-- The array read `a[i]` for an `int` index.  Outside the array the read is
undefined in C++ (the program may stop there); the model yields `dflt`, which
is the behaviour of the program only for reads inside the array. -/
def readArr {α : Type} (dflt : α) (a : List α) (i : Int) : α :=
  if 0 ≤ i then a.getD i.toNat dflt else dflt

section Math3D

variable {F : Type} [Field F] [DecidableEq F]

/-- The zero vector, the content of `calloc`ed storage. -/
def Vector3D.zero : Vector3D F := ⟨0, 0, 0⟩

/-- The zero texture coordinate, the content of `calloc`ed storage. -/
def UVCoordinate.zero : UVCoordinate F := ⟨0, 0⟩

/-- `SubtractVector` of `math3d.cpp`: `vresult = v1 - v2`. -/
def SubtractVector (v1 v2 : Vector3D F) : Vector3D F :=
  ⟨v1.x - v2.x, v1.y - v2.y, v1.z - v2.z⟩

/-- `VectorMagnitude` of `math3d.cpp`. -/
def VectorMagnitude (sqrtf : F → F) (v : Vector3D F) : F :=
  sqrtf (v.x * v.x + v.y * v.y + v.z * v.z)

/-- `MultiplyScalarVector` of `math3d.cpp`. -/
def MultiplyScalarVector (s : F) (v : Vector3D F) : Vector3D F :=
  ⟨v.x * s, v.y * s, v.z * s⟩

/-- `NormalizeVector` of `math3d.cpp`. -/
def NormalizeVector (sqrtf : F → F) (v : Vector3D F) : Vector3D F :=
  let magnitude := VectorMagnitude sqrtf v
  if magnitude = 0 then v
  else
    let m := 1 / magnitude
    MultiplyScalarVector m v

/-- `VectorCrossProduct` of `math3d.cpp`. -/
def VectorCrossProduct (v1 v2 : Vector3D F) : Vector3D F :=
  ⟨v1.y * v2.z - v1.z * v2.y, v1.z * v2.x - v1.x * v2.z, v1.x * v2.y - v1.y * v2.x⟩

/-- `SurfaceNormal` of `math3d.cpp`: the returned flag and the vector written
to `*normal`. -/
def SurfaceNormal (sqrtf : F → F) (p1 p2 p3 : Vector3D F) : Bool × Vector3D F :=
  let a := SubtractVector p2 p1
  let b := SubtractVector p3 p1
  let normal := VectorCrossProduct a b
  if normal.x ≠ 0 ∨ normal.y ≠ 0 ∨ normal.z ≠ 0 then
    (true, NormalizeVector sqrtf normal)
  else
    (false, normal)

/-- The test of the `k` loop of `ComputeVertexNormals`: is polygon `poly`
adjacent to vertex `i`?  With `smooth_discontinuous_vertices` a corner
matches when its vertex has the same value as vertex `i`, otherwise when its
index is `i`.  The loop stops at the first matching corner.  The program
compares the stored bytes (`memcmp`); values and stored bytes correspond one
to one except for zero, which is stored as `0.0` or as `-0.0`:
`adjacentPolygonStored` is the test on the stored representation, and this
function is its instance for vertices stored without `-0.0`. -/
def adjacentPolygon (object : Object3D F) (smooth_discontinuous_vertices : Bool)
    (i : Nat) (poly : Polygon3D) : Bool :=
  if smooth_discontinuous_vertices then
    [poly.index0, poly.index1, poly.index2].any fun idx =>
      decide (readNat Vector3D.zero object.vertex idx = readNat Vector3D.zero object.vertex i)
  else
    [poly.index0, poly.index1, poly.index2].any fun idx => decide (idx = i)

/-- The `j` loop of `ComputeVertexNormals` for vertex `i`: the accumulated
sum of the normals of the adjacent polygons and `poly_count`. -/
def accumulateNormals (object : Object3D F) (smooth_discontinuous_vertices : Bool)
    (i : Nat) : Vector3D F × Nat :=
  (List.range object.num_polygons).foldl
    (fun acc j =>
      if adjacentPolygon object smooth_discontinuous_vertices i
          (readNat ⟨0, 0, 0⟩ object.polygon j) then
        let n := readNat Vector3D.zero object.polygon_normal j
        (⟨acc.1.x + n.x, acc.1.y + n.y, acc.1.z + n.z⟩, acc.2 + 1)
      else acc)
    (Vector3D.zero, 0)

/-- The body of the `i` loop of `ComputeVertexNormals`: the value stored in
`vertex_normal[i]`. -/
def vertexNormal (sqrtf : F → F) (object : Object3D F)
    (smooth_discontinuous_vertices : Bool) (i : Nat) : Vector3D F :=
  let acc := accumulateNormals object smooth_discontinuous_vertices i
  let sum := acc.1
  let poly_count := acc.2
  let averaged : Vector3D F :=
    if poly_count ≠ 0 then
      let f : F := 1 / (poly_count : F)
      ⟨sum.x * f, sum.y * f, sum.z * f⟩
    else sum
  NormalizeVector sqrtf averaged

/-- `ComputeVertexNormals` of `math3d.cpp`: the returned flag (`NOT error`,
and `error` is only set when `malloc` fails) and the object with its
`vertex_normal` array filled. -/
def ComputeVertexNormals (sqrtf : F → F) (object : Object3D F)
    (smooth_discontinuous_vertices : Bool) : Bool × Object3D F :=
  (true,
    { object with
      vertex_normal :=
        (List.range object.num_vertices).map
          (vertexNormal sqrtf object smooth_discontinuous_vertices) })

/-- The loop "Calculate polygon normals" of `Convert_Data` and of
`Convert_Data_With_Texcoords`. -/
def polygonNormals (sqrtf : F → F) (vertex : List (Vector3D F))
    (polygon : List Polygon3D) (src_num_polys : Nat) : List (Vector3D F) :=
  (List.range src_num_polys).map fun i =>
    let poly := readNat ⟨0, 0, 0⟩ polygon i
    (SurfaceNormal sqrtf
      (readNat Vector3D.zero vertex poly.index0)
      (readNat Vector3D.zero vertex poly.index1)
      (readNat Vector3D.zero vertex poly.index2)).2

/-- A stored `float` as far as `memcmp` tells it from another: its value and
its sign bit.  The floats `0.0` and `-0.0` have the value 0 and different sign
bits. -/
structure StoredFloat (F : Type) where
  value : F
  signBit : Bool
  deriving DecidableEq, Repr

/-- The value of a stored vector. -/
def storedValue (s : Vector3D (StoredFloat F)) : Vector3D F :=
  ⟨s.x.value, s.y.value, s.z.value⟩

/-- The test of the `k` loop of `ComputeVertexNormals` on the stored
representation `stored` of the array `object->vertex`: with
`smooth_discontinuous_vertices` a corner matches when
`memcmp (&vertex[index[k]], &vertex[i], sizeof (Vector3D))` is 0, that is when
the two entries are stored identically. -/
def adjacentPolygonStored {R : Type} [DecidableEq R] (stored : List R) (dflt : R)
    (smooth_discontinuous_vertices : Bool) (i : Nat) (poly : Polygon3D) : Bool :=
  if smooth_discontinuous_vertices then
    [poly.index0, poly.index1, poly.index2].any fun idx =>
      decide (readNat dflt stored idx = readNat dflt stored i)
  else
    [poly.index0, poly.index1, poly.index2].any fun idx => decide (idx = i)

/-- The `j` loop of `ComputeVertexNormals` for vertex `i`, with the adjacency
test on the stored representation of the vertices. -/
def accumulateNormalsStored {R : Type} [DecidableEq R] (object : Object3D F) (stored : List R)
    (dflt : R) (smooth_discontinuous_vertices : Bool) (i : Nat) : Vector3D F × Nat :=
  (List.range object.num_polygons).foldl
    (fun acc j =>
      if adjacentPolygonStored stored dflt smooth_discontinuous_vertices i
          (readNat ⟨0, 0, 0⟩ object.polygon j) then
        let n := readNat Vector3D.zero object.polygon_normal j
        (⟨acc.1.x + n.x, acc.1.y + n.y, acc.1.z + n.z⟩, acc.2 + 1)
      else acc)
    (Vector3D.zero, 0)

/-- The body of the `i` loop of `ComputeVertexNormals`, with the adjacency
test on the stored representation of the vertices. -/
def vertexNormalStored {R : Type} [DecidableEq R] (sqrtf : F → F) (object : Object3D F)
    (stored : List R) (dflt : R) (smooth_discontinuous_vertices : Bool) (i : Nat) :
    Vector3D F :=
  let acc := accumulateNormalsStored object stored dflt smooth_discontinuous_vertices i
  let sum := acc.1
  let poly_count := acc.2
  let averaged : Vector3D F :=
    if poly_count ≠ 0 then
      let f : F := 1 / (poly_count : F)
      ⟨sum.x * f, sum.y * f, sum.z * f⟩
    else sum
  NormalizeVector sqrtf averaged

/-- `ComputeVertexNormals` of `math3d.cpp`, with the adjacency test on the
stored representation `stored` of the array `object->vertex`. -/
def ComputeVertexNormalsStored {R : Type} [DecidableEq R] (sqrtf : F → F)
    (object : Object3D F) (stored : List R) (dflt : R)
    (smooth_discontinuous_vertices : Bool) : Bool × Object3D F :=
  (true,
    { object with
      vertex_normal :=
        (List.range object.num_vertices).map
          (vertexNormalStored sqrtf object stored dflt smooth_discontinuous_vertices) })

/-- The struct `Matrix3D` of `math3d.h`: sixteen floats, row after row. -/
structure Matrix3D (F : Type) where
  _00 : F
  _01 : F
  _02 : F
  _03 : F
  _10 : F
  _11 : F
  _12 : F
  _13 : F
  _20 : F
  _21 : F
  _22 : F
  _23 : F
  _30 : F
  _31 : F
  _32 : F
  _33 : F
  deriving DecidableEq, Repr

/-- The view `(float *)m` of a matrix: its members in the order of the struct. -/
def Matrix3D.floats (m : Matrix3D F) : List F :=
  [m._00, m._01, m._02, m._03, m._10, m._11, m._12, m._13,
    m._20, m._21, m._22, m._23, m._30, m._31, m._32, m._33]

/-- The matrix whose view `(float *)m` is the array `a` of sixteen floats. -/
def Matrix3D.ofFloats (a : List F) : Matrix3D F :=
  ⟨readNat 0 a 0, readNat 0 a 1, readNat 0 a 2, readNat 0 a 3,
    readNat 0 a 4, readNat 0 a 5, readNat 0 a 6, readNat 0 a 7,
    readNat 0 a 8, readNat 0 a 9, readNat 0 a 10, readNat 0 a 11,
    readNat 0 a 12, readNat 0 a 13, readNat 0 a 14, readNat 0 a 15⟩

/-- `MultiplyMatrix` of `math3d.cpp`: the value written to `*mresult`.  The
three nested loops add `m1[i * 4 + k] * m2[k * 4 + j]` to `mtemp[i * 4 + j]`,
starting from the zeroed `mtemp`. -/
def MultiplyMatrix (m1 m2 : Matrix3D F) : Matrix3D F :=
  let mtemp : List F :=
    (List.range 4).foldl
      (fun t i =>
        (List.range 4).foldl
          (fun t j =>
            (List.range 4).foldl
              (fun t k =>
                t.set (i * 4 + j)
                  (readNat 0 t (i * 4 + j)
                    + readNat 0 m1.floats (i * 4 + k) * readNat 0 m2.floats (k * 4 + j)))
              t)
          t)
      (List.replicate 16 0)
  Matrix3D.ofFloats mtemp

/-- `MultiplyVectorMatrix` of `math3d.cpp`: the value written to `*vresult`. -/
def MultiplyVectorMatrix (v : Vector3D F) (m : Matrix3D F) : Vector3D F :=
  let vorig : Vector3D F := ⟨v.x, v.y, v.z⟩
  ⟨vorig.x * m._00 + vorig.y * m._01 + vorig.z * m._02 + m._03,
    vorig.x * m._10 + vorig.y * m._11 + vorig.z * m._12 + m._13,
    vorig.x * m._20 + vorig.y * m._21 + vorig.z * m._22 + m._23⟩

end Math3D

/-! ## `ReadOBJFile.cpp` -/

/-- The face-record update of `ReadOBJFile` for a face line in the plain
format (`case 0` of the switch): `sscanf_s` has read the three integers
`a b c` of the line `f a b c` into the `v` members of the `calloc`ed record
`src_polys[p]`, and all indices are then decremented (the `t` members only when
`load_texcoords` is set). -/
def ingestPlainFace (load_texcoords : Bool) (a b c : Int) : SrcPoly :=
  let scanned : SrcPoly := ⟨⟨a, 0⟩, ⟨b, 0⟩, ⟨c, 0⟩⟩
  let dec (s : SrcPolyVertex) : SrcPolyVertex :=
    ⟨s.v - 1, if load_texcoords then s.t - 1 else s.t⟩
  ⟨dec scanned.vdata0, dec scanned.vdata1, dec scanned.vdata2⟩

/-- The search loop `for (k=0; k<num_gx_vertices; k++)` of
`Convert_Data_With_Texcoords`, started at index `k` on the remaining
signatures: the first `k` whose signature compares equal (`memcmp`) to `c`,
or `none` when the loop ends with `found == false`. -/
def findSig (c : SrcPolyVertex) : List SrcPolyVertex → Nat → Option Nat
  | [], _ => none
  | s :: rest, k => if c = s then some k else findSig c rest (k + 1)

section Convert

variable {F : Type} [Field F] [DecidableEq F]

/-- The temporary arrays of `Convert_Data_With_Texcoords`, restricted to
their first `num_gx_vertices` entries. -/
structure GxState (F : Type) where
  tmp_gx_vertices : List (Vector3D F)
  tmp_gx_texcoords : List (UVCoordinate F)
  tmp_gx_vertices_sig : List SrcPolyVertex

/-- The counter `num_gx_vertices`: the number of entries in use. -/
def GxState.num_gx_vertices (st : GxState F) : Nat := st.tmp_gx_vertices_sig.length

/-- The state at `num_gx_vertices = 0`. -/
def GxState.init : GxState F := ⟨[], [], []⟩

/-- The body of the `j` loop of `Convert_Data_With_Texcoords` for the corner
`c = src_polys[i].vdata[j]`: the new state and the value stored in
`object->polygon[i].index[j]`, or `none` when `exit(0)` is called. -/
def dedupCorner (src_vertices : List (Vector3D F)) (src_texcoords : List (UVCoordinate F))
    (max_gx_vertices : Nat) (st : GxState F) (c : SrcPolyVertex) :
    Option (GxState F × Nat) :=
  match findSig c st.tmp_gx_vertices_sig 0 with
  | some k => some (st, toUShort k)
  | none =>
    if st.num_gx_vertices = max_gx_vertices then none
    else
      some
        ({ tmp_gx_vertices := st.tmp_gx_vertices ++ [readArr Vector3D.zero src_vertices c.v]
           tmp_gx_texcoords :=
             st.tmp_gx_texcoords ++ [readArr UVCoordinate.zero src_texcoords c.t]
           tmp_gx_vertices_sig := st.tmp_gx_vertices_sig ++ [c] },
          toUShort st.num_gx_vertices)

/-- The body of the `i` loop of `Convert_Data_With_Texcoords`: the three
corners of one source polygon, in the order `j = 0, 1, 2`. -/
def dedupPoly (src_vertices : List (Vector3D F)) (src_texcoords : List (UVCoordinate F))
    (max_gx_vertices : Nat) (st : GxState F) (p : SrcPoly) :
    Option (GxState F × Polygon3D) :=
  match dedupCorner src_vertices src_texcoords max_gx_vertices st p.vdata0 with
  | none => none
  | some (st0, k0) =>
    match dedupCorner src_vertices src_texcoords max_gx_vertices st0 p.vdata1 with
    | none => none
    | some (st1, k1) =>
      match dedupCorner src_vertices src_texcoords max_gx_vertices st1 p.vdata2 with
      | none => none
      | some (st2, k2) => some (st2, ⟨k0, k1, k2⟩)

/-- The `i` loop of `Convert_Data_With_Texcoords` over the source polygons
that remain: the final state and the entries of `object->polygon` written. -/
def dedupLoop (src_vertices : List (Vector3D F)) (src_texcoords : List (UVCoordinate F))
    (max_gx_vertices : Nat) : GxState F → List SrcPoly → Option (GxState F × List Polygon3D)
  | st, [] => some (st, [])
  | st, p :: rest =>
    match dedupPoly src_vertices src_texcoords max_gx_vertices st p with
    | none => none
    | some (st1, poly) =>
      match dedupLoop src_vertices src_texcoords max_gx_vertices st1 rest with
      | none => none
      | some (st2, polys) => some (st2, poly :: polys)

/-- The section "Build temp arrays of vertices and texcoords" of
`Convert_Data_With_Texcoords`, with `max_gx_vertices = src_num_polys * 3`. -/
def buildGx (src_vertices : List (Vector3D F)) (src_texcoords : List (UVCoordinate F))
    (src_polys : List SrcPoly) : Option (GxState F × List Polygon3D) :=
  let src_num_polys := src_polys.length
  let max_gx_vertices := src_num_polys * 3
  dedupLoop src_vertices src_texcoords max_gx_vertices GxState.init src_polys

/-- `Convert_Data_With_Texcoords` of `ReadOBJFile.cpp`, on the source arrays
`src_vertices`, `src_texcoords`, `src_polys` (the file-level globals): the
object filled in, or `none` when `exit(0)` is called. -/
def Convert_Data_With_Texcoords (sqrtf : F → F) (src_vertices : List (Vector3D F))
    (src_texcoords : List (UVCoordinate F)) (src_polys : List SrcPoly)
    (smooth_discontinuous_vertices : Bool) : Option (Object3D F) :=
  let src_num_polys := src_polys.length
  match buildGx src_vertices src_texcoords src_polys with
  | none => none
  | some (st, polygon) =>
    let num_gx_vertices := st.num_gx_vertices
    let vertex := st.tmp_gx_vertices.take num_gx_vertices
    let object : Object3D F :=
      { num_vertices := num_gx_vertices
        num_polygons := src_num_polys
        vertex := vertex
        vertex_normal := []
        tex_coords := some (st.tmp_gx_texcoords.take num_gx_vertices)
        polygon := polygon
        polygon_normal := polygonNormals sqrtf vertex polygon src_num_polys }
    some (ComputeVertexNormals sqrtf object smooth_discontinuous_vertices).2

/-- `Convert_Data` of `ReadOBJFile.cpp`, on the source arrays `src_vertices`
and `src_polys` (the file-level globals). -/
def Convert_Data (sqrtf : F → F) (src_vertices : List (Vector3D F))
    (src_polys : List SrcPoly) (smooth_discontinuous_vertices : Bool) : Object3D F :=
  let src_num_vertices := src_vertices.length
  let src_num_polys := src_polys.length
  let vertex := (List.range src_num_vertices).map fun i => readNat Vector3D.zero src_vertices i
  let polygon : List Polygon3D := (List.range src_num_polys).map fun i =>
    let p := readNat (⟨⟨0, 0⟩, ⟨0, 0⟩, ⟨0, 0⟩⟩ : SrcPoly) src_polys i
    ⟨intToUShort p.vdata0.v, intToUShort p.vdata1.v, intToUShort p.vdata2.v⟩
  let object : Object3D F :=
    { num_vertices := src_num_vertices
      num_polygons := src_num_polys
      vertex := vertex
      vertex_normal := []
      tex_coords := none
      polygon := polygon
      polygon_normal := polygonNormals sqrtf vertex polygon src_num_polys }
  (ComputeVertexNormals sqrtf object smooth_discontinuous_vertices).2

end Convert

/-! ## `ReadOBJFile`: classification of lines and ingestion of face records -/

/-- The NUL character. -/
def NUL : Char := Char.ofNat 0

/-- The characters `line[0]` and `line[1]` of the buffer after
`line[0] = 0; line[1] = 0; fgets (line, 500, fp);` when `fgets` has stored the
characters `line` (none at the end of the file): the character read, or NUL. -/
def lineChar (line : List Char) (k : Nat) : Char := line.getD k NUL

/-- The kind of record a line is taken for by the `if ... else if` chain that
the counting loop and the reading loop of `ReadOBJFile` share. -/
inductive LineKind where
  | position
  | texcoord
  | face
  | other
  deriving DecidableEq, Repr

/-- The `if ... else if` chain on `line[0]` and `line[1]` of `ReadOBJFile`. -/
def classifyLine (line : List Char) : LineKind :=
  if lineChar line 0 = 'v' ∧ lineChar line 1 = ' ' then LineKind.position
  else if lineChar line 0 = 'v' ∧ lineChar line 1 = 't' then LineKind.texcoord
  else if lineChar line 0 = 'f' ∧ lineChar line 1 = ' ' then LineKind.face
  else LineKind.other

/-- The counters `src_num_vertices`, `src_num_texcoords`, `src_num_polys`. -/
structure SrcCounts where
  src_num_vertices : Nat
  src_num_texcoords : Nat
  src_num_polys : Nat
  deriving DecidableEq, Repr

/-- The body of the counting loop of `ReadOBJFile` for one line. -/
def countLine (counts : SrcCounts) (line : List Char) : SrcCounts :=
  match classifyLine line with
  | LineKind.position => { counts with src_num_vertices := counts.src_num_vertices + 1 }
  | LineKind.texcoord => { counts with src_num_texcoords := counts.src_num_texcoords + 1 }
  | LineKind.face => { counts with src_num_polys := counts.src_num_polys + 1 }
  | LineKind.other => counts

/-- The counting loop of `ReadOBJFile` over the successive contents of the
line buffer. -/
def countPass (lines : List (List Char)) : SrcCounts :=
  lines.foldl countLine ⟨0, 0, 0⟩

/-- The loop of `strNumExists` with its counter `n`. -/
def strNumExistsLoop (c : Char) : List Char → Nat → Nat
  | [], n => n
  | x :: rest, n => strNumExistsLoop c rest (if x = c then n + 1 else n)

/-- `strNumExists` of `ReadOBJFile.cpp`, on the characters of the string
before its terminator. -/
def strNumExists (str : List Char) (c : Char) : Nat := strNumExistsLoop c str 0

/-- The test `strstr(line,"//")` of `ReadOBJFile`: does the string contain two
consecutive slashes? -/
def strstrSlashSlash : List Char → Bool
  | [] => false
  | c :: rest => (c = '/' && rest.head? = some '/') || strstrSlashSlash rest

/-- The four `sscanf_s` calls of `ReadOBJFile` for a face line, and the case
in which the `switch` has no matching label. -/
inductive FaceFormat where
  | positionNormal
  | plain
  | positionTexture
  | positionTextureNormal
  | unrecognised
  deriving DecidableEq, Repr

/-- The selection "from 4 different formats" of `ReadOBJFile`. -/
def faceFormat (line : List Char) : FaceFormat :=
  if strstrSlashSlash line then FaceFormat.positionNormal
  else
    match strNumExists line '/' with
    | 0 => FaceFormat.plain
    | 3 => FaceFormat.positionTexture
    | 6 => FaceFormat.positionTextureNormal
    | _ => FaceFormat.unrecognised

/-- A directive of a `scanf` format: a character to match, white space, or
the conversion `%d`. -/
inductive ScanItem where
  | lit (c : Char)
  | white
  | int
  deriving DecidableEq, Repr

/-- The test `isspace` of the C library in the "C" locale. -/
def isSpace (c : Char) : Bool :=
  c = ' ' || c = '\t' || c = '\n' || c = '\r' || c = Char.ofNat 11 || c = Char.ofNat 12

/-- The directives of a format string that uses no conversion but `%d`. -/
def parseFormat : List Char → List ScanItem
  | [] => []
  | '%' :: 'd' :: rest => ScanItem.int :: parseFormat rest
  | c :: rest => (if isSpace c then ScanItem.white else ScanItem.lit c) :: parseFormat rest

/-- Skipping white space in the input. -/
def skipSpace : List Char → List Char
  | [] => []
  | c :: rest => if isSpace c then skipSpace rest else c :: rest

/-- The value of a decimal digit. -/
def digitVal (c : Char) : Option Nat :=
  if '0' ≤ c ∧ c ≤ '9' then some (c.toNat - '0'.toNat) else none

/-- The longest run of decimal digits at the start of the input, accumulated
on `acc`, and the rest of the input. -/
def scanDigits : List Char → Nat → Nat × List Char
  | [], acc => (acc, [])
  | c :: rest, acc =>
    match digitVal c with
    | some d => scanDigits rest (10 * acc + d)
    | none => (acc, c :: rest)

/-- The conversion `%d`: white space is skipped, then an optional sign and at
least one decimal digit are read.  The value is that of the numeral; it is the
value stored by the program for numerals within the range of `int` (at most
`INT_MAX` in absolute value), beyond which the conversion is undefined in C. -/
def scanInt (input : List Char) : Option (Int × List Char) :=
  let unsigned (s : List Char) : Option (Nat × List Char) :=
    match s with
    | [] => none
    | c :: _ => if (digitVal c).isSome then some (scanDigits s 0) else none
  match skipSpace input with
  | '-' :: rest => (unsigned rest).map fun r => (-(r.1 : Int), r.2)
  | '+' :: rest => (unsigned rest).map fun r => ((r.1 : Int), r.2)
  | s => (unsigned s).map fun r => ((r.1 : Int), r.2)

/-- The values converted by `sscanf_s`, in the order of the conversions, up to
the first directive that fails. -/
def sscanf : List ScanItem → List Char → List Int
  | [], _ => []
  | ScanItem.lit _ :: _, [] => []
  | ScanItem.lit c :: fmt, x :: input => if x = c then sscanf fmt input else []
  | ScanItem.white :: fmt, input => sscanf fmt (skipSpace input)
  | ScanItem.int :: fmt, input =>
    match scanInt input with
    | none => []
    | some (v, rest) => v :: sscanf fmt rest

/-- The local variables `tex0, tex1, tex2, vn0, vn1, vn2` of `ReadOBJFile`;
they are declared outside the reading loop and keep their values from one
line to the next. -/
structure ScanVars where
  tex0 : Int
  tex1 : Int
  tex2 : Int
  vn0 : Int
  vn1 : Int
  vn2 : Int
  deriving DecidableEq, Repr

/-- The body of the reading loop of `ReadOBJFile` for a line taken for a face:
the record `src_polys[p]` (zero after `calloc`) after the `sscanf_s` call of
the selected format and the decrements, and the new values of the local
variables.  An argument of `sscanf_s` whose conversion is not reached keeps
its value. -/
def ingestFaceLine (load_texcoords : Bool) (vars : ScanVars) (line : List Char) :
    SrcPoly × ScanVars :=
  let scanned : SrcPoly × ScanVars :=
    match faceFormat line with
    | FaceFormat.positionNormal =>
      let r := sscanf (parseFormat ("f %d//%d %d//%d %d//%d".toList)) line
      (⟨⟨r.getD 0 0, 0⟩, ⟨r.getD 2 0, 0⟩, ⟨r.getD 4 0, 0⟩⟩,
        { vars with vn0 := r.getD 1 vars.vn0, vn1 := r.getD 3 vars.vn1,
                    vn2 := r.getD 5 vars.vn2 })
    | FaceFormat.plain =>
      let r := sscanf (parseFormat ("f %d %d %d".toList)) line
      (⟨⟨r.getD 0 0, 0⟩, ⟨r.getD 1 0, 0⟩, ⟨r.getD 2 0, 0⟩⟩, vars)
    | FaceFormat.positionTexture =>
      let r := sscanf (parseFormat ("f %d/%d %d/%d %d/%d".toList)) line
      let vars1 : ScanVars :=
        { vars with tex0 := r.getD 1 vars.tex0, tex1 := r.getD 3 vars.tex1,
                    tex2 := r.getD 5 vars.tex2 }
      (⟨⟨r.getD 0 0, if load_texcoords then vars1.tex0 else 0⟩,
        ⟨r.getD 2 0, if load_texcoords then vars1.tex1 else 0⟩,
        ⟨r.getD 4 0, if load_texcoords then vars1.tex2 else 0⟩⟩, vars1)
    | FaceFormat.positionTextureNormal =>
      let r := sscanf (parseFormat ("f %d/%d/%d %d/%d/%d %d/%d/%d".toList)) line
      let vars1 : ScanVars :=
        { tex0 := r.getD 1 vars.tex0, vn0 := r.getD 2 vars.vn0,
          tex1 := r.getD 4 vars.tex1, vn1 := r.getD 5 vars.vn1,
          tex2 := r.getD 7 vars.tex2, vn2 := r.getD 8 vars.vn2 }
      (⟨⟨r.getD 0 0, if load_texcoords then vars1.tex0 else 0⟩,
        ⟨r.getD 3 0, if load_texcoords then vars1.tex1 else 0⟩,
        ⟨r.getD 6 0, if load_texcoords then vars1.tex2 else 0⟩⟩, vars1)
    | FaceFormat.unrecognised => (⟨⟨0, 0⟩, ⟨0, 0⟩, ⟨0, 0⟩⟩, vars)
  let dec (s : SrcPolyVertex) : SrcPolyVertex :=
    ⟨s.v - 1, if load_texcoords then s.t - 1 else s.t⟩
  (⟨dec scanned.1.vdata0, dec scanned.1.vdata1, dec scanned.1.vdata2⟩, scanned.2)

/-- The decimal numeral of a natural number, without leading zeros. -/
def decimal (n : Nat) : List Char :=
  if n = 0 then ['0'] else (Nat.digits 10 n).reverse.map Nat.digitChar

/-- The face line `f i0/t0 i1/t1 i2/t2` followed by `eol`. -/
def faceLinePT (i0 t0 i1 t1 i2 t2 : Nat) (eol : List Char) : List Char :=
  'f' :: ' ' :: decimal i0 ++ '/' :: decimal t0 ++ ' ' :: decimal i1 ++ '/' :: decimal t1
    ++ ' ' :: decimal i2 ++ '/' :: decimal t2 ++ eol

/-- The face line `f i0/t0/n0 i1/t1/n1 i2/t2/n2` followed by `eol`. -/
def faceLinePTN (i0 t0 n0 i1 t1 n1 i2 t2 n2 : Nat) (eol : List Char) : List Char :=
  'f' :: ' ' :: decimal i0 ++ '/' :: decimal t0 ++ '/' :: decimal n0
    ++ ' ' :: decimal i1 ++ '/' :: decimal t1 ++ '/' :: decimal n1
    ++ ' ' :: decimal i2 ++ '/' :: decimal t2 ++ '/' :: decimal n2 ++ eol

/-! ## `ReadOBJFile`: the whole function -/

/-- A decimal floating constant as it is written: sign, digits of the
mantissa read as a natural number, and power of ten. -/
structure DecimalValue where
  negative : Bool
  mantissa : Nat
  exponent : Int
  deriving DecidableEq, Repr

/-- The exact value of a decimal constant (the conversion `%f` is not rounded
in the model). -/
def DecimalValue.toField {F : Type} [Field F] (d : DecimalValue) : F :=
  (if d.negative then -1 else 1) * (d.mantissa : F) * (10 : F) ^ d.exponent

/-- The conversion `%f` on a decimal constant: white space is skipped, then
an optional sign, digits with an optional point (at least one digit), and an
optional exponent `e` or `E` with optional sign and at least one digit. -/
def scanDecimal (input : List Char) : Option (DecimalValue × List Char) :=
  let signed : Bool × List Char :=
    match skipSpace input with
    | '-' :: rest => (true, rest)
    | '+' :: rest => (false, rest)
    | s => (false, s)
  let intPart := scanDigits signed.2 0
  let intLen := signed.2.length - intPart.2.length
  let mant : Nat × List Char × Nat :=
    match intPart.2 with
    | '.' :: rest =>
      let fracPart := scanDigits rest intPart.1
      (fracPart.1, fracPart.2, rest.length - fracPart.2.length)
    | s => (intPart.1, s, 0)
  if intLen + mant.2.2 = 0 then none
  else
    let unsignedExp (s : List Char) : Option (Nat × List Char) :=
      match s with
      | [] => none
      | c :: _ => if (digitVal c).isSome then some (scanDigits s 0) else none
    let expo : Int × List Char :=
      match mant.2.1 with
      | 'e' :: '-' :: rest =>
        match unsignedExp rest with
        | some r => (-(r.1 : Int), r.2)
        | none => (0, mant.2.1)
      | 'e' :: '+' :: rest =>
        match unsignedExp rest with
        | some r => ((r.1 : Int), r.2)
        | none => (0, mant.2.1)
      | 'e' :: rest =>
        match unsignedExp rest with
        | some r => ((r.1 : Int), r.2)
        | none => (0, mant.2.1)
      | 'E' :: '-' :: rest =>
        match unsignedExp rest with
        | some r => (-(r.1 : Int), r.2)
        | none => (0, mant.2.1)
      | 'E' :: '+' :: rest =>
        match unsignedExp rest with
        | some r => ((r.1 : Int), r.2)
        | none => (0, mant.2.1)
      | 'E' :: rest =>
        match unsignedExp rest with
        | some r => ((r.1 : Int), r.2)
        | none => (0, mant.2.1)
      | s => (0, s)
    some (⟨signed.1, mant.1, expo.1 - (mant.2.2 : Int)⟩, expo.2)

/-- A directive of a `scanf` format that uses no conversion but `%f`. -/
inductive FloatScanItem where
  | lit (c : Char)
  | white
  | float
  deriving DecidableEq, Repr

/-- The directives of a format string that uses no conversion but `%f`. -/
def parseFloatFormat : List Char → List FloatScanItem
  | [] => []
  | '%' :: 'f' :: rest => FloatScanItem.float :: parseFloatFormat rest
  | c :: rest =>
    (if isSpace c then FloatScanItem.white else FloatScanItem.lit c) :: parseFloatFormat rest

/-- The constants converted by `sscanf_s` for a format with `%f` conversions,
in the order of the conversions, up to the first directive that fails. -/
def sscanfDecimal : List FloatScanItem → List Char → List DecimalValue
  | [], _ => []
  | FloatScanItem.lit _ :: _, [] => []
  | FloatScanItem.lit c :: fmt, x :: input => if x = c then sscanfDecimal fmt input else []
  | FloatScanItem.white :: fmt, input => sscanfDecimal fmt (skipSpace input)
  | FloatScanItem.float :: fmt, input =>
    match scanDecimal input with
    | none => []
    | some (v, rest) => v :: sscanfDecimal fmt rest

section ReadFile

variable {F : Type} [Field F]

/-- The entry `src_vertices[v]` after `sscanf_s (line, "v %f %f %f", ...)`: a
member whose conversion is not reached keeps its value. -/
def scanVertexLine (old : Vector3D F) (line : List Char) : Vector3D F :=
  let r : List F :=
    (sscanfDecimal (parseFloatFormat ("v %f %f %f".toList)) line).map DecimalValue.toField
  ⟨r.getD 0 old.x, r.getD 1 old.y, r.getD 2 old.z⟩

/-- The entry `src_texcoords[t]` after `sscanf_s (line, "vt %f %f", ...)`. -/
def scanTexcoordLine (old : UVCoordinate F) (line : List Char) : UVCoordinate F :=
  let r : List F :=
    (sscanfDecimal (parseFloatFormat ("vt %f %f".toList)) line).map DecimalValue.toField
  ⟨r.getD 0 old.u, r.getD 1 old.v⟩

/-- The source arrays, the indices `v, p, t` into them and the local
variables `tex0 .. vn2` during the reading loop of `ReadOBJFile`. -/
structure ReadState (F : Type) where
  src_vertices : List (Vector3D F)
  src_texcoords : List (UVCoordinate F)
  src_polys : List SrcPoly
  v : Nat
  p : Nat
  t : Nat
  vars : ScanVars

/-- The body of the reading loop of `ReadOBJFile` for one line.  The entry
`src_polys[p]` is still zero (after `calloc`) when it is written, which
`ingestFaceLine` relies on. -/
def readLine (load_texcoords : Bool) (st : ReadState F) (line : List Char) : ReadState F :=
  match classifyLine line with
  | LineKind.position =>
    { st with
      src_vertices :=
        st.src_vertices.set st.v (scanVertexLine (readNat Vector3D.zero st.src_vertices st.v) line)
      v := st.v + 1 }
  | LineKind.texcoord =>
    if load_texcoords then
      { st with
        src_texcoords :=
          st.src_texcoords.set st.t
            (scanTexcoordLine (readNat UVCoordinate.zero st.src_texcoords st.t) line)
        t := st.t + 1 }
    else st
  | LineKind.face =>
    { st with
      src_polys := st.src_polys.set st.p (ingestFaceLine load_texcoords st.vars line).1
      p := st.p + 1
      vars := (ingestFaceLine load_texcoords st.vars line).2 }
  | LineKind.other => st

/-- The reading loop of `ReadOBJFile` over the lines of the file. -/
def readPass (load_texcoords : Bool) (st : ReadState F) (lines : List (List Char)) :
    ReadState F :=
  lines.foldl (readLine load_texcoords) st

/-- What a call of `ReadOBJFile` ends with: it returns with `*object` null
(`none`) or pointing to an object, or the process exits (`exit(0)` in
`Convert_Data_With_Texcoords`), or a null source array is read. -/
inductive LoadOutcome (F : Type) where
  | returned (object : Option (Object3D F))
  | exited
  | undefined

/-- The call of `Convert_Data_With_Texcoords` in `ReadOBJFile`. -/
def callConvertWithTexcoords [DecidableEq F] (sqrtf : F → F)
    (src_vertices : List (Vector3D F)) (src_texcoords : List (UVCoordinate F))
    (src_polys : List SrcPoly) (smooth : Bool) : LoadOutcome F :=
  match Convert_Data_With_Texcoords sqrtf src_vertices src_texcoords src_polys smooth with
  | some object => LoadOutcome.returned (some object)
  | none => LoadOutcome.exited

/-- `ReadOBJFile` of `ReadOBJFile.cpp`.  The file is `none` when `fopen`
fails, and otherwise the successive contents of the line buffer; `vars0`
holds the values of the uninitialised variables `tex0 .. vn2`.

When `error` is set the source arrays stay null while the counters keep what
the counting loop found, and the object is created and converted all the
same: the conversion loops run `src_num_vertices` and `src_num_polys` times,
so they read no array when these are 0 and a null array otherwise. -/
def ReadOBJFile [DecidableEq F] (sqrtf : F → F) (file : Option (List (List Char)))
    (load_texcoords : Bool) (smooth_discontinuous_vertices : Bool) (vars0 : ScanVars) :
    LoadOutcome F :=
  let counts : SrcCounts :=
    match file with
    | none => ⟨0, 0, 0⟩
    | some lines => countPass lines
  let error : Bool :=
    file.isNone || decide (counts.src_num_vertices = 0) || decide (counts.src_num_polys = 0)
      || (load_texcoords && decide (counts.src_num_texcoords = 0))
  match file, error with
  | some lines, false =>
    let st0 : ReadState F :=
      { src_vertices := List.replicate counts.src_num_vertices Vector3D.zero
        src_texcoords :=
          if load_texcoords then List.replicate counts.src_num_texcoords UVCoordinate.zero
          else []
        src_polys := List.replicate counts.src_num_polys ⟨⟨0, 0⟩, ⟨0, 0⟩, ⟨0, 0⟩⟩
        v := 0
        p := 0
        t := 0
        vars := vars0 }
    let st := readPass load_texcoords st0 lines
    if load_texcoords then
      callConvertWithTexcoords sqrtf st.src_vertices st.src_texcoords st.src_polys
        smooth_discontinuous_vertices
    else
      LoadOutcome.returned
        (some (Convert_Data sqrtf st.src_vertices st.src_polys smooth_discontinuous_vertices))
  | _, _ =>
    if load_texcoords then
      if counts.src_num_polys = 0 then
        callConvertWithTexcoords sqrtf [] [] [] smooth_discontinuous_vertices
      else LoadOutcome.undefined
    else if counts.src_num_vertices = 0 ∧ counts.src_num_polys = 0 then
      LoadOutcome.returned (some (Convert_Data sqrtf [] [] smooth_discontinuous_vertices))
    else LoadOutcome.undefined

/-- The state in which the reading loop of `ReadOBJFile` starts: the arrays
as `calloc` returns them, `src_texcoords` only with `load_texcoords`, and
`v = p = t = 0`. -/
def allocatedState (counts : SrcCounts) (load_texcoords : Bool) (vars0 : ScanVars) :
    ReadState F :=
  { src_vertices := List.replicate counts.src_num_vertices Vector3D.zero
    src_texcoords :=
      if load_texcoords then List.replicate counts.src_num_texcoords UVCoordinate.zero
      else []
    src_polys := List.replicate counts.src_num_polys ⟨⟨0, 0⟩, ⟨0, 0⟩, ⟨0, 0⟩⟩
    v := 0
    p := 0
    t := 0
    vars := vars0 }

/-- The position records of a file, in the order of the file. -/
def positionsOf (lines : List (List Char)) : List (Vector3D F) :=
  (lines.filter fun l => decide (classifyLine l = LineKind.position)).map
    (scanVertexLine Vector3D.zero)

/-- The texcoord records of a file, in the order of the file. -/
def texcoordsOf (lines : List (List Char)) : List (UVCoordinate F) :=
  (lines.filter fun l => decide (classifyLine l = LineKind.texcoord)).map
    (scanTexcoordLine UVCoordinate.zero)

end ReadFile

/-- The face records of a file, in the order of the file; `vars` holds the
variables `tex0 .. vn2` before the first line. -/
def facesOf (load_texcoords : Bool) : ScanVars → List (List Char) → List SrcPoly
  | _, [] => []
  | vars, line :: rest =>
    if classifyLine line = LineKind.face then
      (ingestFaceLine load_texcoords vars line).1
        :: facesOf load_texcoords (ingestFaceLine load_texcoords vars line).2 rest
    else facesOf load_texcoords vars rest

/-- The face line `f a b c` followed by `eol`. -/
def faceLinePlain (a b c : Nat) (eol : List Char) : List Char :=
  'f' :: ' ' :: decimal a ++ ' ' :: decimal b ++ ' ' :: decimal c ++ eol

/-- The number of lines of a file that are taken for a record of kind `k`. -/
def countKind (k : LineKind) (lines : List (List Char)) : Nat :=
  (lines.filter fun l => decide (classifyLine l = k)).length

/-- Scenario A: the unit square as a file without texcoords. -/
def scenarioA : List (List Char) :=
  ["v 0 0 0\n".toList, "v 1 0 0\n".toList, "v 1 1 0\n".toList, "v 0 1 0\n".toList,
    "f 1 2 3\n".toList, "f 1 3 4\n".toList]

/-- A file of three positions whose only face refers to a ninth position. -/
def badIndexFile : List (List Char) :=
  ["v 0 0 0\n".toList, "v 1 0 0\n".toList, "v 0 1 0\n".toList, "f 1 2 9\n".toList]

/-- A file with three positions and three texcoords whose face refers to a
ninth texcoord. -/
def badTexcoordFile : List (List Char) :=
  ["v 0 0 0\n".toList, "v 1 0 0\n".toList, "v 0 1 0\n".toList,
    "vt 0 0\n".toList, "vt 1 0\n".toList, "vt 0 1\n".toList, "f 1/1 2/2 3/9\n".toList]

/-- A file with three positions and three texcoords whose face is in the
plain form, without texcoord indices. -/
def plainFaceTexcoordFile : List (List Char) :=
  ["v 0 0 0\n".toList, "v 1 0 0\n".toList, "v 0 1 0\n".toList,
    "vt 0 0\n".toList, "vt 1 0\n".toList, "vt 0 1\n".toList, "f 1 2 3\n".toList]

/-- A file whose only face line has one slash. -/
def oneSlashFile : List (List Char) :=
  ["v 0 0 0\n".toList, "v 1 0 0\n".toList, "v 0 1 0\n".toList, "f 1/1 2 3\n".toList]

/-- Scenario B: three positions, three texcoords and the face line
`f 1/1/1 2/2/1 3/3/1`. -/
def scenarioB : List (List Char) :=
  ["v 0 0 0\n".toList, "v 1 0 0\n".toList, "v 0 1 0\n".toList,
    "vt 0 0\n".toList, "vt 1 0\n".toList, "vt 0 1\n".toList,
    "vn 0 0 1\n".toList, "f 1/1/1 2/2/1 3/3/1\n".toList]

/-! ## Specification-side functions -/

/-- The corners of a list of source polygons, polygon by polygon and corner
`0, 1, 2` within a polygon: the order in which `Convert_Data_With_Texcoords`
visits them. -/
def cornerList : List SrcPoly → List SrcPolyVertex
  | [] => []
  | p :: rest => p.vdata0 :: p.vdata1 :: p.vdata2 :: cornerList rest

/-- Adding one signature to a duplicate-free sequence. -/
def addSig (l : List SrcPolyVertex) (c : SrcPolyVertex) : List SrcPolyVertex :=
  if c ∈ l then l else l ++ [c]

/-- Adding signatures one after the other. -/
def addSigs (l : List SrcPolyVertex) (cs : List SrcPolyVertex) : List SrcPolyVertex :=
  cs.foldl addSig l

/-- A list of signatures with every later repetition removed: each signature
is kept where it occurs first. -/
def firstOccurrences : List SrcPolyVertex → List SrcPolyVertex
  | [] => []
  | c :: cs => c :: (firstOccurrences cs).filter fun x => decide (x ≠ c)

/-- A mesh of `n` faces around position `0` in which corner `j` of face `i`
has the texcoord index `3 * i + j`: all `3 * n` signatures are distinct. -/
def seamPolysN (n : Nat) : List SrcPoly :=
  (List.range n).map fun i =>
    ⟨⟨0, ((3 * i : Nat) : Int)⟩, ⟨0, ((3 * i + 1 : Nat) : Int)⟩, ⟨0, ((3 * i + 2 : Nat) : Int)⟩⟩

/-- The mesh `seamPolysN` with `21846` faces, hence `65538` distinct signatures. -/
def seamPolys : List SrcPoly := seamPolysN 21846

/-- The single position of the mesh `seamPolys`. -/
def seamVertices : List (Vector3D ℚ) := [⟨0, 0, 0⟩]

/-- The texture coordinates of the mesh `seamPolys`: entry `n` is `(n, 0)`. -/
def seamTexcoords : List (UVCoordinate ℚ) :=
  (List.range 65538).map fun n : Nat => ⟨(n : ℚ), 0⟩

/-- The position records of a file with `65537` lines `v 0 0 0`. -/
def manyVertices : List (Vector3D ℚ) := List.replicate 65537 ⟨0, 0, 0⟩

/-- Two triangles of a unit square with a texture seam along the diagonal:
positions `0` and `2` are used with two texture coordinates each. -/
def squarePolys : List SrcPoly :=
  [⟨⟨0, 0⟩, ⟨1, 1⟩, ⟨2, 2⟩⟩, ⟨⟨0, 4⟩, ⟨2, 5⟩, ⟨3, 3⟩⟩]

/-- The positions of the unit square. -/
def squareVertices : List (Vector3D ℚ) := [⟨0, 0, 0⟩, ⟨1, 0, 0⟩, ⟨1, 1, 0⟩, ⟨0, 1, 0⟩]

/-- The texture coordinates used by `squarePolys`. -/
def squareTexcoords : List (UVCoordinate ℚ) :=
  [⟨0, 0⟩, ⟨1, 0⟩, ⟨1, 1⟩, ⟨0, 1⟩, ⟨1 / 2, 0⟩, ⟨1 / 2, 1⟩]

/-- The face records read back from an output mesh: the signature of a
triangle corner is the signature recorded for the output vertex that the
stored index refers to. -/
def reconstructPolys (sigs : List SrcPolyVertex) (polygon : List Polygon3D) : List SrcPoly :=
  polygon.map fun q =>
    ⟨readNat ⟨0, 0⟩ sigs q.index0, readNat ⟨0, 0⟩ sigs q.index1, readNat ⟨0, 0⟩ sigs q.index2⟩

section GeometrySpec

variable {F : Type} [Field F]

/-- Three points are collinear when the edge vectors `p2 - p1` and `p3 - p1`
are linearly dependent. -/
def collinearPoints (p1 p2 p3 : Vector3D F) : Prop :=
  ∃ a b : F, (a ≠ 0 ∨ b ≠ 0)
    ∧ a * (p2.x - p1.x) + b * (p3.x - p1.x) = 0
    ∧ a * (p2.y - p1.y) + b * (p3.y - p1.y) = 0
    ∧ a * (p2.z - p1.z) + b * (p3.z - p1.z) = 0

/-- The component-wise sum of a list of vectors. -/
def sumVectors (l : List (Vector3D F)) : Vector3D F :=
  ⟨(l.map fun n => n.x).sum, (l.map fun n => n.y).sum, (l.map fun n => n.z).sum⟩

/-- The positions of the three corners of a triangle of a mesh. -/
def cornerPositions (vertex : List (Vector3D F)) (q : Polygon3D) :
    Vector3D F × Vector3D F × Vector3D F :=
  (readNat Vector3D.zero vertex q.index0, readNat Vector3D.zero vertex q.index1,
    readNat Vector3D.zero vertex q.index2)

/-- The triangle stored by `Convert_Data` for a face record. -/
def storedTriangle (p : SrcPoly) : Polygon3D :=
  ⟨intToUShort p.vdata0.v, intToUShort p.vdata1.v, intToUShort p.vdata2.v⟩

/-- The triangles `j < num_polygons` that have at least one corner index equal
to `i`, each listed once. -/
def strictContributors (object : Object3D F) (i : Nat) : List Nat :=
  (List.range object.num_polygons).filter fun j =>
    decide ((readNat (⟨0, 0, 0⟩ : Polygon3D) object.polygon j).index0 = i
      ∨ (readNat (⟨0, 0, 0⟩ : Polygon3D) object.polygon j).index1 = i
      ∨ (readNat (⟨0, 0, 0⟩ : Polygon3D) object.polygon j).index2 = i)

/-- A triangle in the plane `z = 0` listed twice, the second time with the
opposite winding. -/
def flipPolys : List SrcPoly :=
  [⟨⟨0, 0⟩, ⟨1, 0⟩, ⟨2, 0⟩⟩, ⟨⟨0, 0⟩, ⟨2, 0⟩, ⟨1, 0⟩⟩]

/-- The positions `(0,0,0)`, `(1,0,0)`, `(0,1,0)`. -/
def flipVertices (F : Type) [Field F] : List (Vector3D F) :=
  [⟨0, 0, 0⟩, ⟨1, 0, 0⟩, ⟨0, 1, 0⟩]

/-- The face normal written by `SurfaceNormal` for a triangle of a mesh. -/
def faceNormal [DecidableEq F] (sqrtf : F → F) (vertex : List (Vector3D F)) (q : Polygon3D) :
    Vector3D F :=
  (SurfaceNormal sqrtf (cornerPositions vertex q).1 (cornerPositions vertex q).2.1
    (cornerPositions vertex q).2.2).2

/-- The object of `Convert_Data` when `ComputeVertexNormals` is called: all
members are set but `vertex_normal`. -/
def convertDataObject [DecidableEq F] (sqrtf : F → F) (src_vertices : List (Vector3D F))
    (src_polys : List SrcPoly) : Object3D F :=
  { num_vertices := src_vertices.length
    num_polygons := src_polys.length
    vertex := (List.range src_vertices.length).map fun i => readNat Vector3D.zero src_vertices i
    vertex_normal := []
    tex_coords := none
    polygon := (List.range src_polys.length).map fun i =>
      storedTriangle (readNat (⟨⟨0, 0⟩, ⟨0, 0⟩, ⟨0, 0⟩⟩ : SrcPoly) src_polys i)
    polygon_normal :=
      polygonNormals sqrtf
        ((List.range src_vertices.length).map fun i => readNat Vector3D.zero src_vertices i)
        ((List.range src_polys.length).map fun i =>
          storedTriangle (readNat (⟨⟨0, 0⟩, ⟨0, 0⟩, ⟨0, 0⟩⟩ : SrcPoly) src_polys i))
        src_polys.length }

/-- A mesh of two triangles in which the vertices 0 and 2 have the same
position. -/
def seamObject : Object3D ℚ :=
  { num_vertices := 4
    num_polygons := 2
    vertex := [⟨0, 0, 0⟩, ⟨1, 0, 0⟩, ⟨0, 0, 0⟩, ⟨0, 1, 0⟩]
    vertex_normal := []
    tex_coords := none
    polygon := [⟨0, 1, 3⟩, ⟨2, 3, 1⟩]
    polygon_normal := [⟨0, 0, 1⟩, ⟨0, 0, -1⟩] }

/-- A mesh of one triangle in the plane `z = 0` with its face normal
`(0,0,1)`. -/
def oneTriangle (F : Type) [Field F] : Object3D F :=
  { num_vertices := 3
    num_polygons := 1
    vertex := flipVertices F
    vertex_normal := []
    tex_coords := none
    polygon := [⟨0, 1, 2⟩]
    polygon_normal := [⟨0, 0, 1⟩] }

/-- A `Matrix3D` as a 4x4 matrix: the entry in row `i` and column `j` is the
float `i * 4 + j` of the struct. -/
def Matrix3D.toMatrix (m : Matrix3D F) : Matrix (Fin 4) (Fin 4) F :=
  Matrix.of fun i j => readNat 0 m.floats (i.val * 4 + j.val)

/-- A matrix with a last row other than `(0,0,0,1)`. -/
def projectiveMatrix : Matrix3D ℚ :=
  ⟨2, 0, 1, 3, 0, 1, 0, 5, 1, 0, 2, 7, 1, 2, 3, 4⟩

/-- The translation by `(10, 20, 30)`, whose last row is `(0,0,0,1)`. -/
def translateMatrix : Matrix3D ℚ :=
  ⟨1, 0, 0, 10, 0, 1, 0, 20, 0, 0, 1, 30, 0, 0, 0, 1⟩

/-- A mesh of one triangle and a fourth vertex that no triangle refers to. -/
def isolatedObject (F : Type) [Field F] : Object3D F :=
  { num_vertices := 4
    num_polygons := 1
    vertex := [⟨0, 0, 0⟩, ⟨1, 0, 0⟩, ⟨0, 1, 0⟩, ⟨5, 5, 5⟩]
    vertex_normal := []
    tex_coords := none
    polygon := [⟨0, 1, 2⟩]
    polygon_normal := [⟨0, 0, 1⟩] }

/-- The stored vertices of `seamObject`; the `x` of vertex 2 is stored as
`-0.0` when `signBit` is set, and as `0.0` like the `x` of vertex 0 otherwise. -/
def seamStored (signBit : Bool) : List (Vector3D (StoredFloat ℚ)) :=
  [⟨⟨0, false⟩, ⟨0, false⟩, ⟨0, false⟩⟩, ⟨⟨1, false⟩, ⟨0, false⟩, ⟨0, false⟩⟩,
    ⟨⟨0, signBit⟩, ⟨0, false⟩, ⟨0, false⟩⟩, ⟨⟨0, false⟩, ⟨1, false⟩, ⟨0, false⟩⟩]

end GeometrySpec

/-! ## The array reads of the conversion -/

/-- The indices with which the loop "Calculate polygon normals" of
`Convert_Data` (and the `memcmp` of `ComputeVertexNormals`) reads
`object->vertex`: the stored indices of the corners of all triangles. -/
def Convert_Data_vertexReads (src_polys : List SrcPoly) : List Nat :=
  (src_polys.map fun p =>
    [intToUShort p.vdata0.v, intToUShort p.vdata1.v, intToUShort p.vdata2.v]).flatten

/-- Every read of `object->vertex` in `Convert_Data` is inside the array,
which has `src_num_vertices` entries. -/
def Convert_Data_readsInBounds (src_num_vertices : Nat) (src_polys : List SrcPoly) : Bool :=
  (Convert_Data_vertexReads src_polys).all fun k => decide (k < src_num_vertices)

/-- Every read `src_vertices[vdata[j].v]` and `src_texcoords[vdata[j].t]` of
`Convert_Data_With_Texcoords` is inside its array: the signature of every
corner is used as a pair of indices where it is met first. -/
def Convert_Data_With_Texcoords_readsInBounds (src_num_vertices src_num_texcoords : Nat)
    (src_polys : List SrcPoly) : Bool :=
  (cornerList src_polys).all fun c =>
    decide (0 ≤ c.v ∧ c.v < (src_num_vertices : Int) ∧ 0 ≤ c.t
      ∧ c.t < (src_num_texcoords : Int))

/-- Every array read of the conversion called by `ReadOBJFile` on a file is
inside its array.  When this fails the behaviour of the program is undefined,
and the outcome `ReadOBJFile` gives is that of the model only. -/
def loadReadsInBounds (lines : List (List Char)) (load_texcoords : Bool) (vars0 : ScanVars) :
    Bool :=
  if load_texcoords then
    Convert_Data_With_Texcoords_readsInBounds (countKind LineKind.position lines)
      (countKind LineKind.texcoord lines) (facesOf true vars0 lines)
  else
    Convert_Data_readsInBounds (countKind LineKind.position lines)
      (facesOf false vars0 lines)

section Lemmas

variable {F : Type} [Field F]

/-- The temporary arrays that belong to a signature sequence. -/
def gxOf (src_vertices : List (Vector3D F)) (src_texcoords : List (UVCoordinate F))
    (sigs : List SrcPolyVertex) : GxState F :=
  { tmp_gx_vertices := sigs.map fun c => readArr Vector3D.zero src_vertices c.v
    tmp_gx_texcoords := sigs.map fun c => readArr UVCoordinate.zero src_texcoords c.t
    tmp_gx_vertices_sig := sigs }

theorem findSig_of_not_mem (c : SrcPolyVertex) (l : List SrcPolyVertex) (k : Nat)
    (h : c ∉ l) : findSig c l k = none := by
  induction l generalizing k with
  | nil => rfl
  | cons s rest ih =>
    have hne : c ≠ s := fun e => h (by simp [e])
    have hrest : c ∉ rest := fun e => h (by simp [e])
    simp [findSig, hne, ih (k + 1) hrest]

theorem findSig_of_mem (c : SrcPolyVertex) (l : List SrcPolyVertex) (k : Nat)
    (h : c ∈ l) : findSig c l k = some (k + l.indexOf c) := by
  induction l generalizing k with
  | nil => simp at h
  | cons s rest ih =>
    by_cases hcs : c = s
    · subst hcs
      simp [findSig]
    · have hrest : c ∈ rest := by
        rcases List.mem_cons.mp h with e | e
        · exact absurd e hcs
        · exact e
      have hsc : s ≠ c := fun e => hcs e.symm
      rw [findSig, if_neg hcs, ih (k + 1) hrest, List.indexOf_cons_ne _ hsc]
      congr 1
      omega

theorem mem_addSig (l : List SrcPolyVertex) (c x : SrcPolyVertex) :
    x ∈ addSig l c ↔ x ∈ l ∨ x = c := by
  unfold addSig
  by_cases h : c ∈ l
  · rw [if_pos h]
    constructor
    · exact Or.inl
    · rintro (hx | hx)
      · exact hx
      · exact hx ▸ h
  · rw [if_neg h]
    simp

theorem self_mem_addSig (l : List SrcPolyVertex) (c : SrcPolyVertex) : c ∈ addSig l c :=
  (mem_addSig l c c).mpr (Or.inr rfl)

theorem addSig_extends (l : List SrcPolyVertex) (c : SrcPolyVertex) :
    ∃ t, addSig l c = l ++ t := by
  unfold addSig
  by_cases h : c ∈ l
  · exact ⟨[], by simp [h]⟩
  · exact ⟨[c], by simp [h]⟩

theorem addSig_nodup (l : List SrcPolyVertex) (c : SrcPolyVertex) (h : l.Nodup) :
    (addSig l c).Nodup := by
  unfold addSig
  by_cases hc : c ∈ l
  · simpa [hc] using h
  · rw [if_neg hc]
    exact List.Nodup.append h (List.nodup_singleton c) (by simpa using hc)

theorem addSig_length_le (l : List SrcPolyVertex) (c : SrcPolyVertex) :
    (addSig l c).length ≤ l.length + 1 := by
  unfold addSig
  by_cases hc : c ∈ l <;> simp [hc]

theorem mem_addSigs (cs l : List SrcPolyVertex) (x : SrcPolyVertex) :
    x ∈ addSigs l cs ↔ x ∈ l ∨ x ∈ cs := by
  induction cs generalizing l with
  | nil => simp [addSigs]
  | cons c rest ih =>
    have h := ih (addSig l c)
    simp only [addSigs, List.foldl_cons] at h ⊢
    rw [h, mem_addSig, List.mem_cons]
    tauto

theorem addSigs_extends (cs l : List SrcPolyVertex) : ∃ t, addSigs l cs = l ++ t := by
  induction cs generalizing l with
  | nil => exact ⟨[], by simp [addSigs]⟩
  | cons c rest ih =>
    obtain ⟨t1, h1⟩ := addSig_extends l c
    obtain ⟨t2, h2⟩ := ih (addSig l c)
    refine ⟨t1 ++ t2, ?_⟩
    simp only [addSigs, List.foldl_cons] at h2 ⊢
    rw [h2, h1, List.append_assoc]

theorem addSigs_nodup (cs l : List SrcPolyVertex) (h : l.Nodup) : (addSigs l cs).Nodup := by
  induction cs generalizing l with
  | nil => simpa [addSigs] using h
  | cons c rest ih =>
    have := ih (addSig l c) (addSig_nodup l c h)
    simpa [addSigs] using this

theorem addSigs_length_le (cs l : List SrcPolyVertex) :
    (addSigs l cs).length ≤ l.length + cs.length := by
  induction cs generalizing l with
  | nil => simp [addSigs]
  | cons c rest ih =>
    have h1 := ih (addSig l c)
    have h2 := addSig_length_le l c
    simp only [addSigs, List.foldl_cons, List.length_cons] at h1 ⊢
    omega

theorem indexOf_addSig_of_mem (l : List SrcPolyVertex) (c d : SrcPolyVertex) (h : c ∈ l) :
    (addSig l d).indexOf c = l.indexOf c := by
  obtain ⟨t, ht⟩ := addSig_extends l d
  rw [ht, List.indexOf_append_of_mem h]

theorem indexOf_addSigs_of_mem (cs l : List SrcPolyVertex) (c : SrcPolyVertex) (h : c ∈ l) :
    (addSigs l cs).indexOf c = l.indexOf c := by
  obtain ⟨t, ht⟩ := addSigs_extends cs l
  rw [ht, List.indexOf_append_of_mem h]

theorem dedupCorner_gxOf (src_vertices : List (Vector3D F))
    (src_texcoords : List (UVCoordinate F)) (max_gx_vertices : Nat)
    (l : List SrcPolyVertex) (c : SrcPolyVertex) (hcap : l.length < max_gx_vertices) :
    dedupCorner src_vertices src_texcoords max_gx_vertices
        (gxOf src_vertices src_texcoords l) c
      = some (gxOf src_vertices src_texcoords (addSig l c),
          toUShort ((addSig l c).indexOf c)) := by
  by_cases h : c ∈ l
  · have hf := findSig_of_mem c l 0 h
    simp only [dedupCorner, gxOf, hf, addSig, if_pos h, Nat.zero_add]
  · have hf := findSig_of_not_mem c l 0 h
    have hne : l.length ≠ max_gx_vertices := Nat.ne_of_lt hcap
    have hidx : (l ++ [c]).indexOf c = l.length := by
      rw [List.indexOf_append_of_not_mem h]
      simp
    simp only [dedupCorner, gxOf, hf, addSig, if_neg h, GxState.num_gx_vertices, if_neg hne,
      List.map_append, List.map_cons, List.map_nil, hidx]

theorem dedupPoly_gxOf (src_vertices : List (Vector3D F))
    (src_texcoords : List (UVCoordinate F)) (max_gx_vertices : Nat)
    (l : List SrcPolyVertex) (p : SrcPoly) (hcap : l.length + 3 ≤ max_gx_vertices) :
    dedupPoly src_vertices src_texcoords max_gx_vertices
        (gxOf src_vertices src_texcoords l) p
      = some (gxOf src_vertices src_texcoords (addSigs l [p.vdata0, p.vdata1, p.vdata2]),
          ⟨toUShort ((addSigs l [p.vdata0, p.vdata1, p.vdata2]).indexOf p.vdata0),
           toUShort ((addSigs l [p.vdata0, p.vdata1, p.vdata2]).indexOf p.vdata1),
           toUShort ((addSigs l [p.vdata0, p.vdata1, p.vdata2]).indexOf p.vdata2)⟩) := by
  have h0 := addSig_length_le l p.vdata0
  have h1 := addSig_length_le (addSig l p.vdata0) p.vdata1
  have e0 := dedupCorner_gxOf src_vertices src_texcoords max_gx_vertices l p.vdata0 (by omega)
  have e1 := dedupCorner_gxOf src_vertices src_texcoords max_gx_vertices
    (addSig l p.vdata0) p.vdata1 (by omega)
  have e2 := dedupCorner_gxOf src_vertices src_texcoords max_gx_vertices
    (addSig (addSig l p.vdata0) p.vdata1) p.vdata2 (by omega)
  have m0 := self_mem_addSig l p.vdata0
  have m1 := self_mem_addSig (addSig l p.vdata0) p.vdata1
  have i0 : (addSig (addSig (addSig l p.vdata0) p.vdata1) p.vdata2).indexOf p.vdata0
      = (addSig l p.vdata0).indexOf p.vdata0 := by
    rw [indexOf_addSig_of_mem _ _ _ ((mem_addSig _ _ _).mpr (Or.inl m0)),
      indexOf_addSig_of_mem _ _ _ m0]
  have i1 : (addSig (addSig (addSig l p.vdata0) p.vdata1) p.vdata2).indexOf p.vdata1
      = (addSig (addSig l p.vdata0) p.vdata1).indexOf p.vdata1 :=
    indexOf_addSig_of_mem _ _ _ m1
  simp only [dedupPoly, e0, e1, e2, addSigs, List.foldl_cons, List.foldl_nil, i0, i1]

theorem dedupLoop_gxOf (src_vertices : List (Vector3D F))
    (src_texcoords : List (UVCoordinate F)) (max_gx_vertices : Nat)
    (polys : List SrcPoly) (l : List SrcPolyVertex)
    (hcap : l.length + 3 * polys.length ≤ max_gx_vertices) :
    ∃ out : List Polygon3D,
      dedupLoop src_vertices src_texcoords max_gx_vertices
          (gxOf src_vertices src_texcoords l) polys
        = some (gxOf src_vertices src_texcoords (addSigs l (cornerList polys)), out)
      ∧ out.length = polys.length
      ∧ ∀ (i : Nat) (p : SrcPoly) (q : Polygon3D), polys[i]? = some p → out[i]? = some q →
          ∀ j : Fin 3,
            q.index j = toUShort ((addSigs l (cornerList polys)).indexOf (p.vdata j)) := by
  induction polys generalizing l with
  | nil => exact ⟨[], by simp [dedupLoop, cornerList, addSigs], rfl, by simp⟩
  | cons p rest ih =>
    have hlen : (addSigs l [p.vdata0, p.vdata1, p.vdata2]).length ≤ l.length + 3 := by
      simpa using addSigs_length_le [p.vdata0, p.vdata1, p.vdata2] l
    simp only [List.length_cons] at hcap
    have hp := dedupPoly_gxOf src_vertices src_texcoords max_gx_vertices l p (by omega)
    obtain ⟨out, hrun, hout, hidx⟩ := ih (addSigs l [p.vdata0, p.vdata1, p.vdata2]) (by omega)
    have hfin : addSigs (addSigs l [p.vdata0, p.vdata1, p.vdata2]) (cornerList rest)
        = addSigs l (cornerList (p :: rest)) := by
      simp [addSigs, cornerList]
    rw [hfin] at hrun hidx
    refine ⟨⟨toUShort ((addSigs l [p.vdata0, p.vdata1, p.vdata2]).indexOf p.vdata0),
      toUShort ((addSigs l [p.vdata0, p.vdata1, p.vdata2]).indexOf p.vdata1),
      toUShort ((addSigs l [p.vdata0, p.vdata1, p.vdata2]).indexOf p.vdata2)⟩ :: out,
      ?_, by simp [hout], ?_⟩
    · simp only [dedupLoop, hp, hrun]
    · intro i p1 q hp1 hq j
      cases i with
      | zero =>
        simp only [List.getElem?_cons_zero, Option.some.injEq] at hp1 hq
        subst hp1
        subst hq
        have hmem : ∀ j : Fin 3, p.vdata j ∈ addSigs l [p.vdata0, p.vdata1, p.vdata2] := by
          intro j
          rw [mem_addSigs]
          right
          match j with
          | ⟨0, _⟩ => simp [SrcPoly.vdata]
          | ⟨1, _⟩ => simp [SrcPoly.vdata]
          | ⟨2, _⟩ => simp [SrcPoly.vdata]
        rw [← hfin, indexOf_addSigs_of_mem _ _ _ (hmem j)]
        match j with
        | ⟨0, _⟩ => rfl
        | ⟨1, _⟩ => rfl
        | ⟨2, _⟩ => rfl
      | succ n =>
        simp only [List.getElem?_cons_succ] at hp1 hq
        exact hidx n p1 q hp1 hq j

theorem length_cornerList (polys : List SrcPoly) :
    (cornerList polys).length = 3 * polys.length := by
  induction polys with
  | nil => rfl
  | cons p rest ih => simp only [cornerList, List.length_cons, ih]; omega

theorem mem_cornerList (polys : List SrcPoly) (s : SrcPolyVertex) :
    s ∈ cornerList polys ↔ ∃ p ∈ polys, ∃ j : Fin 3, p.vdata j = s := by
  induction polys with
  | nil => simp [cornerList]
  | cons q rest ih =>
    simp only [cornerList, List.mem_cons, ih]
    constructor
    · rintro (h | h | h | ⟨p, hp, j, hj⟩)
      · exact ⟨q, Or.inl rfl, 0, h.symm⟩
      · exact ⟨q, Or.inl rfl, 1, h.symm⟩
      · exact ⟨q, Or.inl rfl, 2, h.symm⟩
      · exact ⟨p, Or.inr hp, j, hj⟩
    · rintro ⟨p, hp | hp, j, hj⟩
      · subst hp
        match j, hj with
        | ⟨0, _⟩, hj => exact Or.inl hj.symm
        | ⟨1, _⟩, hj => exact Or.inr (Or.inl hj.symm)
        | ⟨2, _⟩, hj => exact Or.inr (Or.inr (Or.inl hj.symm))
      · exact Or.inr (Or.inr (Or.inr ⟨p, hp, j, hj⟩))

/-- The signature sequence after the whole loop, started from the empty
sequence. -/
theorem mem_finalSigs (polys : List SrcPoly) (s : SrcPolyVertex) :
    s ∈ addSigs [] (cornerList polys) ↔ ∃ p ∈ polys, ∃ j : Fin 3, p.vdata j = s := by
  rw [mem_addSigs, ← mem_cornerList]
  simp

theorem nodup_finalSigs (polys : List SrcPoly) : (addSigs [] (cornerList polys)).Nodup :=
  addSigs_nodup _ _ List.nodup_nil

theorem length_finalSigs_le (polys : List SrcPoly) :
    (addSigs [] (cornerList polys)).length ≤ 3 * polys.length := by
  have h := addSigs_length_le (cornerList polys) []
  rw [length_cornerList] at h
  simpa using h

theorem length_finalSigs (polys : List SrcPoly) :
    (addSigs [] (cornerList polys)).length = (cornerList polys).toFinset.card := by
  rw [← List.toFinset_card_of_nodup (nodup_finalSigs polys)]
  congr 1
  ext s
  simp [mem_addSigs]

theorem buildGx_spec (src_vertices : List (Vector3D F))
    (src_texcoords : List (UVCoordinate F)) (polys : List SrcPoly) :
    ∃ out : List Polygon3D,
      buildGx src_vertices src_texcoords polys
        = some (gxOf src_vertices src_texcoords (addSigs [] (cornerList polys)), out)
      ∧ out.length = polys.length
      ∧ ∀ (i : Nat) (p : SrcPoly) (q : Polygon3D), polys[i]? = some p → out[i]? = some q →
          ∀ j : Fin 3,
            q.index j = toUShort ((addSigs [] (cornerList polys)).indexOf (p.vdata j)) := by
  have h := dedupLoop_gxOf src_vertices src_texcoords (polys.length * 3) polys []
    (by simp; omega)
  simpa [buildGx, gxOf, GxState.init] using h

theorem Convert_Data_With_Texcoords_of_buildGx [DecidableEq F] (sqrtf : F → F)
    (src_vertices : List (Vector3D F)) (src_texcoords : List (UVCoordinate F))
    (polys : List SrcPoly) (smooth : Bool) (st : GxState F) (out : List Polygon3D)
    (h : buildGx src_vertices src_texcoords polys = some (st, out)) :
    ∃ obj : Object3D F,
      Convert_Data_With_Texcoords sqrtf src_vertices src_texcoords polys smooth = some obj
      ∧ obj.num_vertices = st.num_gx_vertices
      ∧ obj.num_polygons = polys.length
      ∧ obj.vertex = st.tmp_gx_vertices.take st.num_gx_vertices
      ∧ obj.tex_coords = some (st.tmp_gx_texcoords.take st.num_gx_vertices)
      ∧ obj.polygon = out := by
  simp only [Convert_Data_With_Texcoords, h, ComputeVertexNormals]
  exact ⟨_, rfl, rfl, rfl, rfl, rfl, rfl⟩

theorem Convert_Data_With_Texcoords_spec [DecidableEq F] (sqrtf : F → F)
    (src_vertices : List (Vector3D F)) (src_texcoords : List (UVCoordinate F))
    (polys : List SrcPoly) (smooth : Bool) :
    ∃ obj : Object3D F,
      Convert_Data_With_Texcoords sqrtf src_vertices src_texcoords polys smooth = some obj
      ∧ buildGx src_vertices src_texcoords polys
          = some (gxOf src_vertices src_texcoords (addSigs [] (cornerList polys)), obj.polygon)
      ∧ obj.num_vertices = (addSigs [] (cornerList polys)).length
      ∧ obj.num_polygons = polys.length
      ∧ obj.vertex = (addSigs [] (cornerList polys)).map
          (fun c => readArr Vector3D.zero src_vertices c.v)
      ∧ obj.tex_coords = some ((addSigs [] (cornerList polys)).map
          (fun c => readArr UVCoordinate.zero src_texcoords c.t))
      ∧ obj.polygon.length = polys.length
      ∧ ∀ (i : Nat) (p : SrcPoly) (q : Polygon3D), polys[i]? = some p →
          obj.polygon[i]? = some q → ∀ j : Fin 3,
            q.index j = toUShort ((addSigs [] (cornerList polys)).indexOf (p.vdata j)) := by
  obtain ⟨out, hb, hlen, hidx⟩ := buildGx_spec src_vertices src_texcoords polys
  obtain ⟨obj, hc, hnv, hnp, hv, ht, hp⟩ :=
    Convert_Data_With_Texcoords_of_buildGx sqrtf src_vertices src_texcoords polys smooth _ _ hb
  subst hp
  refine ⟨obj, hc, hb, ?_, hnp, ?_, ?_, hlen, hidx⟩
  · simpa [gxOf, GxState.num_gx_vertices] using hnv
  · rw [hv]
    simp only [gxOf, GxState.num_gx_vertices]
    exact List.take_of_length_le (by simp)
  · rw [ht]
    simp only [gxOf, GxState.num_gx_vertices]
    exact congrArg some (List.take_of_length_le (by simp))

theorem map_readNat_range {α : Type} (d : α) (l : List α) :
    (List.range l.length).map (fun i => readNat d l i) = l := by
  apply List.ext_getElem
  · simp
  · intro i h1 h2
    simp [readNat, List.getD_eq_getElem?_getD, List.getElem?_eq_getElem h2]

theorem Convert_Data_vertex [DecidableEq F] (sqrtf : F → F) (src_vertices : List (Vector3D F))
    (src_polys : List SrcPoly) (smooth : Bool) :
    (Convert_Data sqrtf src_vertices src_polys smooth).vertex = src_vertices := by
  simp only [Convert_Data, ComputeVertexNormals]
  exact map_readNat_range _ _

theorem Convert_Data_polygon [DecidableEq F] (sqrtf : F → F)
    (src_vertices : List (Vector3D F)) (src_polys : List SrcPoly) (smooth : Bool) :
    (Convert_Data sqrtf src_vertices src_polys smooth).polygon
      = src_polys.map fun p =>
          ⟨intToUShort p.vdata0.v, intToUShort p.vdata1.v, intToUShort p.vdata2.v⟩ := by
  simp only [Convert_Data, ComputeVertexNormals]
  conv_rhs => rw [← map_readNat_range (⟨⟨0, 0⟩, ⟨0, 0⟩, ⟨0, 0⟩⟩ : SrcPoly) src_polys]
  rw [List.map_map]
  rfl

theorem addSigs_of_nodup (cs l : List SrcPolyVertex) (h : (l ++ cs).Nodup) :
    addSigs l cs = l ++ cs := by
  induction cs generalizing l with
  | nil => simp [addSigs]
  | cons c rest ih =>
    have hc : c ∉ l := by
      intro hmem
      have := (List.nodup_append.mp h).2.2
      exact this hmem (List.mem_cons_self c rest) 
    have h2 : (addSig l c ++ rest).Nodup := by
      simpa [addSig, hc] using h
    have := ih (addSig l c) h2
    simp only [addSigs, List.foldl_cons] at this ⊢
    rw [this]
    simp [addSig, hc]

theorem cornerList_append (a b : List SrcPoly) :
    cornerList (a ++ b) = cornerList a ++ cornerList b := by
  induction a with
  | nil => rfl
  | cons p rest ih => simp [cornerList, ih]

theorem cornerList_seamPolysN (n : Nat) :
    cornerList (seamPolysN n)
      = (List.range (3 * n)).map fun k : Nat => (⟨0, (k : Int)⟩ : SrcPolyVertex) := by
  induction n with
  | zero => rfl
  | succ n ih =>
    have e : 3 * (n + 1) = 3 * n + 1 + 1 + 1 := by omega
    have hs : seamPolysN (n + 1) = seamPolysN n ++
        [⟨⟨0, ((3 * n : Nat) : Int)⟩, ⟨0, ((3 * n + 1 : Nat) : Int)⟩,
          ⟨0, ((3 * n + 2 : Nat) : Int)⟩⟩] := by
      simp [seamPolysN, List.range_succ]
    rw [hs, cornerList_append, ih, e, List.range_succ, List.range_succ, List.range_succ]
    simp [cornerList]

theorem seam_sig_injective :
    Function.Injective fun k : Nat => (⟨0, (k : Int)⟩ : SrcPolyVertex) := by
  intro a b h
  simp only [SrcPolyVertex.mk.injEq, true_and] at h
  exact_mod_cast h

theorem finalSigs_seamPolysN (n : Nat) :
    addSigs [] (cornerList (seamPolysN n))
      = (List.range (3 * n)).map fun k : Nat => (⟨0, (k : Int)⟩ : SrcPolyVertex) := by
  rw [addSigs_of_nodup, List.nil_append, cornerList_seamPolysN]
  rw [List.nil_append, cornerList_seamPolysN]
  exact (List.nodup_range _).map seam_sig_injective

theorem indexOf_seam_sig (m k : Nat) (h : k < m) :
    ((List.range m).map fun k : Nat => (⟨0, (k : Int)⟩ : SrcPolyVertex)).indexOf ⟨0, (k : Int)⟩
      = k := by
  have hnd : ((List.range m).map fun k : Nat => (⟨0, (k : Int)⟩ : SrcPolyVertex)).Nodup :=
    (List.nodup_range _).map seam_sig_injective
  have hk : k < ((List.range m).map fun k : Nat => (⟨0, (k : Int)⟩ : SrcPolyVertex)).length := by
    simpa using h
  have := List.indexOf_getElem hnd k hk
  simpa using this

theorem seamPolys_getElem? (i : Nat) (h : i < 21846) :
    seamPolys[i]? = some ⟨⟨0, ((3 * i : Nat) : Int)⟩, ⟨0, ((3 * i + 1 : Nat) : Int)⟩,
      ⟨0, ((3 * i + 2 : Nat) : Int)⟩⟩ := by
  simp [seamPolys, seamPolysN, List.getElem?_map, List.getElem?_range h]

theorem seamTexcoords_length : seamTexcoords.length = 65538 := by
  simp only [seamTexcoords, List.length_map, List.length_range]

theorem seamTexcoords_getElem? (n : Nat) (h : n < 65538) :
    seamTexcoords[n]? = some ⟨(n : ℚ), 0⟩ := by
  simp only [seamTexcoords, List.getElem?_map, List.getElem?_range h, Option.map_some']

theorem readArr_seamTexcoords (n : Nat) (h : n < 65538) :
    readArr UVCoordinate.zero seamTexcoords (n : Int) = ⟨(n : ℚ), 0⟩ := by
  have h0 : (0 : Int) ≤ (n : Int) := Int.ofNat_nonneg n
  simp only [readArr, if_pos h0, Int.toNat_ofNat, List.getD_eq_getElem?_getD,
    seamTexcoords_getElem? n h, Option.getD_some]

/-- The run of `Convert_Data_With_Texcoords` on the mesh `seamPolys`: corner 0
of face 0 and corner 1 of face 21845 both store the index 0. -/
theorem seam_run (smooth : Bool) :
    ∃ (object : Object3D ℚ) (q q' : Polygon3D),
      Convert_Data_With_Texcoords Rat.sqrt seamVertices seamTexcoords seamPolys smooth
          = some object
      ∧ object.tex_coords = some (((List.range 65538).map
          fun k : Nat => (⟨0, (k : Int)⟩ : SrcPolyVertex)).map
            fun c : SrcPolyVertex => readArr UVCoordinate.zero seamTexcoords c.t)
      ∧ object.polygon[0]? = some q ∧ object.polygon[21845]? = some q'
      ∧ q.index 0 = 0 ∧ q'.index 1 = 0 := by
  obtain ⟨obj, hc, -, -, -, -, ht, hlen, hidx⟩ :=
    Convert_Data_With_Texcoords_spec Rat.sqrt seamVertices seamTexcoords seamPolys smooth
  have hS : addSigs [] (cornerList seamPolys)
      = (List.range 65538).map fun k : Nat => (⟨0, (k : Int)⟩ : SrcPolyVertex) :=
    finalSigs_seamPolysN 21846
  rw [hS] at ht hidx
  have hl : obj.polygon.length = 21846 := by
    rw [hlen]
    simp [seamPolys, seamPolysN]
  have h0 : (0 : Nat) < obj.polygon.length := by omega
  have h1 : 21845 < obj.polygon.length := by omega
  refine ⟨obj, obj.polygon[0], obj.polygon[21845], hc, ht,
    List.getElem?_eq_getElem h0, List.getElem?_eq_getElem h1, ?_, ?_⟩
  · have := hidx 0 _ _ (seamPolys_getElem? 0 (by omega)) (List.getElem?_eq_getElem h0) 0
    rw [this]
    have e := indexOf_seam_sig 65538 0 (by omega)
    simp only [SrcPoly.vdata] at e ⊢
    simp only [Nat.mul_zero, Nat.cast_zero] at e ⊢
    rw [e]
    rfl
  · have := hidx 21845 _ _ (seamPolys_getElem? 21845 (by omega))
      (List.getElem?_eq_getElem h1) 1
    rw [this]
    have e := indexOf_seam_sig 65538 65536 (by omega)
    have e2 : (3 * 21845 + 1 : Nat) = 65536 := by norm_num
    simp only [SrcPoly.vdata, e2]
    rw [e]
    rfl

theorem getElem?_eq_readArr {α : Type} (d : α) (a : List α) (i : Int) (h0 : 0 ≤ i)
    (h1 : i < a.length) : a[i.toNat]? = some (readArr d a i) := by
  have hlt : i.toNat < a.length := by omega
  simp [readArr, h0, List.getD_eq_getElem?_getD, List.getElem?_eq_getElem hlt]

theorem toUShort_indexOf_finalSigs (polys : List SrcPoly) (c : SrcPolyVertex)
    (hsmall : (cornerList polys).toFinset.card ≤ 65536)
    (hc : c ∈ addSigs [] (cornerList polys)) :
    toUShort ((addSigs [] (cornerList polys)).indexOf c)
      = (addSigs [] (cornerList polys)).indexOf c := by
  have h2 := List.indexOf_lt_length.mpr hc
  rw [length_finalSigs] at h2
  exact Nat.mod_eq_of_lt (by simp only [USHORT_RANGE]; omega)

theorem vdata_mem_finalSigs (polys : List SrcPoly) (i : Nat) (p : SrcPoly)
    (hp : polys[i]? = some p) (j : Fin 3) : p.vdata j ∈ addSigs [] (cornerList polys) :=
  (mem_finalSigs polys _).mpr ⟨p, List.getElem?_mem hp, j, rfl⟩

end Lemmas

/-! ## The mesh assembler: claims about `Convert_Data_With_Texcoords` and `Convert_Data` -/

section Claims

variable {F : Type} [Field F]

/-- C1 fails beyond 65536 output vertices: in the mesh `seamPolys` (all
indices in range) corner 1 of face 21845 has texcoord index 65536, but its
stored index is 0 and output vertex 0 carries texture coordinate 0. -/
theorem texcoord_dereference_counterexample :
    (∀ p ∈ seamPolys, ∀ j : Fin 3,
      0 ≤ (p.vdata j).v ∧ (p.vdata j).v < seamVertices.length
      ∧ 0 ≤ (p.vdata j).t ∧ (p.vdata j).t < seamTexcoords.length)
    ∧ ∃ (object : Object3D ℚ) (tc : List (UVCoordinate ℚ)) (p : SrcPoly) (q : Polygon3D),
        Convert_Data_With_Texcoords Rat.sqrt seamVertices seamTexcoords seamPolys false
            = some object
        ∧ object.tex_coords = some tc
        ∧ seamPolys[21845]? = some p ∧ object.polygon[21845]? = some q
        ∧ tc[q.index 1]? = some ⟨0, 0⟩
        ∧ seamTexcoords[(p.vdata 1).t.toNat]? = some ⟨65536, 0⟩
        ∧ tc[q.index 1]? ≠ seamTexcoords[(p.vdata 1).t.toNat]? := by
  constructor
  · intro p hp j
    simp only [seamPolys, seamPolysN, List.mem_map, List.mem_range] at hp
    obtain ⟨i, hi, rfl⟩ := hp
    rw [seamTexcoords_length]
    match j with
    | ⟨0, _⟩ => simp only [SrcPoly.vdata, seamVertices, List.length_singleton]; omega
    | ⟨1, _⟩ => simp only [SrcPoly.vdata, seamVertices, List.length_singleton]; omega
    | ⟨2, _⟩ => simp only [SrcPoly.vdata, seamVertices, List.length_singleton]; omega
  · obtain ⟨obj, q, q', hc, ht, -, hq', -, hidx⟩ := seam_run false
    have e2 : (3 * 21845 + 1 : Nat) = 65536 := by norm_num
    have hz : (0 : Nat) < 65538 := by omega
    have hr := readArr_seamTexcoords 0 hz
    simp only [Nat.cast_zero] at hr
    have hl : (List.map (fun c : SrcPolyVertex => readArr UVCoordinate.zero seamTexcoords c.t)
        (List.map (fun k : Nat => (⟨0, (k : Int)⟩ : SrcPolyVertex)) (List.range 65538)))[
          q'.index 1]? = some ⟨0, 0⟩ := by
      rw [hidx]
      simp only [List.getElem?_map, List.getElem?_range hz, Option.map_some', Nat.cast_zero, hr]
    have hrhs : seamTexcoords[((⟨⟨0, ((3 * 21845 : Nat) : Int)⟩,
        ⟨0, ((3 * 21845 + 1 : Nat) : Int)⟩, ⟨0, ((3 * 21845 + 2 : Nat) : Int)⟩⟩ :
          SrcPoly).vdata 1).t.toNat]? = some ⟨65536, 0⟩ := by
      simp only [SrcPoly.vdata, e2, Int.toNat_ofNat, seamTexcoords_getElem? 65536 (by omega)]
      rfl
    refine ⟨obj, _, _, q', hc, ht, seamPolys_getElem? 21845 (by omega), hq', hl, hrhs, ?_⟩
    rw [hl, hrhs]
    intro h
    have h' := congrArg UVCoordinate.u (Option.some.inj h)
    norm_num at h'

/-- C1. Texcoord mode, for meshes with at most 65536 distinct signatures:
when all position and texcoord indices are in range, the output vertex
referenced by `polygon[i].index[j]` has the position `src_vertices[corner.v]`
and the texture coordinate `src_texcoords[corner.t]` of the source corner. -/
theorem texcoord_dereference [DecidableEq F] (sqrtf : F → F)
    (src_vertices : List (Vector3D F)) (src_texcoords : List (UVCoordinate F))
    (src_polys : List SrcPoly) (smooth : Bool)
    (hrange : ∀ p ∈ src_polys, ∀ j : Fin 3,
      0 ≤ (p.vdata j).v ∧ (p.vdata j).v < src_vertices.length
      ∧ 0 ≤ (p.vdata j).t ∧ (p.vdata j).t < src_texcoords.length)
    (hsmall : (cornerList src_polys).toFinset.card ≤ 65536) :
    ∃ (object : Object3D F) (tc : List (UVCoordinate F)),
      Convert_Data_With_Texcoords sqrtf src_vertices src_texcoords src_polys smooth
          = some object
      ∧ object.tex_coords = some tc
      ∧ object.polygon.length = src_polys.length
      ∧ ∀ (i : Nat) (p : SrcPoly) (q : Polygon3D) (j : Fin 3),
          src_polys[i]? = some p → object.polygon[i]? = some q →
          ∃ (pos : Vector3D F) (uv : UVCoordinate F),
            object.vertex[q.index j]? = some pos
            ∧ src_vertices[(p.vdata j).v.toNat]? = some pos
            ∧ tc[q.index j]? = some uv
            ∧ src_texcoords[(p.vdata j).t.toNat]? = some uv := by
  obtain ⟨obj, hc, -, -, -, hv, ht, hlen, hidx⟩ :=
    Convert_Data_With_Texcoords_spec sqrtf src_vertices src_texcoords src_polys smooth
  refine ⟨obj, _, hc, ht, hlen, ?_⟩
  intro i p q j hp hq
  have hmem := vdata_mem_finalSigs src_polys i p hp j
  have hlt := List.indexOf_lt_length.mpr hmem
  obtain ⟨hv0, hv1, ht0, ht1⟩ := hrange p (List.getElem?_mem hp) j
  have hget : (addSigs [] (cornerList src_polys))[(addSigs [] (cornerList src_polys)).indexOf
      (p.vdata j)] = p.vdata j := List.indexOf_get hlt
  rw [hidx i p q hp hq j, toUShort_indexOf_finalSigs src_polys _ hsmall hmem, hv]
  refine ⟨readArr Vector3D.zero src_vertices (p.vdata j).v,
    readArr UVCoordinate.zero src_texcoords (p.vdata j).t, ?_,
    getElem?_eq_readArr _ _ _ hv0 hv1, ?_, getElem?_eq_readArr _ _ _ ht0 ht1⟩
  · rw [List.getElem?_map, List.getElem?_eq_getElem hlt, hget]
    rfl
  · rw [List.getElem?_map, List.getElem?_eq_getElem hlt, hget]
    rfl

/-- Witness of C1 on the unit square with a texture seam. -/
theorem texcoord_dereference_witness :
    (∀ p ∈ squarePolys, ∀ j : Fin 3,
      0 ≤ (p.vdata j).v ∧ (p.vdata j).v < squareVertices.length
      ∧ 0 ≤ (p.vdata j).t ∧ (p.vdata j).t < squareTexcoords.length)
    ∧ (cornerList squarePolys).toFinset.card ≤ 65536
    ∧ ∃ (object : Object3D ℚ) (tc : List (UVCoordinate ℚ)),
      Convert_Data_With_Texcoords Rat.sqrt squareVertices squareTexcoords squarePolys false
          = some object
      ∧ object.tex_coords = some tc
      ∧ object.polygon.length = squarePolys.length
      ∧ ∀ (i : Nat) (p : SrcPoly) (q : Polygon3D) (j : Fin 3),
          squarePolys[i]? = some p → object.polygon[i]? = some q →
          ∃ (pos : Vector3D ℚ) (uv : UVCoordinate ℚ),
            object.vertex[q.index j]? = some pos
            ∧ squareVertices[(p.vdata j).v.toNat]? = some pos
            ∧ tc[q.index j]? = some uv
            ∧ squareTexcoords[(p.vdata j).t.toNat]? = some uv :=
  ⟨by decide, by decide,
    texcoord_dereference Rat.sqrt squareVertices squareTexcoords squarePolys false
      (by decide) (by decide)⟩

/-- C2. Texcoord mode: for every list of face records the loop of
`Convert_Data_With_Texcoords` ends (without `exit`) in a state whose signature
sequence `tmp_gx_vertices_sig[0 .. num_gx_vertices)` has no duplicates. -/
theorem texcoord_signatures_nodup (src_vertices : List (Vector3D F))
    (src_texcoords : List (UVCoordinate F)) (src_polys : List SrcPoly) :
    ∃ (st : GxState F) (polygon : List Polygon3D),
      buildGx src_vertices src_texcoords src_polys = some (st, polygon)
      ∧ st.tmp_gx_vertices_sig.Nodup := by
  obtain ⟨out, hb, -, -⟩ := buildGx_spec src_vertices src_texcoords src_polys
  exact ⟨_, out, hb, nodup_finalSigs src_polys⟩

/-- C3. Texcoord mode: for every list of face records, a signature occurs in
the final signature sequence if and only if it is the signature of some face
corner, and `num_vertices` of the object is the length of that sequence and
the number of distinct signatures over all corners. -/
theorem texcoord_signatures_exact [DecidableEq F] (sqrtf : F → F) (src_vertices : List (Vector3D F))
    (src_texcoords : List (UVCoordinate F)) (src_polys : List SrcPoly) (smooth : Bool) :
    ∃ (st : GxState F) (object : Object3D F),
      buildGx src_vertices src_texcoords src_polys = some (st, object.polygon)
      ∧ Convert_Data_With_Texcoords sqrtf src_vertices src_texcoords src_polys smooth
          = some object
      ∧ (∀ s : SrcPolyVertex, s ∈ st.tmp_gx_vertices_sig ↔
          ∃ p ∈ src_polys, ∃ j : Fin 3, p.vdata j = s)
      ∧ object.num_vertices = st.tmp_gx_vertices_sig.length
      ∧ object.num_vertices = (cornerList src_polys).toFinset.card := by
  obtain ⟨obj, hc, hb, hnv, -, -, -, -, -⟩ :=
    Convert_Data_With_Texcoords_spec sqrtf src_vertices src_texcoords src_polys smooth
  refine ⟨_, obj, hb, hc, fun s => mem_finalSigs src_polys s, hnv, ?_⟩
  rw [hnv, length_finalSigs]

/-- C4. Texcoord mode: for every list of face records, two corners `(i, j)`
and `(i', j')` with identical signatures have equal stored triangle indices
`polygon[i].index[j] = polygon[i'].index[j']`. -/
theorem texcoord_equal_signatures_collapse [DecidableEq F] (sqrtf : F → F)
    (src_vertices : List (Vector3D F)) (src_texcoords : List (UVCoordinate F))
    (src_polys : List SrcPoly) (smooth : Bool) :
    ∃ object : Object3D F,
      Convert_Data_With_Texcoords sqrtf src_vertices src_texcoords src_polys smooth
          = some object
      ∧ object.polygon.length = src_polys.length
      ∧ ∀ (i i' : Nat) (p p' : SrcPoly) (q q' : Polygon3D) (j j' : Fin 3),
          src_polys[i]? = some p → src_polys[i']? = some p' →
          object.polygon[i]? = some q → object.polygon[i']? = some q' →
          p.vdata j = p'.vdata j' → q.index j = q'.index j' := by
  obtain ⟨obj, hc, -, -, -, -, -, hlen, hidx⟩ :=
    Convert_Data_With_Texcoords_spec sqrtf src_vertices src_texcoords src_polys smooth
  refine ⟨obj, hc, hlen, ?_⟩
  intro i i' p p' q q' j j' hp hp' hq hq' hsig
  rw [hidx i p q hp hq j, hidx i' p' q' hp' hq' j', hsig]

/-- C5 fails beyond 65536 output vertices: in the mesh `seamPolys` corner 0
of face 0 and corner 1 of face 21845 reference the same position with
different texcoord indices (0 and 65536) and store the same triangle
index. -/
theorem texcoord_seam_merged_counterexample :
    ∃ (object : Object3D ℚ) (p p' : SrcPoly) (q q' : Polygon3D),
      Convert_Data_With_Texcoords Rat.sqrt seamVertices seamTexcoords seamPolys false
          = some object
      ∧ seamPolys[0]? = some p ∧ seamPolys[21845]? = some p'
      ∧ object.polygon[0]? = some q ∧ object.polygon[21845]? = some q'
      ∧ (p.vdata 0).v = (p'.vdata 1).v ∧ (p.vdata 0).t ≠ (p'.vdata 1).t
      ∧ q.index 0 = q'.index 1 := by
  obtain ⟨obj, q, q', hc, -, hq, hq', h0, h1⟩ := seam_run false
  refine ⟨obj, _, _, q, q', hc, seamPolys_getElem? 0 (by omega),
    seamPolys_getElem? 21845 (by omega), hq, hq', ?_, ?_, ?_⟩
  · rfl
  · simp only [SrcPoly.vdata]
    omega
  · rw [h0, h1]

/-- C5. Texcoord mode, for meshes with at most 65536 distinct signatures:
two corners that reference the same position index but different texcoord
indices have different stored triangle indices. -/
theorem texcoord_seams_not_merged [DecidableEq F] (sqrtf : F → F)
    (src_vertices : List (Vector3D F)) (src_texcoords : List (UVCoordinate F))
    (src_polys : List SrcPoly) (smooth : Bool)
    (hsmall : (cornerList src_polys).toFinset.card ≤ 65536) :
    ∃ object : Object3D F,
      Convert_Data_With_Texcoords sqrtf src_vertices src_texcoords src_polys smooth
          = some object
      ∧ object.polygon.length = src_polys.length
      ∧ ∀ (i i' : Nat) (p p' : SrcPoly) (q q' : Polygon3D) (j j' : Fin 3),
          src_polys[i]? = some p → src_polys[i']? = some p' →
          object.polygon[i]? = some q → object.polygon[i']? = some q' →
          (p.vdata j).v = (p'.vdata j').v → (p.vdata j).t ≠ (p'.vdata j').t →
          q.index j ≠ q'.index j' := by
  obtain ⟨obj, hc, -, -, -, -, -, hlen, hidx⟩ :=
    Convert_Data_With_Texcoords_spec sqrtf src_vertices src_texcoords src_polys smooth
  refine ⟨obj, hc, hlen, ?_⟩
  intro i i' p p' q q' j j' hp hp' hq hq' _ hne
  have hm := vdata_mem_finalSigs src_polys i p hp j
  have hm' := vdata_mem_finalSigs src_polys i' p' hp' j'
  rw [hidx i p q hp hq j, hidx i' p' q' hp' hq' j',
    toUShort_indexOf_finalSigs src_polys _ hsmall hm,
    toUShort_indexOf_finalSigs src_polys _ hsmall hm']
  intro heq
  have := (List.indexOf_inj hm hm').mp heq
  exact hne (congrArg SrcPolyVertex.t this)

/-- Witness of C5 on the unit square with a texture seam. -/
theorem texcoord_seams_not_merged_witness :
    (cornerList squarePolys).toFinset.card ≤ 65536
    ∧ ∃ object : Object3D ℚ,
      Convert_Data_With_Texcoords Rat.sqrt squareVertices squareTexcoords squarePolys true
          = some object
      ∧ object.polygon.length = squarePolys.length
      ∧ ∀ (i i' : Nat) (p p' : SrcPoly) (q q' : Polygon3D) (j j' : Fin 3),
          squarePolys[i]? = some p → squarePolys[i']? = some p' →
          object.polygon[i]? = some q → object.polygon[i']? = some q' →
          (p.vdata j).v = (p'.vdata j').v → (p.vdata j).t ≠ (p'.vdata j').t →
          q.index j ≠ q'.index j' :=
  ⟨by decide,
    texcoord_seams_not_merged Rat.sqrt squareVertices squareTexcoords squarePolys true
      (by decide)⟩

/-- C6. No-texcoord mode: `Convert_Data` sets `num_vertices` to the number of
position records, copies the position records in order (output vertex `i` is
position record `i`), and sets `num_polygons` to the number of face records,
one output triangle per face record. -/
theorem convert_data_copies_positions [DecidableEq F] (sqrtf : F → F) (src_vertices : List (Vector3D F))
    (src_polys : List SrcPoly) (smooth : Bool) :
    (Convert_Data sqrtf src_vertices src_polys smooth).num_vertices = src_vertices.length
    ∧ (Convert_Data sqrtf src_vertices src_polys smooth).vertex = src_vertices
    ∧ (∀ i : Nat,
        (Convert_Data sqrtf src_vertices src_polys smooth).vertex[i]? = src_vertices[i]?)
    ∧ (Convert_Data sqrtf src_vertices src_polys smooth).num_polygons = src_polys.length
    ∧ (Convert_Data sqrtf src_vertices src_polys smooth).polygon.length
        = src_polys.length := by
  have hv := Convert_Data_vertex sqrtf src_vertices src_polys smooth
  refine ⟨rfl, hv, ?_, rfl, ?_⟩
  · intro i
    rw [hv]
  · rw [Convert_Data_polygon]
    simp

/-- C7 fails beyond 65536 positions: with 65537 position records the valid
face line `f 65537 1 2` is stored as the triangle `(0, 0, 1)`, not
`(65536, 0, 1)`. -/
theorem plain_face_indices_counterexample :
    ((1 : Int) ≤ 65537 ∧ (65537 : Int) ≤ manyVertices.length
      ∧ (1 : Int) ≤ 1 ∧ (1 : Int) ≤ manyVertices.length
      ∧ (1 : Int) ≤ 2 ∧ (2 : Int) ≤ manyVertices.length)
    ∧ (Convert_Data Rat.sqrt manyVertices [ingestPlainFace false 65537 1 2] false).polygon
        = [⟨0, 0, 1⟩] := by
  constructor
  · have hl : manyVertices.length = 65537 := by simp only [manyVertices, List.length_replicate]
    rw [hl]
    norm_num
  · rw [Convert_Data_polygon]
    decide

/-- C7. No-texcoord mode, for files with at most 65536 position records:
when every face line `f a b c` has `a`, `b`, `c` between 1 and the position
count, triangle `i` of the output mesh has the indices `(a-1, b-1, c-1)` of
the `i`-th face line. -/
theorem plain_face_indices [DecidableEq F] (sqrtf : F → F)
    (src_vertices : List (Vector3D F)) (faces : List (Int × Int × Int)) (smooth : Bool)
    (hcount : src_vertices.length ≤ 65536)
    (hvalid : ∀ f ∈ faces,
      1 ≤ f.1 ∧ f.1 ≤ src_vertices.length ∧ 1 ≤ f.2.1 ∧ f.2.1 ≤ src_vertices.length
      ∧ 1 ≤ f.2.2 ∧ f.2.2 ≤ src_vertices.length) :
    (Convert_Data sqrtf src_vertices
        (faces.map fun f => ingestPlainFace false f.1 f.2.1 f.2.2) smooth).polygon.length
      = faces.length
    ∧ ∀ (i : Nat) (f : Int × Int × Int) (q : Polygon3D), faces[i]? = some f →
        (Convert_Data sqrtf src_vertices
          (faces.map fun f => ingestPlainFace false f.1 f.2.1 f.2.2) smooth).polygon[i]?
            = some q →
        ((q.index 0 : Nat) : Int) = f.1 - 1 ∧ ((q.index 1 : Nat) : Int) = f.2.1 - 1
        ∧ ((q.index 2 : Nat) : Int) = f.2.2 - 1 := by
  rw [Convert_Data_polygon]
  refine ⟨by simp, ?_⟩
  intro i f q hf hq
  rw [List.map_map, List.getElem?_map, hf] at hq
  simp only [Option.map_some', Function.comp_apply, Option.some.injEq] at hq
  subst hq
  obtain ⟨ha1, ha2, hb1, hb2, hc1, hc2⟩ := hvalid f (List.getElem?_mem hf)
  have key : ∀ a : Int, 1 ≤ a → a ≤ src_vertices.length →
      ((intToUShort (a - 1) : Nat) : Int) = a - 1 := by
    intro a h1 h2
    have hlt : a - 1 < 65536 := by omega
    have hnn : 0 ≤ a - 1 := by omega
    have hmod : (a - 1) % ((USHORT_RANGE : Nat) : Int) = a - 1 := by
      simp only [USHORT_RANGE]
      exact Int.emod_eq_of_lt hnn hlt
    simp only [intToUShort, hmod]
    exact Int.toNat_of_nonneg hnn
  exact ⟨key _ ha1 ha2, key _ hb1 hb2, key _ hc1 hc2⟩

/-- Witness of C7 on the unit square `f 1 2 3`, `f 1 3 4`. -/
theorem plain_face_indices_witness :
    squareVertices.length ≤ 65536
    ∧ (∀ f ∈ [((1 : Int), (2 : Int), (3 : Int)), (1, 3, 4)],
      1 ≤ f.1 ∧ f.1 ≤ squareVertices.length ∧ 1 ≤ f.2.1 ∧ f.2.1 ≤ squareVertices.length
      ∧ 1 ≤ f.2.2 ∧ f.2.2 ≤ squareVertices.length)
    ∧ (Convert_Data Rat.sqrt squareVertices
        ([((1 : Int), (2 : Int), (3 : Int)), (1, 3, 4)].map
          fun f => ingestPlainFace false f.1 f.2.1 f.2.2) false).polygon.length
      = [((1 : Int), (2 : Int), (3 : Int)), (1, 3, 4)].length
    ∧ ∀ (i : Nat) (f : Int × Int × Int) (q : Polygon3D),
        [((1 : Int), (2 : Int), (3 : Int)), (1, 3, 4)][i]? = some f →
        (Convert_Data Rat.sqrt squareVertices
          ([((1 : Int), (2 : Int), (3 : Int)), (1, 3, 4)].map
            fun f => ingestPlainFace false f.1 f.2.1 f.2.2) false).polygon[i]?
            = some q →
        ((q.index 0 : Nat) : Int) = f.1 - 1 ∧ ((q.index 1 : Nat) : Int) = f.2.1 - 1
        ∧ ((q.index 2 : Nat) : Int) = f.2.2 - 1 :=
  ⟨by decide, by decide,
    plain_face_indices Rat.sqrt squareVertices [(1, 2, 3), (1, 3, 4)] false
      (by decide) (by decide)⟩

/-- C8. Texcoord mode: for every list of face records the conversion
succeeds and the number of output vertices is at most three times the number
of faces. -/
theorem texcoord_vertex_count_le [DecidableEq F] (sqrtf : F → F) (src_vertices : List (Vector3D F))
    (src_texcoords : List (UVCoordinate F)) (src_polys : List SrcPoly) (smooth : Bool) :
    ∃ object : Object3D F,
      Convert_Data_With_Texcoords sqrtf src_vertices src_texcoords src_polys smooth
          = some object
      ∧ object.vertex.length = object.num_vertices
      ∧ object.num_vertices ≤ 3 * src_polys.length := by
  obtain ⟨obj, hc, -, hnv, -, hv, -, -, -⟩ :=
    Convert_Data_With_Texcoords_spec sqrtf src_vertices src_texcoords src_polys smooth
  refine ⟨obj, hc, ?_, ?_⟩
  · rw [hv, hnv, List.length_map]
  · rw [hnv]
    exact length_finalSigs_le src_polys

/-- C9. Texcoord mode: for every list of face records, of any size, every
stored triangle index `polygon[i].index[j]` is strictly below `num_vertices`,
the length of the output vertex array. -/
theorem texcoord_indices_in_bounds [DecidableEq F] (sqrtf : F → F) (src_vertices : List (Vector3D F))
    (src_texcoords : List (UVCoordinate F)) (src_polys : List SrcPoly) (smooth : Bool) :
    ∃ object : Object3D F,
      Convert_Data_With_Texcoords sqrtf src_vertices src_texcoords src_polys smooth
          = some object
      ∧ object.polygon.length = src_polys.length
      ∧ object.vertex.length = object.num_vertices
      ∧ ∀ q ∈ object.polygon, ∀ j : Fin 3, q.index j < object.num_vertices := by
  obtain ⟨obj, hc, -, hnv, -, hv, -, hlen, hidx⟩ :=
    Convert_Data_With_Texcoords_spec sqrtf src_vertices src_texcoords src_polys smooth
  refine ⟨obj, hc, hlen, by rw [hv, hnv, List.length_map], ?_⟩
  intro q hq j
  obtain ⟨i, hi, hqi⟩ := List.getElem_of_mem hq
  have hi' : i < src_polys.length := hlen ▸ hi
  have hp : src_polys[i]? = some src_polys[i] := List.getElem?_eq_getElem hi'
  have hq' : obj.polygon[i]? = some q := by rw [List.getElem?_eq_getElem hi, hqi]
  rw [hidx i _ q hp hq' j, hnv]
  have hmem : src_polys[i].vdata j ∈ addSigs [] (cornerList src_polys) :=
    (mem_finalSigs src_polys _).mpr ⟨_, List.getElem_mem hi', j, rfl⟩
  exact lt_of_le_of_lt (Nat.mod_le _ _) (List.indexOf_lt_length.mpr hmem)

/-- C10. Texcoord mode: the capacity guard is never taken.  For every list of
face records the conversion returns an object, and at every face `p` of the
list the three states in which the guard can be evaluated (before corner 0,
1 and 2 of `p`) have `num_gx_vertices < max_gx_vertices = 3 * src_num_polys`. -/
theorem capacity_guard_unreachable [DecidableEq F] (sqrtf : F → F) (src_vertices : List (Vector3D F))
    (src_texcoords : List (UVCoordinate F)) (src_polys : List SrcPoly) (smooth : Bool) :
    (Convert_Data_With_Texcoords sqrtf src_vertices src_texcoords src_polys smooth).isSome
        = true
    ∧ ∀ (pre : List SrcPoly) (p : SrcPoly) (post : List SrcPoly),
        src_polys = pre ++ p :: post →
        ∃ (st : GxState F) (out : List Polygon3D) (st0 : GxState F) (k0 : Nat)
          (st1 : GxState F) (k1 : Nat),
          dedupLoop src_vertices src_texcoords (src_polys.length * 3) GxState.init pre
              = some (st, out)
          ∧ dedupCorner src_vertices src_texcoords (src_polys.length * 3) st p.vdata0
              = some (st0, k0)
          ∧ dedupCorner src_vertices src_texcoords (src_polys.length * 3) st0 p.vdata1
              = some (st1, k1)
          ∧ (dedupCorner src_vertices src_texcoords (src_polys.length * 3) st1
              p.vdata2).isSome = true
          ∧ st.num_gx_vertices < src_polys.length * 3
          ∧ st0.num_gx_vertices < src_polys.length * 3
          ∧ st1.num_gx_vertices < src_polys.length * 3 := by
  constructor
  · obtain ⟨obj, hc, -⟩ :=
      Convert_Data_With_Texcoords_spec sqrtf src_vertices src_texcoords src_polys smooth
    rw [hc]
    rfl
  · intro pre p post hsplit
    have hlen : src_polys.length = pre.length + 1 + post.length := by
      rw [hsplit]
      simp
      omega
    have hS := length_finalSigs_le pre
    have h0 := addSig_length_le (addSigs [] (cornerList pre)) p.vdata0
    have h1 := addSig_length_le (addSig (addSigs [] (cornerList pre)) p.vdata0) p.vdata1
    obtain ⟨out, hrun, -, -⟩ := dedupLoop_gxOf src_vertices src_texcoords
      (src_polys.length * 3) pre [] (by simp; omega)
    have e0 := dedupCorner_gxOf src_vertices src_texcoords (src_polys.length * 3)
      (addSigs [] (cornerList pre)) p.vdata0 (by omega)
    have e1 := dedupCorner_gxOf src_vertices src_texcoords (src_polys.length * 3)
      (addSig (addSigs [] (cornerList pre)) p.vdata0) p.vdata1 (by omega)
    have e2 := dedupCorner_gxOf src_vertices src_texcoords (src_polys.length * 3)
      (addSig (addSig (addSigs [] (cornerList pre)) p.vdata0) p.vdata1) p.vdata2 (by omega)
    refine ⟨_, out, _, _, _, _, hrun, e0, e1, by rw [e2]; rfl, ?_, ?_, ?_⟩
    · simp only [gxOf, GxState.num_gx_vertices]; omega
    · simp only [gxOf, GxState.num_gx_vertices]; omega
    · simp only [gxOf, GxState.num_gx_vertices]; omega

end Claims

/-! ## Round trip of the deduplication -/

section RoundTrip

variable {F : Type} [Field F]

theorem readNat_indexOf (l : List SrcPolyVertex) (c : SrcPolyVertex) (h : c ∈ l) :
    readNat ⟨0, 0⟩ l (l.indexOf c) = c := by
  have hlt := List.indexOf_lt_length.mpr h
  have hget : l[l.indexOf c] = c := List.indexOf_get hlt
  simp [readNat, List.getD_eq_getElem?_getD, List.getElem?_eq_getElem hlt, hget]

theorem reconstructPolys_eq (polys : List SrcPoly) (out : List Polygon3D)
    (hsmall : (cornerList polys).toFinset.card ≤ 65536)
    (hlen : out.length = polys.length)
    (hidx : ∀ (i : Nat) (p : SrcPoly) (q : Polygon3D), polys[i]? = some p →
      out[i]? = some q → ∀ j : Fin 3,
        q.index j = toUShort ((addSigs [] (cornerList polys)).indexOf (p.vdata j))) :
    reconstructPolys (addSigs [] (cornerList polys)) out = polys := by
  apply List.ext_getElem
  · simp [reconstructPolys, hlen]
  · intro i h1 h2
    have ho : i < out.length := by simpa [reconstructPolys] using h1
    have hp : polys[i]? = some polys[i] := List.getElem?_eq_getElem h2
    have hq : out[i]? = some out[i] := List.getElem?_eq_getElem ho
    have key : ∀ j : Fin 3, readNat ⟨0, 0⟩ (addSigs [] (cornerList polys)) (out[i].index j)
        = polys[i].vdata j := by
      intro j
      have hm := vdata_mem_finalSigs polys i _ hp j
      rw [hidx i _ _ hp hq j, toUShort_indexOf_finalSigs polys _ hsmall hm]
      exact readNat_indexOf _ _ hm
    have k0 := key 0
    have k1 := key 1
    have k2 := key 2
    simp only [Polygon3D.index, SrcPoly.vdata] at k0 k1 k2
    simp only [reconstructPolys, List.getElem_map, k0, k1, k2]

theorem gxOf_sig (src_vertices : List (Vector3D F)) (src_texcoords : List (UVCoordinate F))
    (l : List SrcPolyVertex) : (gxOf src_vertices src_texcoords l).tmp_gx_vertices_sig = l :=
  rfl

theorem toUShort_lt (k : Nat) : toUShort k < 65536 :=
  Nat.mod_lt _ (by decide)

theorem length_finalSigs_reconstruct_le (sigs : List SrcPolyVertex) (out : List Polygon3D)
    (hout : ∀ q ∈ out, ∀ j : Fin 3, q.index j < 65536) :
    (addSigs [] (cornerList (reconstructPolys sigs out))).length ≤ 65536 := by
  have hsub : addSigs [] (cornerList (reconstructPolys sigs out))
      ⊆ (List.range 65536).map (fun k : Nat => readNat ⟨0, 0⟩ sigs k) := by
    intro s hs
    obtain ⟨p, hp, j, hj⟩ := (mem_finalSigs _ s).mp hs
    simp only [reconstructPolys, List.mem_map] at hp
    obtain ⟨q, hq, rfl⟩ := hp
    have h0 := hout q hq 0
    have h1 := hout q hq 1
    have h2 := hout q hq 2
    simp only [Polygon3D.index] at h0 h1 h2
    rw [List.mem_map]
    match j, hj with
    | ⟨0, _⟩, hj => exact ⟨q.index0, List.mem_range.mpr h0, hj⟩
    | ⟨1, _⟩, hj => exact ⟨q.index1, List.mem_range.mpr h1, hj⟩
    | ⟨2, _⟩, hj => exact ⟨q.index2, List.mem_range.mpr h2, hj⟩
  have h := ((nodup_finalSigs (reconstructPolys sigs out)).subperm hsub).length_le
  simpa using h

/-- C11 fails beyond 65536 output vertices: the mesh `seamPolys` yields 65538
output vertices, and the deduplication of the face records read back from
that output mesh yields at most 65536. -/
theorem dedup_roundtrip_counterexample :
    ∃ (st : GxState ℚ) (polygon : List Polygon3D) (object object' : Object3D ℚ),
      buildGx seamVertices seamTexcoords seamPolys = some (st, polygon)
      ∧ Convert_Data_With_Texcoords Rat.sqrt seamVertices seamTexcoords seamPolys false
          = some object
      ∧ Convert_Data_With_Texcoords Rat.sqrt seamVertices seamTexcoords
          (reconstructPolys st.tmp_gx_vertices_sig polygon) false = some object'
      ∧ object.num_vertices = 65538 ∧ object'.num_vertices ≤ 65536
      ∧ object'.vertex ≠ object.vertex := by
  obtain ⟨obj, hc, hb, hnv, -, hv, -, hlen, hidx⟩ :=
    Convert_Data_With_Texcoords_spec Rat.sqrt seamVertices seamTexcoords seamPolys false
  obtain ⟨obj', hc', -, hnv', -, hv', -, -, -⟩ :=
    Convert_Data_With_Texcoords_spec Rat.sqrt seamVertices seamTexcoords
      (reconstructPolys (addSigs [] (cornerList seamPolys)) obj.polygon) false
  have hS : (addSigs [] (cornerList seamPolys)).length = 65538 := by
    have h := finalSigs_seamPolysN 21846
    simp only [seamPolys]
    rw [h, List.length_map, List.length_range]
  have hout : ∀ q ∈ obj.polygon, ∀ j : Fin 3, q.index j < 65536 := by
    intro q hq j
    obtain ⟨i, hi, hqi⟩ := List.getElem_of_mem hq
    have hi' : i < seamPolys.length := hlen ▸ hi
    rw [hidx i _ q (List.getElem?_eq_getElem hi') (by rw [List.getElem?_eq_getElem hi, hqi]) j]
    exact toUShort_lt _
  have hle := length_finalSigs_reconstruct_le (addSigs [] (cornerList seamPolys)) obj.polygon hout
  refine ⟨gxOf seamVertices seamTexcoords (addSigs [] (cornerList seamPolys)), obj.polygon,
    obj, obj', hb, hc, ?_, ?_, ?_, ?_⟩
  · rw [gxOf_sig]
    exact hc'
  · rw [hnv]
    exact hS
  · rw [hnv']
    exact hle
  · intro heq
    have hl := congrArg List.length heq
    rw [hv, hv', List.length_map, List.length_map, hS] at hl
    omega

/-- C11. Texcoord mode, for meshes with at most 65536 distinct signatures:
running the deduplication again on the face records read back from the
output mesh (the signature of a corner is the signature of the output vertex
its stored index refers to) ends in the same state (same signature, vertex
and texcoord sequences), writes the same triangle indices and returns the
same object. -/
theorem dedup_roundtrip [DecidableEq F] (sqrtf : F → F) (src_vertices : List (Vector3D F))
    (src_texcoords : List (UVCoordinate F)) (src_polys : List SrcPoly) (smooth : Bool)
    (hsmall : (cornerList src_polys).toFinset.card ≤ 65536) :
    ∃ (st : GxState F) (polygon : List Polygon3D) (object : Object3D F),
      buildGx src_vertices src_texcoords src_polys = some (st, polygon)
      ∧ Convert_Data_With_Texcoords sqrtf src_vertices src_texcoords src_polys smooth
          = some object
      ∧ buildGx src_vertices src_texcoords (reconstructPolys st.tmp_gx_vertices_sig polygon)
          = some (st, polygon)
      ∧ Convert_Data_With_Texcoords sqrtf src_vertices src_texcoords
          (reconstructPolys st.tmp_gx_vertices_sig polygon) smooth = some object := by
  obtain ⟨obj, hc, hb, -, -, -, -, hlen, hidx⟩ :=
    Convert_Data_With_Texcoords_spec sqrtf src_vertices src_texcoords src_polys smooth
  have hrec := reconstructPolys_eq src_polys obj.polygon hsmall hlen hidx
  refine ⟨_, obj.polygon, obj, hb, hc, ?_, ?_⟩
  · simp only [gxOf] at hrec ⊢
    rw [hrec]
    exact hb
  · simp only [gxOf] at hrec ⊢
    rw [hrec]
    exact hc

/-- Witness of C11 on the unit square with a texture seam. -/
theorem dedup_roundtrip_witness :
    (cornerList squarePolys).toFinset.card ≤ 65536
    ∧ ∃ (st : GxState ℚ) (polygon : List Polygon3D) (object : Object3D ℚ),
      buildGx squareVertices squareTexcoords squarePolys = some (st, polygon)
      ∧ Convert_Data_With_Texcoords Rat.sqrt squareVertices squareTexcoords squarePolys false
          = some object
      ∧ buildGx squareVertices squareTexcoords
          (reconstructPolys st.tmp_gx_vertices_sig polygon) = some (st, polygon)
      ∧ Convert_Data_With_Texcoords Rat.sqrt squareVertices squareTexcoords
          (reconstructPolys st.tmp_gx_vertices_sig polygon) false = some object :=
  ⟨by decide,
    dedup_roundtrip Rat.sqrt squareVertices squareTexcoords squarePolys false (by decide)⟩

end RoundTrip

/-! ## Lines of the file: classification, face formats, face records -/

section FaceLines

theorem digitChar_cases (d : Nat) (h : d < 10) :
    digitVal (Nat.digitChar d) = some d ∧ isSpace (Nat.digitChar d) = false
    ∧ Nat.digitChar d ≠ '/' ∧ Nat.digitChar d ≠ '-' ∧ Nat.digitChar d ≠ '+' := by
  interval_cases d <;> decide

theorem foldl_digits_reverse (l : List Nat) :
    l.reverse.foldl (fun a d => 10 * a + d) 0 = Nat.ofDigits 10 l := by
  rw [List.foldl_reverse, Nat.ofDigits_eq_foldr]
  congr 1
  funext d a
  simp [Nat.add_comm, Nat.mul_comm]

theorem scanDigits_map_digitChar (l : List Nat) (hl : ∀ d ∈ l, d < 10) (rest : List Char)
    (hrest : ∀ c, rest.head? = some c → digitVal c = none) (acc : Nat) :
    scanDigits (l.map Nat.digitChar ++ rest) acc
      = (l.foldl (fun a d => 10 * a + d) acc, rest) := by
  induction l generalizing acc with
  | nil =>
    cases rest with
    | nil => rfl
    | cons c r =>
      have := hrest c rfl
      simp [scanDigits, this]
  | cons d l ih =>
    have hd := (digitChar_cases d (hl d (List.mem_cons_self d l))).1
    have hl' : ∀ x ∈ l, x < 10 := fun x hx => hl x (List.mem_cons_of_mem d hx)
    simp only [List.map_cons, List.cons_append, scanDigits, hd, List.foldl_cons]
    exact ih hl' _

/-- The numeral `decimal n` as digit characters: a first digit and the others. -/
theorem decimal_eq_map (n : Nat) :
    ∃ (d : Nat) (l : List Nat), d < 10 ∧ (∀ x ∈ l, x < 10)
      ∧ decimal n = (d :: l).map Nat.digitChar
      ∧ (d :: l).foldl (fun a x => 10 * a + x) 0 = n := by
  by_cases h0 : n = 0
  · subst h0
    exact ⟨0, [], by decide, by simp, by decide, by decide⟩
  · have hne : (Nat.digits 10 n).reverse ≠ [] := by
      simpa using (Nat.digits_ne_nil_iff_ne_zero.mpr h0)
    obtain ⟨d, l, hdl⟩ := List.exists_cons_of_ne_nil hne
    have hlt : ∀ x ∈ d :: l, x < 10 := by
      intro x hx
      rw [← hdl, List.mem_reverse] at hx
      exact Nat.digits_lt_base (by decide) hx
    refine ⟨d, l, hlt d (List.mem_cons_self d l),
      fun x hx => hlt x (List.mem_cons_of_mem d hx), ?_, ?_⟩
    · simp only [decimal, if_neg h0, hdl]
    · rw [← hdl, foldl_digits_reverse, Nat.ofDigits_digits]

theorem scanInt_decimal (n : Nat) (rest : List Char)
    (hrest : ∀ c, rest.head? = some c → digitVal c = none) :
    scanInt (decimal n ++ rest) = some ((n : Int), rest) := by
  obtain ⟨d, l, hd, hl, hdec, hval⟩ := decimal_eq_map n
  obtain ⟨hv, hsp, -, hminus, hplus⟩ := digitChar_cases d hd
  have hall : ∀ x ∈ d :: l, x < 10 := by
    intro x hx
    rcases List.mem_cons.mp hx with e | e
    · exact e ▸ hd
    · exact hl x e
  have hscan := scanDigits_map_digitChar (d :: l) hall rest hrest 0
  rw [hval] at hscan
  rw [hdec]
  simp only [List.map_cons, List.cons_append] at hscan ⊢
  have hskip : skipSpace (Nat.digitChar d :: (l.map Nat.digitChar ++ rest))
      = Nat.digitChar d :: (l.map Nat.digitChar ++ rest) := by
    simp [skipSpace, hsp]
  unfold scanInt
  rw [hskip]
  split
  · rename_i heq
    exact absurd (List.cons.inj heq).1 hminus
  · rename_i heq
    exact absurd (List.cons.inj heq).1 hplus
  · simp [hv, hscan]

theorem strNumExistsLoop_eq (c : Char) (str : List Char) (n : Nat) :
    strNumExistsLoop c str n = n + str.count c := by
  induction str generalizing n with
  | nil => simp [strNumExistsLoop]
  | cons x rest ih =>
    by_cases h : x = c
    · subst h
      simp only [strNumExistsLoop, if_true, ih, List.count_cons_self]
      omega
    · have hc : List.count c (x :: rest) = List.count c rest := by
        simp [List.count_cons, h]
      simp only [strNumExistsLoop, if_neg h, ih, hc]

theorem strNumExists_eq_count (str : List Char) (c : Char) :
    strNumExists str c = str.count c := by
  simp [strNumExists, strNumExistsLoop_eq]

theorem strstrSlashSlash_iff (line : List Char) :
    strstrSlashSlash line = true ↔ ∃ a b : List Char, line = a ++ '/' :: '/' :: b := by
  induction line with
  | nil => simp [strstrSlashSlash]
  | cons c rest ih =>
    simp only [strstrSlashSlash, Bool.or_eq_true, Bool.and_eq_true, decide_eq_true_eq, ih]
    constructor
    · rintro (⟨hc, hr⟩ | ⟨a, b, hab⟩)
      · cases rest with
        | nil => simp at hr
        | cons x r =>
          simp only [List.head?_cons, Option.some.injEq] at hr
          exact ⟨[], r, by simp [hc, hr]⟩
      · exact ⟨c :: a, b, by simp [hab]⟩
    · rintro ⟨a, b, hab⟩
      cases a with
      | nil =>
        simp only [List.nil_append, List.cons.injEq] at hab
        exact Or.inl ⟨hab.1, by simp [hab.2]⟩
      | cons x a =>
        simp only [List.cons_append, List.cons.injEq] at hab
        exact Or.inr ⟨a, b, hab.2⟩

/-- C12. Line classification of `ReadOBJFile`: a line is taken for a position
record iff its first two characters are `v` and a blank, for a texcoord record
iff they are `v` and `t`, for a face record iff they are `f` and a blank, and
is ignored otherwise (so for an empty line, a comment and a `vn` line); the
three kinds exclude one another, and the counting loop increments the counter
of the kind and no other. -/
theorem line_classification (line : List Char) :
    (classifyLine line = LineKind.position ↔ ∃ rest, line = 'v' :: ' ' :: rest)
    ∧ (classifyLine line = LineKind.texcoord ↔ ∃ rest, line = 'v' :: 't' :: rest)
    ∧ (classifyLine line = LineKind.face ↔ ∃ rest, line = 'f' :: ' ' :: rest)
    ∧ (classifyLine line = LineKind.other ↔
        (¬ ∃ rest, line = 'v' :: ' ' :: rest) ∧ (¬ ∃ rest, line = 'v' :: 't' :: rest)
        ∧ ¬ ∃ rest, line = 'f' :: ' ' :: rest)
    ∧ ¬ ((∃ rest, line = 'v' :: ' ' :: rest) ∧ ∃ rest, line = 'v' :: 't' :: rest)
    ∧ ¬ ((∃ rest, line = 'v' :: ' ' :: rest) ∧ ∃ rest, line = 'f' :: ' ' :: rest)
    ∧ ¬ ((∃ rest, line = 'v' :: 't' :: rest) ∧ ∃ rest, line = 'f' :: ' ' :: rest)
    ∧ classifyLine [] = LineKind.other
    ∧ (∀ rest, classifyLine ('#' :: rest) = LineKind.other)
    ∧ (∀ rest, classifyLine ('v' :: 'n' :: rest) = LineKind.other)
    ∧ ∀ counts : SrcCounts,
        countLine counts line =
          { src_num_vertices := counts.src_num_vertices
              + (if classifyLine line = LineKind.position then 1 else 0)
            src_num_texcoords := counts.src_num_texcoords
              + (if classifyLine line = LineKind.texcoord then 1 else 0)
            src_num_polys := counts.src_num_polys
              + (if classifyLine line = LineKind.face then 1 else 0) } := by
  have hp : ∀ c0 c1 : Char, (lineChar line 0 = c0 ∧ lineChar line 1 = c1) → c1 ≠ NUL →
      ∃ rest, line = c0 :: c1 :: rest := by
    intro c0 c1 h hn
    match line, h with
    | [], h => exact absurd h.2.symm hn
    | [x], h => exact absurd h.2.symm hn
    | x :: y :: r, h =>
      simp only [lineChar, List.getD_cons_zero, List.getD_cons_succ] at h
      exact ⟨r, by rw [h.1, h.2]⟩
  have hq : ∀ c0 c1 : Char, (∃ rest, line = c0 :: c1 :: rest) →
      lineChar line 0 = c0 ∧ lineChar line 1 = c1 := by
    rintro c0 c1 ⟨r, rfl⟩
    exact ⟨rfl, rfl⟩
  have e1 : (lineChar line 0 = 'v' ∧ lineChar line 1 = ' ') ↔ ∃ rest, line = 'v' :: ' ' :: rest :=
    ⟨fun h => hp _ _ h (by decide), hq _ _⟩
  have e2 : (lineChar line 0 = 'v' ∧ lineChar line 1 = 't') ↔ ∃ rest, line = 'v' :: 't' :: rest :=
    ⟨fun h => hp _ _ h (by decide), hq _ _⟩
  have e3 : (lineChar line 0 = 'f' ∧ lineChar line 1 = ' ') ↔ ∃ rest, line = 'f' :: ' ' :: rest :=
    ⟨fun h => hp _ _ h (by decide), hq _ _⟩
  have x12 : ¬ ((lineChar line 0 = 'v' ∧ lineChar line 1 = ' ')
      ∧ (lineChar line 0 = 'v' ∧ lineChar line 1 = 't')) := by
    rintro ⟨⟨-, h⟩, -, h'⟩
    rw [h] at h'
    exact absurd h' (by decide)
  have x13 : ¬ ((lineChar line 0 = 'v' ∧ lineChar line 1 = ' ')
      ∧ (lineChar line 0 = 'f' ∧ lineChar line 1 = ' ')) := by
    rintro ⟨⟨h, -⟩, h', -⟩
    rw [h] at h'
    exact absurd h' (by decide)
  have x23 : ¬ ((lineChar line 0 = 'v' ∧ lineChar line 1 = 't')
      ∧ (lineChar line 0 = 'f' ∧ lineChar line 1 = ' ')) := by
    rintro ⟨⟨h, -⟩, h', -⟩
    rw [h] at h'
    exact absurd h' (by decide)
  rw [← e1, ← e2, ← e3]
  refine ⟨?_, ?_, ?_, ?_, x12, x13, x23, by decide, ?_, ?_, ?_⟩
  · unfold classifyLine
    split_ifs with h1 h2 h3 <;> simp_all
  · unfold classifyLine
    split_ifs with h1 h2 h3 <;> simp_all
  · unfold classifyLine
    split_ifs with h1 h2 h3 <;> simp_all
  · unfold classifyLine
    split_ifs with h1 h2 h3 <;> simp_all
  · intro rest
    simp [classifyLine, lineChar]
  · intro rest
    simp [classifyLine, lineChar]
  · intro counts
    unfold countLine
    cases h : classifyLine line <;> simp

/-- C13. Face-format selection of `ReadOBJFile`: `strNumExists (line, '/')`
is the number of slashes of the line; a line that contains `//` anywhere is
read in the position//normal format whatever its number of slashes; a line
that does not is read as plain indices when it has 0 slashes, as
position/texture pairs when it has 3 and as position/texture/normal triples
when it has 6. -/
theorem face_format_selection (line : List Char) :
    strNumExists line '/' = line.count '/'
    ∧ ((∃ a b : List Char, line = a ++ '/' :: '/' :: b) →
        faceFormat line = FaceFormat.positionNormal)
    ∧ ((¬ ∃ a b : List Char, line = a ++ '/' :: '/' :: b) →
        (line.count '/' = 0 → faceFormat line = FaceFormat.plain)
        ∧ (line.count '/' = 3 → faceFormat line = FaceFormat.positionTexture)
        ∧ (line.count '/' = 6 → faceFormat line = FaceFormat.positionTextureNormal)) := by
  refine ⟨strNumExists_eq_count line '/', ?_, ?_⟩
  · intro h
    have := (strstrSlashSlash_iff line).mpr h
    simp [faceFormat, this]
  · intro h
    have hs : strstrSlashSlash line = false := by
      cases hb : strstrSlashSlash line with
      | false => rfl
      | true => exact absurd ((strstrSlashSlash_iff line).mp hb) h
    refine ⟨?_, ?_, ?_⟩ <;> intro hc <;> simp [faceFormat, hs, strNumExists_eq_count, hc]

theorem decimal_no_slash (n : Nat) : ∀ c ∈ decimal n, c ≠ '/' := by
  obtain ⟨d, l, hd, hl, hdec, -⟩ := decimal_eq_map n
  intro c hc
  rw [hdec, List.mem_map] at hc
  obtain ⟨x, hx, rfl⟩ := hc
  have hx10 : x < 10 := by
    rcases List.mem_cons.mp hx with e | e
    · exact e ▸ hd
    · exact hl x e
  exact (digitChar_cases x hx10).2.2.1

theorem decimal_head (n : Nat) :
    ∃ (c : Char) (cs : List Char), decimal n = c :: cs ∧ c ≠ '/' ∧ isSpace c = false := by
  obtain ⟨d, l, hd, -, hdec, -⟩ := decimal_eq_map n
  exact ⟨Nat.digitChar d, l.map Nat.digitChar, by rw [hdec, List.map_cons],
    (digitChar_cases d hd).2.2.1, (digitChar_cases d hd).2.1⟩

theorem strstrSlashSlash_cons_ne (c : Char) (rest : List Char) (h : c ≠ '/') :
    strstrSlashSlash (c :: rest) = strstrSlashSlash rest := by
  simp [strstrSlashSlash, h]

theorem strstrSlashSlash_append_of_no_slash (ds rest : List Char) (h : ∀ c ∈ ds, c ≠ '/') :
    strstrSlashSlash (ds ++ rest) = strstrSlashSlash rest := by
  induction ds with
  | nil => rfl
  | cons c cs ih =>
    rw [List.cons_append, strstrSlashSlash_cons_ne _ _ (h c (List.mem_cons_self c cs))]
    exact ih fun x hx => h x (List.mem_cons_of_mem c hx)

theorem strstrSlashSlash_decimal (n : Nat) (rest : List Char) :
    strstrSlashSlash (decimal n ++ rest) = strstrSlashSlash rest :=
  strstrSlashSlash_append_of_no_slash _ _ (decimal_no_slash n)

theorem strstrSlashSlash_slash_decimal (n : Nat) (rest : List Char) :
    strstrSlashSlash ('/' :: (decimal n ++ rest)) = strstrSlashSlash rest := by
  obtain ⟨c, cs, hc, hne, -⟩ := decimal_head n
  have h : strstrSlashSlash ('/' :: (decimal n ++ rest))
      = strstrSlashSlash (decimal n ++ rest) := by
    rw [hc]
    simp [strstrSlashSlash, hne]
  rw [h, strstrSlashSlash_decimal]

theorem strstrSlashSlash_of_no_slash (eol : List Char) (h : '/' ∉ eol) :
    strstrSlashSlash eol = false := by
  have := strstrSlashSlash_append_of_no_slash eol [] (fun c hc e => h (e ▸ hc))
  simpa [strstrSlashSlash] using this

theorem count_slash_decimal (n : Nat) : (decimal n).count '/' = 0 :=
  List.count_eq_zero.mpr fun h => decimal_no_slash n '/' h rfl

theorem skipSpace_decimal (n : Nat) (rest : List Char) :
    skipSpace (decimal n ++ rest) = decimal n ++ rest := by
  obtain ⟨c, cs, hc, -, hsp⟩ := decimal_head n
  rw [hc]
  simp [skipSpace, hsp]

theorem sscanf_lit (c : Char) (fmt : List ScanItem) (input : List Char) :
    sscanf (ScanItem.lit c :: fmt) (c :: input) = sscanf fmt input := by
  simp [sscanf]

theorem sscanf_white_decimal (fmt : List ScanItem) (n : Nat) (rest : List Char) :
    sscanf (ScanItem.white :: fmt) (' ' :: (decimal n ++ rest))
      = sscanf fmt (decimal n ++ rest) := by
  have h : skipSpace (' ' :: (decimal n ++ rest)) = decimal n ++ rest := by
    have hs : isSpace ' ' = true := by decide
    rw [skipSpace, if_pos hs, skipSpace_decimal]
  rw [sscanf, h]

theorem sscanf_int_decimal (fmt : List ScanItem) (n : Nat) (rest : List Char)
    (hrest : ∀ c, rest.head? = some c → digitVal c = none) :
    sscanf (ScanItem.int :: fmt) (decimal n ++ rest) = (n : Int) :: sscanf fmt rest := by
  rw [sscanf, scanInt_decimal n rest hrest]

theorem head_slash (rest : List Char) :
    ∀ c, ('/' :: rest).head? = some c → digitVal c = none := by
  intro c h
  simp only [List.head?_cons, Option.some.injEq] at h
  subst h
  decide

theorem head_blank (rest : List Char) :
    ∀ c, (' ' :: rest).head? = some c → digitVal c = none := by
  intro c h
  simp only [List.head?_cons, Option.some.injEq] at h
  subst h
  decide

theorem faceFormat_faceLinePT (i0 t0 i1 t1 i2 t2 : Nat) (eol : List Char) (h1 : '/' ∉ eol) :
    faceFormat (faceLinePT i0 t0 i1 t1 i2 t2 eol) = FaceFormat.positionTexture := by
  have hss : strstrSlashSlash (faceLinePT i0 t0 i1 t1 i2 t2 eol) = false := by
    simp only [faceLinePT, List.append_assoc, List.cons_append]
    rw [strstrSlashSlash_cons_ne _ _ (by decide), strstrSlashSlash_cons_ne _ _ (by decide),
      strstrSlashSlash_decimal, strstrSlashSlash_slash_decimal,
      strstrSlashSlash_cons_ne _ _ (by decide),
      strstrSlashSlash_decimal, strstrSlashSlash_slash_decimal,
      strstrSlashSlash_cons_ne _ _ (by decide),
      strstrSlashSlash_decimal, strstrSlashSlash_slash_decimal]
    exact strstrSlashSlash_of_no_slash eol h1
  have hcount : strNumExists (faceLinePT i0 t0 i1 t1 i2 t2 eol) '/' = 3 := by
    rw [strNumExists_eq_count]
    have he : eol.count '/' = 0 := List.count_eq_zero.mpr h1
    simp [faceLinePT, List.count_append, List.count_cons, count_slash_decimal, he]
  simp [faceFormat, hss, hcount]

theorem faceFormat_faceLinePTN (i0 t0 n0 i1 t1 n1 i2 t2 n2 : Nat) (eol : List Char)
    (h1 : '/' ∉ eol) :
    faceFormat (faceLinePTN i0 t0 n0 i1 t1 n1 i2 t2 n2 eol)
      = FaceFormat.positionTextureNormal := by
  have hss : strstrSlashSlash (faceLinePTN i0 t0 n0 i1 t1 n1 i2 t2 n2 eol) = false := by
    simp only [faceLinePTN, List.append_assoc, List.cons_append]
    rw [strstrSlashSlash_cons_ne _ _ (by decide), strstrSlashSlash_cons_ne _ _ (by decide),
      strstrSlashSlash_decimal, strstrSlashSlash_slash_decimal, strstrSlashSlash_slash_decimal,
      strstrSlashSlash_cons_ne _ _ (by decide),
      strstrSlashSlash_decimal, strstrSlashSlash_slash_decimal, strstrSlashSlash_slash_decimal,
      strstrSlashSlash_cons_ne _ _ (by decide),
      strstrSlashSlash_decimal, strstrSlashSlash_slash_decimal, strstrSlashSlash_slash_decimal]
    exact strstrSlashSlash_of_no_slash eol h1
  have hcount : strNumExists (faceLinePTN i0 t0 n0 i1 t1 n1 i2 t2 n2 eol) '/' = 6 := by
    rw [strNumExists_eq_count]
    have he : eol.count '/' = 0 := List.count_eq_zero.mpr h1
    simp [faceLinePTN, List.count_append, List.count_cons, count_slash_decimal, he]
  simp [faceFormat, hss, hcount]

theorem sscanf_faceLinePT (i0 t0 i1 t1 i2 t2 : Nat) (eol : List Char)
    (h2 : ∀ c, eol.head? = some c → digitVal c = none) :
    sscanf (parseFormat ("f %d/%d %d/%d %d/%d".toList)) (faceLinePT i0 t0 i1 t1 i2 t2 eol)
      = [(i0 : Int), t0, i1, t1, i2, t2] := by
  have hfmt : parseFormat ("f %d/%d %d/%d %d/%d".toList)
      = [ScanItem.lit 'f', ScanItem.white, ScanItem.int, ScanItem.lit '/', ScanItem.int,
          ScanItem.white, ScanItem.int, ScanItem.lit '/', ScanItem.int,
          ScanItem.white, ScanItem.int, ScanItem.lit '/', ScanItem.int] := by decide
  rw [hfmt]
  simp only [faceLinePT, List.append_assoc, List.cons_append]
  rw [sscanf_lit, sscanf_white_decimal, sscanf_int_decimal _ _ _ (head_slash _), sscanf_lit,
    sscanf_int_decimal _ _ _ (head_blank _), sscanf_white_decimal,
    sscanf_int_decimal _ _ _ (head_slash _), sscanf_lit,
    sscanf_int_decimal _ _ _ (head_blank _), sscanf_white_decimal,
    sscanf_int_decimal _ _ _ (head_slash _), sscanf_lit,
    sscanf_int_decimal _ _ _ h2]
  rfl

theorem sscanf_faceLinePTN (i0 t0 n0 i1 t1 n1 i2 t2 n2 : Nat) (eol : List Char)
    (h2 : ∀ c, eol.head? = some c → digitVal c = none) :
    sscanf (parseFormat ("f %d/%d/%d %d/%d/%d %d/%d/%d".toList))
        (faceLinePTN i0 t0 n0 i1 t1 n1 i2 t2 n2 eol)
      = [(i0 : Int), t0, n0, i1, t1, n1, i2, t2, n2] := by
  have hfmt : parseFormat ("f %d/%d/%d %d/%d/%d %d/%d/%d".toList)
      = [ScanItem.lit 'f', ScanItem.white,
          ScanItem.int, ScanItem.lit '/', ScanItem.int, ScanItem.lit '/', ScanItem.int,
          ScanItem.white,
          ScanItem.int, ScanItem.lit '/', ScanItem.int, ScanItem.lit '/', ScanItem.int,
          ScanItem.white,
          ScanItem.int, ScanItem.lit '/', ScanItem.int, ScanItem.lit '/', ScanItem.int] := by
    decide
  rw [hfmt]
  simp only [faceLinePTN, List.append_assoc, List.cons_append]
  rw [sscanf_lit, sscanf_white_decimal,
    sscanf_int_decimal _ _ _ (head_slash _), sscanf_lit,
    sscanf_int_decimal _ _ _ (head_slash _), sscanf_lit,
    sscanf_int_decimal _ _ _ (head_blank _), sscanf_white_decimal,
    sscanf_int_decimal _ _ _ (head_slash _), sscanf_lit,
    sscanf_int_decimal _ _ _ (head_slash _), sscanf_lit,
    sscanf_int_decimal _ _ _ (head_blank _), sscanf_white_decimal,
    sscanf_int_decimal _ _ _ (head_slash _), sscanf_lit,
    sscanf_int_decimal _ _ _ (head_slash _), sscanf_lit,
    sscanf_int_decimal _ _ _ h2]
  rfl

theorem ingestFaceLine_positionTexture (load_texcoords : Bool) (vars : ScanVars)
    (line : List Char) (hf : faceFormat line = FaceFormat.positionTexture) (r : List Int)
    (hr : sscanf (parseFormat ("f %d/%d %d/%d %d/%d".toList)) line = r) :
    ingestFaceLine load_texcoords vars line
      = (⟨⟨r.getD 0 0 - 1,
            if load_texcoords then (if load_texcoords then r.getD 1 vars.tex0 else 0) - 1
            else if load_texcoords then r.getD 1 vars.tex0 else 0⟩,
          ⟨r.getD 2 0 - 1,
            if load_texcoords then (if load_texcoords then r.getD 3 vars.tex1 else 0) - 1
            else if load_texcoords then r.getD 3 vars.tex1 else 0⟩,
          ⟨r.getD 4 0 - 1,
            if load_texcoords then (if load_texcoords then r.getD 5 vars.tex2 else 0) - 1
            else if load_texcoords then r.getD 5 vars.tex2 else 0⟩⟩,
        { vars with tex0 := r.getD 1 vars.tex0, tex1 := r.getD 3 vars.tex1,
                    tex2 := r.getD 5 vars.tex2 }) := by
  subst hr
  unfold ingestFaceLine
  rw [hf]

theorem ingestFaceLine_positionTextureNormal (load_texcoords : Bool) (vars : ScanVars)
    (line : List Char) (hf : faceFormat line = FaceFormat.positionTextureNormal)
    (r : List Int)
    (hr : sscanf (parseFormat ("f %d/%d/%d %d/%d/%d %d/%d/%d".toList)) line = r) :
    ingestFaceLine load_texcoords vars line
      = (⟨⟨r.getD 0 0 - 1,
            if load_texcoords then (if load_texcoords then r.getD 1 vars.tex0 else 0) - 1
            else if load_texcoords then r.getD 1 vars.tex0 else 0⟩,
          ⟨r.getD 3 0 - 1,
            if load_texcoords then (if load_texcoords then r.getD 4 vars.tex1 else 0) - 1
            else if load_texcoords then r.getD 4 vars.tex1 else 0⟩,
          ⟨r.getD 6 0 - 1,
            if load_texcoords then (if load_texcoords then r.getD 7 vars.tex2 else 0) - 1
            else if load_texcoords then r.getD 7 vars.tex2 else 0⟩⟩,
        { tex0 := r.getD 1 vars.tex0, vn0 := r.getD 2 vars.vn0,
          tex1 := r.getD 4 vars.tex1, vn1 := r.getD 5 vars.vn1,
          tex2 := r.getD 7 vars.tex2, vn2 := r.getD 8 vars.vn2 }) := by
  subst hr
  unfold ingestFaceLine
  rw [hf]

/-- C14. Face records with `load_texcoords = true`: for a face line
`f i0/t0 i1/t1 i2/t2` or `f i0/t0/n0 i1/t1/n1 i2/t2/n2` whose decimal numerals
are within the range of `int` (followed by an end of line without slash that
does not start with a digit), the record stored for corner `k` is
`(ik - 1, tk - 1)`, every member of which is an `int` value; the normal indices
are converted into `vn0, vn1, vn2` and do not appear in the record. -/
theorem face_record_ingestion (vars : ScanVars) (i0 t0 n0 i1 t1 n1 i2 t2 n2 : Nat)
    (eol : List Char) (h1 : '/' ∉ eol)
    (h2 : ∀ c, eol.head? = some c → digitVal c = none)
    (hint : i0 ≤ INT_MAX ∧ t0 ≤ INT_MAX ∧ n0 ≤ INT_MAX ∧ i1 ≤ INT_MAX ∧ t1 ≤ INT_MAX
      ∧ n1 ≤ INT_MAX ∧ i2 ≤ INT_MAX ∧ t2 ≤ INT_MAX ∧ n2 ≤ INT_MAX) :
    (ingestFaceLine true vars (faceLinePT i0 t0 i1 t1 i2 t2 eol)).1
        = ⟨⟨(i0 : Int) - 1, (t0 : Int) - 1⟩, ⟨(i1 : Int) - 1, (t1 : Int) - 1⟩,
            ⟨(i2 : Int) - 1, (t2 : Int) - 1⟩⟩
    ∧ (ingestFaceLine true vars (faceLinePTN i0 t0 n0 i1 t1 n1 i2 t2 n2 eol)).1
        = ⟨⟨(i0 : Int) - 1, (t0 : Int) - 1⟩, ⟨(i1 : Int) - 1, (t1 : Int) - 1⟩,
            ⟨(i2 : Int) - 1, (t2 : Int) - 1⟩⟩
    ∧ (ingestFaceLine true vars (faceLinePTN i0 t0 n0 i1 t1 n1 i2 t2 n2 eol)).2
        = ⟨t0, t1, t2, n0, n1, n2⟩
    ∧ ∀ k ∈ [(i0 : Int) - 1, (t0 : Int) - 1, (i1 : Int) - 1, (t1 : Int) - 1, (i2 : Int) - 1,
        (t2 : Int) - 1], -(INT_MAX : Int) - 1 ≤ k ∧ k ≤ (INT_MAX : Int) := by
  refine ⟨?_, ?_, ?_, ?_⟩
  · rw [ingestFaceLine_positionTexture true vars _
      (faceFormat_faceLinePT i0 t0 i1 t1 i2 t2 eol h1) _
      (sscanf_faceLinePT i0 t0 i1 t1 i2 t2 eol h2)]
    rfl
  · rw [ingestFaceLine_positionTextureNormal true vars _
      (faceFormat_faceLinePTN i0 t0 n0 i1 t1 n1 i2 t2 n2 eol h1) _
      (sscanf_faceLinePTN i0 t0 n0 i1 t1 n1 i2 t2 n2 eol h2)]
    rfl
  · rw [ingestFaceLine_positionTextureNormal true vars _
      (faceFormat_faceLinePTN i0 t0 n0 i1 t1 n1 i2 t2 n2 eol h1) _
      (sscanf_faceLinePTN i0 t0 n0 i1 t1 n1 i2 t2 n2 eol h2)]
    rfl
  · obtain ⟨a0, a1, -, a3, a4, -, a6, a7, -⟩ := hint
    intro k hk
    simp only [List.mem_cons, List.mem_singleton, List.not_mem_nil, or_false] at hk
    unfold INT_MAX at *
    rcases hk with h | h | h | h | h | h <;> subst h <;> omega

/-- Witness of C14 on the lines `f 1/1 2/2 3/3` and `f 1/1/1 2/2/1 3/3/1`. -/
theorem face_record_ingestion_witness :
    '/' ∉ ['\n'] ∧ (∀ c, ['\n'].head? = some c → digitVal c = none)
    ∧ (1 ≤ INT_MAX ∧ 1 ≤ INT_MAX ∧ 1 ≤ INT_MAX ∧ 2 ≤ INT_MAX ∧ 2 ≤ INT_MAX
      ∧ 1 ≤ INT_MAX ∧ 3 ≤ INT_MAX ∧ 3 ≤ INT_MAX ∧ 1 ≤ INT_MAX)
    ∧ (ingestFaceLine true ⟨0, 0, 0, 0, 0, 0⟩ (faceLinePT 1 1 2 2 3 3 ['\n'])).1
        = ⟨⟨((1 : Nat) : Int) - 1, ((1 : Nat) : Int) - 1⟩,
            ⟨((2 : Nat) : Int) - 1, ((2 : Nat) : Int) - 1⟩,
            ⟨((3 : Nat) : Int) - 1, ((3 : Nat) : Int) - 1⟩⟩
    ∧ (ingestFaceLine true ⟨0, 0, 0, 0, 0, 0⟩ (faceLinePTN 1 1 1 2 2 1 3 3 1 ['\n'])).1
        = ⟨⟨((1 : Nat) : Int) - 1, ((1 : Nat) : Int) - 1⟩,
            ⟨((2 : Nat) : Int) - 1, ((2 : Nat) : Int) - 1⟩,
            ⟨((3 : Nat) : Int) - 1, ((3 : Nat) : Int) - 1⟩⟩
    ∧ (ingestFaceLine true ⟨0, 0, 0, 0, 0, 0⟩ (faceLinePTN 1 1 1 2 2 1 3 3 1 ['\n'])).2
        = ⟨((1 : Nat) : Int), ((2 : Nat) : Int), ((3 : Nat) : Int), ((1 : Nat) : Int),
            ((1 : Nat) : Int), ((1 : Nat) : Int)⟩ :=
  have hint : 1 ≤ INT_MAX ∧ 1 ≤ INT_MAX ∧ 1 ≤ INT_MAX ∧ 2 ≤ INT_MAX ∧ 2 ≤ INT_MAX
      ∧ 1 ≤ INT_MAX ∧ 3 ≤ INT_MAX ∧ 3 ≤ INT_MAX ∧ 1 ≤ INT_MAX := by decide
  have h := face_record_ingestion ⟨0, 0, 0, 0, 0, 0⟩ 1 1 1 2 2 1 3 3 1 ['\n'] (by decide)
    (by decide) hint
  ⟨by decide, by decide, hint, h.1, h.2.1, h.2.2.1⟩

end FaceLines

/-! ## Normals -/

theorem Vector3D.ext_iff3 {F : Type} (a b : Vector3D F) :
    a = b ↔ a.x = b.x ∧ a.y = b.y ∧ a.z = b.z := by
  cases a
  cases b
  simp

section Normals

variable {F : Type} [Field F]

theorem cross_eq_zero_iff_collinear (p1 p2 p3 : Vector3D F) :
    VectorCrossProduct (SubtractVector p2 p1) (SubtractVector p3 p1) = Vector3D.zero
      ↔ collinearPoints p1 p2 p3 := by
  simp only [VectorCrossProduct, SubtractVector, Vector3D.zero, Vector3D.mk.injEq]
  constructor
  · rintro ⟨hx, hy, hz⟩
    by_cases h1 : p2.x - p1.x = 0
    · by_cases h2 : p2.y - p1.y = 0
      · by_cases h3 : p2.z - p1.z = 0
        · exact ⟨1, 0, Or.inl one_ne_zero, by simp [h1], by simp [h2], by simp [h3]⟩
        · refine ⟨p3.z - p1.z, -(p2.z - p1.z), Or.inr (neg_ne_zero.mpr h3), ?_, ?_, ?_⟩
          · linear_combination -hy
          · linear_combination hx
          · ring
      · refine ⟨p3.y - p1.y, -(p2.y - p1.y), Or.inr (neg_ne_zero.mpr h2), ?_, ?_, ?_⟩
        · linear_combination hz
        · ring
        · linear_combination -hx
    · refine ⟨p3.x - p1.x, -(p2.x - p1.x), Or.inr (neg_ne_zero.mpr h1), ?_, ?_, ?_⟩
      · ring
      · linear_combination -hz
      · linear_combination hy
  · rintro ⟨a, b, hab, hx, hy, hz⟩
    have kx : a * ((p2.y - p1.y) * (p3.z - p1.z) - (p2.z - p1.z) * (p3.y - p1.y)) = 0 := by
      linear_combination (p3.z - p1.z) * hy - (p3.y - p1.y) * hz
    have ky : a * ((p2.z - p1.z) * (p3.x - p1.x) - (p2.x - p1.x) * (p3.z - p1.z)) = 0 := by
      linear_combination (p3.x - p1.x) * hz - (p3.z - p1.z) * hx
    have kz : a * ((p2.x - p1.x) * (p3.y - p1.y) - (p2.y - p1.y) * (p3.x - p1.x)) = 0 := by
      linear_combination (p3.y - p1.y) * hx - (p3.x - p1.x) * hy
    have lx : b * ((p2.y - p1.y) * (p3.z - p1.z) - (p2.z - p1.z) * (p3.y - p1.y)) = 0 := by
      linear_combination (p2.y - p1.y) * hz - (p2.z - p1.z) * hy
    have ly : b * ((p2.z - p1.z) * (p3.x - p1.x) - (p2.x - p1.x) * (p3.z - p1.z)) = 0 := by
      linear_combination (p2.z - p1.z) * hx - (p2.x - p1.x) * hz
    have lz : b * ((p2.x - p1.x) * (p3.y - p1.y) - (p2.y - p1.y) * (p3.x - p1.x)) = 0 := by
      linear_combination (p2.x - p1.x) * hy - (p2.y - p1.y) * hx
    rcases hab with ha | hb
    · exact ⟨(mul_eq_zero.mp kx).resolve_left ha, (mul_eq_zero.mp ky).resolve_left ha,
        (mul_eq_zero.mp kz).resolve_left ha⟩
    · exact ⟨(mul_eq_zero.mp lx).resolve_left hb, (mul_eq_zero.mp ly).resolve_left hb,
        (mul_eq_zero.mp lz).resolve_left hb⟩

theorem SurfaceNormal_of_cross_eq_zero [DecidableEq F] (sqrtf : F → F) (p1 p2 p3 : Vector3D F)
    (h : VectorCrossProduct (SubtractVector p2 p1) (SubtractVector p3 p1) = Vector3D.zero) :
    SurfaceNormal sqrtf p1 p2 p3 = (false, Vector3D.zero) := by
  unfold SurfaceNormal
  simp only [h, Vector3D.zero, ne_eq, not_true_eq_false, or_self, if_false]

theorem SurfaceNormal_of_cross_ne_zero [DecidableEq F] (sqrtf : F → F) (p1 p2 p3 : Vector3D F)
    (h : VectorCrossProduct (SubtractVector p2 p1) (SubtractVector p3 p1) ≠ Vector3D.zero) :
    SurfaceNormal sqrtf p1 p2 p3
      = (true, NormalizeVector sqrtf
          (VectorCrossProduct (SubtractVector p2 p1) (SubtractVector p3 p1))) := by
  have hc : (VectorCrossProduct (SubtractVector p2 p1) (SubtractVector p3 p1)).x ≠ 0
      ∨ (VectorCrossProduct (SubtractVector p2 p1) (SubtractVector p3 p1)).y ≠ 0
      ∨ (VectorCrossProduct (SubtractVector p2 p1) (SubtractVector p3 p1)).z ≠ 0 := by
    by_contra hn
    push_neg at hn
    exact h ((Vector3D.ext_iff3 _ _).mpr ⟨hn.1, hn.2.1, hn.2.2⟩)
  unfold SurfaceNormal
  simp only [if_pos hc]

theorem Convert_Data_eq [DecidableEq F] (sqrtf : F → F) (src_vertices : List (Vector3D F))
    (src_polys : List SrcPoly) (smooth : Bool) :
    Convert_Data sqrtf src_vertices src_polys smooth
      = (ComputeVertexNormals sqrtf (convertDataObject sqrtf src_vertices src_polys) smooth).2 :=
  rfl

theorem map_comp_readNat_range {α β : Type} (d : α) (l : List α) (g : α → β) :
    (List.range l.length).map (fun i => g (readNat d l i)) = l.map g := by
  have h := congrArg (List.map g) (map_readNat_range d l)
  rw [List.map_map] at h
  exact h

theorem convertDataObject_vertex [DecidableEq F] (sqrtf : F → F)
    (src_vertices : List (Vector3D F)) (src_polys : List SrcPoly) :
    (convertDataObject sqrtf src_vertices src_polys).vertex = src_vertices :=
  map_readNat_range _ _

theorem convertDataObject_polygon [DecidableEq F] (sqrtf : F → F)
    (src_vertices : List (Vector3D F)) (src_polys : List SrcPoly) :
    (convertDataObject sqrtf src_vertices src_polys).polygon = src_polys.map storedTriangle :=
  map_comp_readNat_range _ _ _

theorem polygonNormals_eq_map [DecidableEq F] (sqrtf : F → F) (vertex : List (Vector3D F))
    (polygon : List Polygon3D) :
    polygonNormals sqrtf vertex polygon polygon.length = polygon.map (faceNormal sqrtf vertex) :=
  map_comp_readNat_range (⟨0, 0, 0⟩ : Polygon3D) polygon (faceNormal sqrtf vertex)

theorem convertDataObject_polygon_normal [DecidableEq F] (sqrtf : F → F)
    (src_vertices : List (Vector3D F)) (src_polys : List SrcPoly) :
    (convertDataObject sqrtf src_vertices src_polys).polygon_normal
      = (src_polys.map storedTriangle).map (faceNormal sqrtf src_vertices) := by
  have hv := convertDataObject_vertex sqrtf src_vertices src_polys
  have hp := convertDataObject_polygon sqrtf src_vertices src_polys
  have h : (convertDataObject sqrtf src_vertices src_polys).polygon_normal
      = polygonNormals sqrtf (convertDataObject sqrtf src_vertices src_polys).vertex
          (convertDataObject sqrtf src_vertices src_polys).polygon src_polys.length := rfl
  rw [h, hv, hp]
  have hl : src_polys.length = (src_polys.map storedTriangle).length := by simp
  rw [hl]
  exact polygonNormals_eq_map sqrtf src_vertices _

theorem foldl_accumulate (P : Nat → Bool) (n : Nat → Vector3D F) (l : List Nat)
    (init : Vector3D F × Nat) :
    l.foldl
        (fun acc j =>
          if P j then
            ((⟨acc.1.x + (n j).x, acc.1.y + (n j).y, acc.1.z + (n j).z⟩ : Vector3D F), acc.2 + 1)
          else acc)
        init
      = (⟨init.1.x + (sumVectors ((l.filter P).map n)).x,
          init.1.y + (sumVectors ((l.filter P).map n)).y,
          init.1.z + (sumVectors ((l.filter P).map n)).z⟩, init.2 + (l.filter P).length) := by
  induction l generalizing init with
  | nil => simp [sumVectors]
  | cons j rest ih =>
    rw [List.foldl_cons, ih]
    by_cases hP : P j = true
    · simp only [hP, if_true, List.filter_cons_of_pos, List.map_cons, sumVectors,
        List.sum_cons, List.length_cons, Prod.mk.injEq, Vector3D.mk.injEq]
      refine ⟨⟨?_, ?_, ?_⟩, ?_⟩ <;> ring
    · have hf : List.filter P (j :: rest) = List.filter P rest := by
        simp [List.filter_cons, hP]
      rw [hf]
      simp only [hP]
      simp

theorem accumulateNormals_eq [DecidableEq F] (object : Object3D F) (smooth : Bool) (i : Nat) :
    accumulateNormals object smooth i
      = (sumVectors
          (((List.range object.num_polygons).filter fun j =>
              adjacentPolygon object smooth i (readNat ⟨0, 0, 0⟩ object.polygon j)).map
            fun j => readNat Vector3D.zero object.polygon_normal j),
         ((List.range object.num_polygons).filter fun j =>
              adjacentPolygon object smooth i (readNat ⟨0, 0, 0⟩ object.polygon j)).length) := by
  unfold accumulateNormals
  have h := foldl_accumulate
    (fun j => adjacentPolygon object smooth i (readNat ⟨0, 0, 0⟩ object.polygon j))
    (fun j => readNat Vector3D.zero object.polygon_normal j)
    (List.range object.num_polygons) (Vector3D.zero, 0)
  simp only [Vector3D.zero, zero_add] at h ⊢
  exact h

theorem adjacentPolygon_strict [DecidableEq F] (object : Object3D F) (i : Nat) (q : Polygon3D) :
    adjacentPolygon object false i q = decide (q.index0 = i ∨ q.index1 = i ∨ q.index2 = i) := by
  simp [adjacentPolygon, Bool.decide_or]

theorem vertex_normal_getElem? [DecidableEq F] (sqrtf : F → F) (object : Object3D F)
    (smooth : Bool) (i : Nat) (hi : i < object.num_vertices) :
    (ComputeVertexNormals sqrtf object smooth).2.vertex_normal[i]?
      = some (vertexNormal sqrtf object smooth i) := by
  simp [ComputeVertexNormals, List.getElem?_map, List.getElem?_range hi]

/-- C18. `ComputeVertexNormals` with `smooth_discontinuous_vertices = false`:
the triangles accumulated for vertex `i` are exactly the triangles
`j < num_polygons` with at least one corner index equal to `i`, each once;
the accumulated vector is the sum of their `polygon_normal[j]` and
`poly_count` their number; the vector that is normalised is that sum divided
by that number (the sum itself, zero, when there is no such triangle). -/
theorem strict_vertex_normal [DecidableEq F] (sqrtf : F → F) (object : Object3D F) (i : Nat) :
    (strictContributors object i).Nodup
    ∧ (∀ j : Nat, j ∈ strictContributors object i ↔
        j < object.num_polygons
        ∧ ((readNat (⟨0, 0, 0⟩ : Polygon3D) object.polygon j).index0 = i
          ∨ (readNat (⟨0, 0, 0⟩ : Polygon3D) object.polygon j).index1 = i
          ∨ (readNat (⟨0, 0, 0⟩ : Polygon3D) object.polygon j).index2 = i))
    ∧ accumulateNormals object false i
        = (sumVectors ((strictContributors object i).map
              fun j => readNat Vector3D.zero object.polygon_normal j),
            (strictContributors object i).length)
    ∧ ((strictContributors object i).length ≠ 0 →
        vertexNormal sqrtf object false i
          = NormalizeVector sqrtf
              ⟨(sumVectors ((strictContributors object i).map
                    fun j => readNat Vector3D.zero object.polygon_normal j)).x
                  / ((strictContributors object i).length : F),
                (sumVectors ((strictContributors object i).map
                    fun j => readNat Vector3D.zero object.polygon_normal j)).y
                  / ((strictContributors object i).length : F),
                (sumVectors ((strictContributors object i).map
                    fun j => readNat Vector3D.zero object.polygon_normal j)).z
                  / ((strictContributors object i).length : F)⟩)
    ∧ ((strictContributors object i).length = 0 →
        vertexNormal sqrtf object false i = NormalizeVector sqrtf ⟨0, 0, 0⟩)
    ∧ (i < object.num_vertices →
        (ComputeVertexNormals sqrtf object false).2.vertex_normal[i]?
          = some (vertexNormal sqrtf object false i)) := by
  have hacc : accumulateNormals object false i
      = (sumVectors ((strictContributors object i).map
            fun j => readNat Vector3D.zero object.polygon_normal j),
          (strictContributors object i).length) := by
    rw [accumulateNormals_eq]
    simp only [adjacentPolygon_strict, strictContributors]
  refine ⟨(List.nodup_range _).filter _, ?_, hacc, ?_, ?_,
    vertex_normal_getElem? sqrtf object false i⟩
  · intro j
    simp [strictContributors, List.mem_filter]
  · intro hne
    unfold vertexNormal
    simp only [hacc, ne_eq, hne, not_false_eq_true, if_true, mul_one_div]
  · intro h0
    have hnil : strictContributors object i = [] := List.length_eq_zero.mp h0
    unfold vertexNormal
    simp only [hacc, hnil, List.length_nil, ne_eq, not_true_eq_false, if_false, List.map_nil,
      sumVectors, List.sum_nil]

theorem ComputeVertexNormalsStored_exact [DecidableEq F] (sqrtf : F → F) (object : Object3D F)
    (smooth : Bool) :
    ComputeVertexNormalsStored sqrtf object object.vertex Vector3D.zero smooth
      = ComputeVertexNormals sqrtf object smooth := rfl

theorem vertex_normal_stored_getElem? {R : Type} [DecidableEq R] [DecidableEq F] (sqrtf : F → F)
    (object : Object3D F) (stored : List R) (dflt : R) (smooth : Bool) (i : Nat)
    (hi : i < object.num_vertices) :
    (ComputeVertexNormalsStored sqrtf object stored dflt smooth).2.vertex_normal[i]?
      = some (vertexNormalStored sqrtf object stored dflt smooth i) := by
  simp [ComputeVertexNormalsStored, List.getElem?_map, List.getElem?_range hi]

/-- C19 fails for two vertices at the position `(0,0,0)` of which one is
stored with `x = -0.0`: the positions are equal, the stored bytes are not, and
with `smooth_discontinuous_vertices = true` vertex 0 of `seamObject` gets the
normal `(0,0,1)` and vertex 2 the normal `(0,0,-1)`. -/
theorem smooth_equal_positions_counterexample :
    (seamStored true).map storedValue = seamObject.vertex
    ∧ seamObject.vertex[0]? = seamObject.vertex[2]?
    ∧ (seamStored true)[0]? ≠ (seamStored true)[2]?
    ∧ (ComputeVertexNormalsStored Rat.sqrt seamObject (seamStored true)
        ⟨⟨0, false⟩, ⟨0, false⟩, ⟨0, false⟩⟩ true).2.vertex_normal[0]? = some ⟨0, 0, 1⟩
    ∧ (ComputeVertexNormalsStored Rat.sqrt seamObject (seamStored true)
        ⟨⟨0, false⟩, ⟨0, false⟩, ⟨0, false⟩⟩ true).2.vertex_normal[2]? = some ⟨0, 0, -1⟩ := by
  have hsqrt : Rat.sqrt 1 = 1 := by
    simp [Rat.sqrt, Int.sqrt]
  have hacc0 : accumulateNormalsStored seamObject (seamStored true)
      ⟨⟨0, false⟩, ⟨0, false⟩, ⟨0, false⟩⟩ true 0 = (⟨0, 0, 1⟩, 1) := by
    simp [accumulateNormalsStored, adjacentPolygonStored, seamObject, seamStored, readNat,
      List.range_succ, Vector3D.zero]
  have hacc2 : accumulateNormalsStored seamObject (seamStored true)
      ⟨⟨0, false⟩, ⟨0, false⟩, ⟨0, false⟩⟩ true 2 = (⟨0, 0, -1⟩, 1) := by
    simp [accumulateNormalsStored, adjacentPolygonStored, seamObject, seamStored, readNat,
      List.range_succ, Vector3D.zero]
  refine ⟨by decide, by decide, by decide, ?_, ?_⟩
  · rw [vertex_normal_stored_getElem? _ _ _ _ _ _ (by decide)]
    simp [vertexNormalStored, hacc0, NormalizeVector, VectorMagnitude, MultiplyScalarVector,
      hsqrt]
  · rw [vertex_normal_stored_getElem? _ _ _ _ _ _ (by decide)]
    simp [vertexNormalStored, hacc2, NormalizeVector, VectorMagnitude, MultiplyScalarVector,
      hsqrt]

/-- C19. `ComputeVertexNormals` with `smooth_discontinuous_vertices = true`:
two vertices `i` and `i'` of a mesh whose positions are stored identically
(the entries `vertex[i]` and `vertex[i']` have the same bytes) receive the same
vertex normal. -/
theorem smooth_equal_positions {R : Type} [DecidableEq R] [DecidableEq F] (sqrtf : F → F)
    (object : Object3D F) (stored : List R) (dflt : R)
    (i i' : Nat) (hi : i < object.num_vertices) (hi' : i' < object.num_vertices)
    (hbytes : stored[i]? = stored[i']?) :
    ∃ n : Vector3D F,
      (ComputeVertexNormalsStored sqrtf object stored dflt true).2.vertex_normal[i]? = some n
      ∧ (ComputeVertexNormalsStored sqrtf object stored dflt true).2.vertex_normal[i']?
          = some n := by
  have hread : readNat dflt stored i = readNat dflt stored i' := by
    simp only [readNat, List.getD_eq_getElem?_getD, hbytes]
  have hadj : ∀ q : Polygon3D,
      adjacentPolygonStored stored dflt true i q = adjacentPolygonStored stored dflt true i' q := by
    intro q
    simp only [adjacentPolygonStored, if_true, hread]
  have hacc : accumulateNormalsStored object stored dflt true i
      = accumulateNormalsStored object stored dflt true i' := by
    simp only [accumulateNormalsStored, hadj]
  have hn : vertexNormalStored sqrtf object stored dflt true i
      = vertexNormalStored sqrtf object stored dflt true i' := by
    simp only [vertexNormalStored, hacc]
  exact ⟨vertexNormalStored sqrtf object stored dflt true i,
    vertex_normal_stored_getElem? sqrtf object stored dflt true i hi,
    by rw [hn]; exact vertex_normal_stored_getElem? sqrtf object stored dflt true i' hi'⟩

/-- Witness of C19 on a mesh whose vertices 0 and 2 are both stored as
`(0.0, 0.0, 0.0)`. -/
theorem smooth_equal_positions_witness :
    0 < seamObject.num_vertices ∧ 2 < seamObject.num_vertices
    ∧ (seamStored false)[0]? = (seamStored false)[2]?
    ∧ ∃ n : Vector3D ℚ,
      (ComputeVertexNormalsStored Rat.sqrt seamObject (seamStored false)
        ⟨⟨0, false⟩, ⟨0, false⟩, ⟨0, false⟩⟩ true).2.vertex_normal[0]? = some n
      ∧ (ComputeVertexNormalsStored Rat.sqrt seamObject (seamStored false)
        ⟨⟨0, false⟩, ⟨0, false⟩, ⟨0, false⟩⟩ true).2.vertex_normal[2]? = some n :=
  ⟨by decide, by decide, by decide,
    smooth_equal_positions Rat.sqrt seamObject (seamStored false)
      ⟨⟨0, false⟩, ⟨0, false⟩, ⟨0, false⟩⟩ 0 2 (by decide) (by decide) (by decide)⟩

end Normals

/-! ## Normals in real arithmetic -/

section RealNormals

theorem sumsq_nonneg (v : Vector3D ℝ) : 0 ≤ v.x * v.x + v.y * v.y + v.z * v.z := by
  nlinarith [mul_self_nonneg v.x, mul_self_nonneg v.y, mul_self_nonneg v.z]

theorem sumsq_eq_zero_iff (v : Vector3D ℝ) :
    v.x * v.x + v.y * v.y + v.z * v.z = 0 ↔ v = Vector3D.zero := by
  rw [Vector3D.ext_iff3]
  simp only [Vector3D.zero]
  constructor
  · intro h
    have hx : v.x * v.x = 0 := by
      nlinarith [mul_self_nonneg v.x, mul_self_nonneg v.y, mul_self_nonneg v.z]
    have hy : v.y * v.y = 0 := by
      nlinarith [mul_self_nonneg v.x, mul_self_nonneg v.y, mul_self_nonneg v.z]
    have hz : v.z * v.z = 0 := by
      nlinarith [mul_self_nonneg v.x, mul_self_nonneg v.y, mul_self_nonneg v.z]
    exact ⟨mul_self_eq_zero.mp hx, mul_self_eq_zero.mp hy, mul_self_eq_zero.mp hz⟩
  · rintro ⟨hx, hy, hz⟩
    simp [hx, hy, hz]

theorem VectorMagnitude_eq_zero_iff (v : Vector3D ℝ) :
    VectorMagnitude Real.sqrt v = 0 ↔ v = Vector3D.zero := by
  unfold VectorMagnitude
  rw [Real.sqrt_eq_zero (sumsq_nonneg v)]
  exact sumsq_eq_zero_iff v

theorem NormalizeVector_zero : NormalizeVector Real.sqrt (Vector3D.zero : Vector3D ℝ)
    = Vector3D.zero := by
  have h := (VectorMagnitude_eq_zero_iff Vector3D.zero).mpr rfl
  unfold NormalizeVector
  simp only [h, if_true]

theorem NormalizeVector_of_ne_zero (v : Vector3D ℝ) (hv : v ≠ Vector3D.zero) :
    NormalizeVector Real.sqrt v
      = ⟨v.x / Real.sqrt (v.x * v.x + v.y * v.y + v.z * v.z),
         v.y / Real.sqrt (v.x * v.x + v.y * v.y + v.z * v.z),
         v.z / Real.sqrt (v.x * v.x + v.y * v.y + v.z * v.z)⟩ := by
  have h : VectorMagnitude Real.sqrt v ≠ 0 := fun e => hv ((VectorMagnitude_eq_zero_iff v).mp e)
  unfold NormalizeVector
  simp only [if_neg h, MultiplyScalarVector, mul_one_div]
  rfl

theorem VectorMagnitude_NormalizeVector (v : Vector3D ℝ) (hv : v ≠ Vector3D.zero) :
    VectorMagnitude Real.sqrt (NormalizeVector Real.sqrt v) = 1 := by
  have hS : 0 < v.x * v.x + v.y * v.y + v.z * v.z :=
    lt_of_le_of_ne (sumsq_nonneg v) fun e => hv ((sumsq_eq_zero_iff v).mp e.symm)
  have hL : 0 < Real.sqrt (v.x * v.x + v.y * v.y + v.z * v.z) := Real.sqrt_pos.mpr hS
  have hLL : Real.sqrt (v.x * v.x + v.y * v.y + v.z * v.z)
      * Real.sqrt (v.x * v.x + v.y * v.y + v.z * v.z)
      = v.x * v.x + v.y * v.y + v.z * v.z := Real.mul_self_sqrt (le_of_lt hS)
  rw [NormalizeVector_of_ne_zero v hv]
  unfold VectorMagnitude
  have e : v.x / Real.sqrt (v.x * v.x + v.y * v.y + v.z * v.z)
        * (v.x / Real.sqrt (v.x * v.x + v.y * v.y + v.z * v.z))
      + v.y / Real.sqrt (v.x * v.x + v.y * v.y + v.z * v.z)
        * (v.y / Real.sqrt (v.x * v.x + v.y * v.y + v.z * v.z))
      + v.z / Real.sqrt (v.x * v.x + v.y * v.y + v.z * v.z)
        * (v.z / Real.sqrt (v.x * v.x + v.y * v.y + v.z * v.z)) = 1 := by
    field_simp
  rw [e, Real.sqrt_one]

theorem NormalizeVector_scale (v : Vector3D ℝ) (f : ℝ) (hf : 0 < f) :
    NormalizeVector Real.sqrt ⟨v.x * f, v.y * f, v.z * f⟩ = NormalizeVector Real.sqrt v := by
  by_cases hv : v = Vector3D.zero
  · subst hv
    simp only [Vector3D.zero, zero_mul]
  · have hne : (⟨v.x * f, v.y * f, v.z * f⟩ : Vector3D ℝ) ≠ Vector3D.zero := by
      intro e
      rw [Vector3D.ext_iff3] at e
      simp only [Vector3D.zero] at e
      apply hv
      rw [Vector3D.ext_iff3]
      simp only [Vector3D.zero]
      have hf' : f ≠ 0 := ne_of_gt hf
      exact ⟨(mul_eq_zero.mp e.1).resolve_right hf', (mul_eq_zero.mp e.2.1).resolve_right hf',
        (mul_eq_zero.mp e.2.2).resolve_right hf'⟩
    have hS : 0 < v.x * v.x + v.y * v.y + v.z * v.z :=
      lt_of_le_of_ne (sumsq_nonneg v) fun e => hv ((sumsq_eq_zero_iff v).mp e.symm)
    have hL : 0 < Real.sqrt (v.x * v.x + v.y * v.y + v.z * v.z) := Real.sqrt_pos.mpr hS
    have hsq : Real.sqrt (v.x * f * (v.x * f) + v.y * f * (v.y * f) + v.z * f * (v.z * f))
        = f * Real.sqrt (v.x * v.x + v.y * v.y + v.z * v.z) := by
      have e : v.x * f * (v.x * f) + v.y * f * (v.y * f) + v.z * f * (v.z * f)
          = f ^ 2 * (v.x * v.x + v.y * v.y + v.z * v.z) := by ring
      rw [e, Real.sqrt_mul (sq_nonneg f), Real.sqrt_sq (le_of_lt hf)]
    rw [NormalizeVector_of_ne_zero _ hne, NormalizeVector_of_ne_zero v hv]
    simp only [hsq]
    have hf' : f ≠ 0 := ne_of_gt hf
    have hL' : Real.sqrt (v.x * v.x + v.y * v.y + v.z * v.z) ≠ 0 := ne_of_gt hL
    rw [Vector3D.ext_iff3]
    refine ⟨?_, ?_, ?_⟩ <;> field_simp <;> ring

/-- C15. `SurfaceNormal` in real arithmetic: for three non-collinear points
`P0, P1, P2` the normal written is the cross product `(P1-P0) x (P2-P0)`
divided by its length, and its magnitude is 1. -/
theorem surface_normal_unit (p0 p1 p2 : Vector3D ℝ) (h : ¬ collinearPoints p0 p1 p2) :
    (SurfaceNormal Real.sqrt p0 p1 p2).2
      = ⟨(VectorCrossProduct (SubtractVector p1 p0) (SubtractVector p2 p0)).x
            / Real.sqrt
              ((VectorCrossProduct (SubtractVector p1 p0) (SubtractVector p2 p0)).x ^ 2
              + (VectorCrossProduct (SubtractVector p1 p0) (SubtractVector p2 p0)).y ^ 2
              + (VectorCrossProduct (SubtractVector p1 p0) (SubtractVector p2 p0)).z ^ 2),
          (VectorCrossProduct (SubtractVector p1 p0) (SubtractVector p2 p0)).y
            / Real.sqrt
              ((VectorCrossProduct (SubtractVector p1 p0) (SubtractVector p2 p0)).x ^ 2
              + (VectorCrossProduct (SubtractVector p1 p0) (SubtractVector p2 p0)).y ^ 2
              + (VectorCrossProduct (SubtractVector p1 p0) (SubtractVector p2 p0)).z ^ 2),
          (VectorCrossProduct (SubtractVector p1 p0) (SubtractVector p2 p0)).z
            / Real.sqrt
              ((VectorCrossProduct (SubtractVector p1 p0) (SubtractVector p2 p0)).x ^ 2
              + (VectorCrossProduct (SubtractVector p1 p0) (SubtractVector p2 p0)).y ^ 2
              + (VectorCrossProduct (SubtractVector p1 p0) (SubtractVector p2 p0)).z ^ 2)⟩
    ∧ Real.sqrt ((SurfaceNormal Real.sqrt p0 p1 p2).2.x ^ 2
        + (SurfaceNormal Real.sqrt p0 p1 p2).2.y ^ 2
        + (SurfaceNormal Real.sqrt p0 p1 p2).2.z ^ 2) = 1 := by
  have hc : VectorCrossProduct (SubtractVector p1 p0) (SubtractVector p2 p0) ≠ Vector3D.zero :=
    fun e => h ((cross_eq_zero_iff_collinear p0 p1 p2).mp e)
  rw [SurfaceNormal_of_cross_ne_zero Real.sqrt p0 p1 p2 hc]
  constructor
  · rw [NormalizeVector_of_ne_zero _ hc]
    simp only [sq]
  · have hm := VectorMagnitude_NormalizeVector _ hc
    unfold VectorMagnitude at hm
    simpa only [sq] using hm

/-- Witness of C15 on the points `(0,0,0)`, `(1,0,0)`, `(0,1,0)`. -/
theorem surface_normal_unit_witness :
    (¬ collinearPoints (⟨0, 0, 0⟩ : Vector3D ℝ) ⟨1, 0, 0⟩ ⟨0, 1, 0⟩)
    ∧ Real.sqrt ((SurfaceNormal Real.sqrt (⟨0, 0, 0⟩ : Vector3D ℝ) ⟨1, 0, 0⟩ ⟨0, 1, 0⟩).2.x ^ 2
        + (SurfaceNormal Real.sqrt (⟨0, 0, 0⟩ : Vector3D ℝ) ⟨1, 0, 0⟩ ⟨0, 1, 0⟩).2.y ^ 2
        + (SurfaceNormal Real.sqrt (⟨0, 0, 0⟩ : Vector3D ℝ) ⟨1, 0, 0⟩ ⟨0, 1, 0⟩).2.z ^ 2) = 1 :=
  have hn : ¬ collinearPoints (⟨0, 0, 0⟩ : Vector3D ℝ) ⟨1, 0, 0⟩ ⟨0, 1, 0⟩ := by
    rintro ⟨a, b, hab, hx, hy, -⟩
    simp only [sub_zero, mul_one, mul_zero, add_zero, zero_add] at hx hy
    rcases hab with ha | hb
    · exact ha hx
    · exact hb hy
  ⟨hn, (surface_normal_unit ⟨0, 0, 0⟩ ⟨1, 0, 0⟩ ⟨0, 1, 0⟩ hn).2⟩

/-- C16. `SurfaceNormal` in real arithmetic: the flag returned is true if and
only if the three points are not collinear; for collinear points it returns
false and writes the zero vector without calling `NormalizeVector`; for
non-collinear points the magnitude by which `NormalizeVector` divides is not
zero. -/
theorem surface_normal_flag (p0 p1 p2 : Vector3D ℝ) :
    ((SurfaceNormal Real.sqrt p0 p1 p2).1 = true ↔ ¬ collinearPoints p0 p1 p2)
    ∧ (collinearPoints p0 p1 p2 → SurfaceNormal Real.sqrt p0 p1 p2 = (false, ⟨0, 0, 0⟩))
    ∧ (¬ collinearPoints p0 p1 p2 →
        VectorMagnitude Real.sqrt
          (VectorCrossProduct (SubtractVector p1 p0) (SubtractVector p2 p0)) ≠ 0) := by
  refine ⟨?_, ?_, ?_⟩
  · by_cases hc : VectorCrossProduct (SubtractVector p1 p0) (SubtractVector p2 p0)
        = Vector3D.zero
    · have hcol := (cross_eq_zero_iff_collinear p0 p1 p2).mp hc
      rw [SurfaceNormal_of_cross_eq_zero Real.sqrt p0 p1 p2 hc]
      simp [hcol]
    · have hcol : ¬ collinearPoints p0 p1 p2 :=
        fun e => hc ((cross_eq_zero_iff_collinear p0 p1 p2).mpr e)
      rw [SurfaceNormal_of_cross_ne_zero Real.sqrt p0 p1 p2 hc]
      simp [hcol]
  · intro hcol
    exact SurfaceNormal_of_cross_eq_zero Real.sqrt p0 p1 p2
      ((cross_eq_zero_iff_collinear p0 p1 p2).mpr hcol)
  · intro hcol e
    exact hcol ((cross_eq_zero_iff_collinear p0 p1 p2).mp
      ((VectorMagnitude_eq_zero_iff _).mp e))

theorem vertexNormal_real (object : Object3D ℝ) (smooth : Bool) (i : Nat) :
    vertexNormal Real.sqrt object smooth i
      = NormalizeVector Real.sqrt (accumulateNormals object smooth i).1 := by
  unfold vertexNormal
  by_cases h : (accumulateNormals object smooth i).2 = 0
  · simp only [h, ne_eq, not_true_eq_false, if_false]
  · have hpos : (0 : ℝ) < 1 / ((accumulateNormals object smooth i).2 : ℝ) := by
      have : (0 : ℝ) < ((accumulateNormals object smooth i).2 : ℝ) :=
        Nat.cast_pos.mpr (Nat.pos_of_ne_zero h)
      positivity
    simp only [ne_eq, h, not_false_eq_true, if_true]
    exact NormalizeVector_scale _ _ hpos

/-- C20 fails when the contributing face normals cancel: in the mesh of one
triangle listed with both windings every vertex has two contributing faces,
with normals `(0,0,1)` and `(0,0,-1)`, and the resulting vertex normal is the
zero vector, of magnitude 0. -/
theorem vertex_normal_unit_counterexample :
    (accumulateNormals (Convert_Data Real.sqrt (flipVertices ℝ) flipPolys false) false 0).2 = 2
    ∧ (Convert_Data Real.sqrt (flipVertices ℝ) flipPolys false).polygon_normal
        = [⟨0, 0, 1⟩, ⟨0, 0, -1⟩]
    ∧ (Convert_Data Real.sqrt (flipVertices ℝ) flipPolys false).vertex_normal[0]?
        = some ⟨0, 0, 0⟩
    ∧ VectorMagnitude Real.sqrt (⟨0, 0, 0⟩ : Vector3D ℝ) ≠ 1 := by
  have hp : (Convert_Data Real.sqrt (flipVertices ℝ) flipPolys false).polygon
      = [⟨0, 1, 2⟩, ⟨0, 2, 1⟩] := by
    rw [Convert_Data_polygon]
    decide
  have hn : (Convert_Data Real.sqrt (flipVertices ℝ) flipPolys false).polygon_normal
      = [⟨0, 0, 1⟩, ⟨0, 0, -1⟩] := by
    have h : (Convert_Data Real.sqrt (flipVertices ℝ) flipPolys false).polygon_normal
        = (flipPolys.map storedTriangle).map (faceNormal Real.sqrt (flipVertices ℝ)) :=
      convertDataObject_polygon_normal Real.sqrt (flipVertices ℝ) flipPolys
    rw [h]
    have hs : flipPolys.map storedTriangle = [⟨0, 1, 2⟩, ⟨0, 2, 1⟩] := by decide
    rw [hs]
    simp [faceNormal, cornerPositions, flipVertices, readNat, SurfaceNormal, SubtractVector,
      VectorCrossProduct, NormalizeVector, VectorMagnitude, MultiplyScalarVector]
  have hnp : (Convert_Data Real.sqrt (flipVertices ℝ) flipPolys false).num_polygons = 2 := rfl
  have hacc : accumulateNormals (Convert_Data Real.sqrt (flipVertices ℝ) flipPolys false) false 0
      = (⟨0, 0, 0⟩, 2) := by
    rw [accumulateNormals_eq]
    simp only [hp, hn, hnp, adjacentPolygon_strict]
    simp [List.range_succ, List.filter_cons, readNat, sumVectors]
  refine ⟨by rw [hacc], hn, ?_, ?_⟩
  · have hv : (Convert_Data Real.sqrt (flipVertices ℝ) flipPolys false).vertex_normal[0]?
        = some (vertexNormal Real.sqrt (convertDataObject Real.sqrt (flipVertices ℝ) flipPolys)
            false 0) := by
      rw [Convert_Data_eq]
      exact vertex_normal_getElem? Real.sqrt _ false 0 (by decide)
    have hobj : accumulateNormals (convertDataObject Real.sqrt (flipVertices ℝ) flipPolys) false 0
        = accumulateNormals (Convert_Data Real.sqrt (flipVertices ℝ) flipPolys false) false 0 :=
      rfl
    rw [hv, vertexNormal_real, hobj, hacc]
    exact congrArg some NormalizeVector_zero
  · have h0 := (VectorMagnitude_eq_zero_iff (⟨0, 0, 0⟩ : Vector3D ℝ)).mpr rfl
    rw [h0]
    norm_num

/-- C20. `ComputeVertexNormals` in real arithmetic: for every mesh and every
vertex for which the sum of the normals of the contributing faces is not the
zero vector, the resulting vertex normal has magnitude 1. -/
theorem vertex_normal_unit (object : Object3D ℝ) (smooth : Bool) (i : Nat)
    (hi : i < object.num_vertices)
    (hsum : (accumulateNormals object smooth i).1 ≠ Vector3D.zero) :
    ∃ n : Vector3D ℝ,
      (ComputeVertexNormals Real.sqrt object smooth).2.vertex_normal[i]? = some n
      ∧ Real.sqrt (n.x ^ 2 + n.y ^ 2 + n.z ^ 2) = 1 := by
  refine ⟨vertexNormal Real.sqrt object smooth i,
    vertex_normal_getElem? Real.sqrt object smooth i hi, ?_⟩
  rw [vertexNormal_real]
  have hm := VectorMagnitude_NormalizeVector _ hsum
  unfold VectorMagnitude at hm
  simpa only [sq] using hm

/-- Witness of C20 on vertex 0 of a mesh of one triangle. -/
theorem vertex_normal_unit_witness :
    0 < (oneTriangle ℝ).num_vertices
    ∧ (accumulateNormals (oneTriangle ℝ) false 0).1 ≠ Vector3D.zero
    ∧ ∃ n : Vector3D ℝ,
      (ComputeVertexNormals Real.sqrt (oneTriangle ℝ) false).2.vertex_normal[0]? = some n
      ∧ Real.sqrt (n.x ^ 2 + n.y ^ 2 + n.z ^ 2) = 1 :=
  have h1 : 0 < (oneTriangle ℝ).num_vertices := by decide
  have h2 : (accumulateNormals (oneTriangle ℝ) false 0).1 ≠ Vector3D.zero := by
    simp [accumulateNormals, oneTriangle, adjacentPolygon, readNat, Vector3D.zero,
      List.range_succ]
  ⟨h1, h2, vertex_normal_unit (oneTriangle ℝ) false 0 h1 h2⟩

end RealNormals

/-! ## Vertex normals: no contributor, order of the faces; cross product -/

section NormalsAlgebra

variable {F : Type} [Field F]

/-- C29. Reversing the winding flips the normal: `VectorCrossProduct (v2, v1)`
is the negation of `VectorCrossProduct (v1, v2)`, and `SurfaceNormal (p1, p3,
p2)` writes the negation of the normal written by `SurfaceNormal (p1, p2, p3)`
and returns the same flag. -/
theorem winding_reversal [DecidableEq F] (sqrtf : F → F) (v1 v2 p1 p2 p3 : Vector3D F) :
    VectorCrossProduct v2 v1
        = ⟨-(VectorCrossProduct v1 v2).x, -(VectorCrossProduct v1 v2).y,
            -(VectorCrossProduct v1 v2).z⟩
    ∧ (SurfaceNormal sqrtf p1 p3 p2).2
        = ⟨-(SurfaceNormal sqrtf p1 p2 p3).2.x, -(SurfaceNormal sqrtf p1 p2 p3).2.y,
            -(SurfaceNormal sqrtf p1 p2 p3).2.z⟩
    ∧ (SurfaceNormal sqrtf p1 p3 p2).1 = (SurfaceNormal sqrtf p1 p2 p3).1 := by
  have hcross : ∀ a b : Vector3D F, VectorCrossProduct b a
      = ⟨-(VectorCrossProduct a b).x, -(VectorCrossProduct a b).y,
          -(VectorCrossProduct a b).z⟩ := by
    intro a b
    simp only [VectorCrossProduct, Vector3D.mk.injEq]
    refine ⟨?_, ?_, ?_⟩ <;> ring
  have hnorm : ∀ c : Vector3D F, NormalizeVector sqrtf ⟨-c.x, -c.y, -c.z⟩
      = ⟨-(NormalizeVector sqrtf c).x, -(NormalizeVector sqrtf c).y,
          -(NormalizeVector sqrtf c).z⟩ := by
    intro c
    have hm : VectorMagnitude sqrtf ⟨-c.x, -c.y, -c.z⟩ = VectorMagnitude sqrtf c := by
      simp only [VectorMagnitude, neg_mul_neg]
    unfold NormalizeVector
    simp only [hm]
    by_cases h0 : VectorMagnitude sqrtf c = 0
    · simp only [h0, if_true]
    · simp only [h0, if_false, MultiplyScalarVector, neg_mul]
  refine ⟨hcross v1 v2, ?_, ?_⟩
  · by_cases hz : VectorCrossProduct (SubtractVector p2 p1) (SubtractVector p3 p1)
        = Vector3D.zero
    · have hz' : VectorCrossProduct (SubtractVector p3 p1) (SubtractVector p2 p1)
          = Vector3D.zero := by
        rw [hcross, hz]
        simp [Vector3D.zero]
      rw [SurfaceNormal_of_cross_eq_zero sqrtf p1 p2 p3 hz,
        SurfaceNormal_of_cross_eq_zero sqrtf p1 p3 p2 hz']
      simp [Vector3D.zero]
    · have hz' : VectorCrossProduct (SubtractVector p3 p1) (SubtractVector p2 p1)
          ≠ Vector3D.zero := by
        intro e
        apply hz
        rw [hcross, e]
        simp [Vector3D.zero]
      rw [SurfaceNormal_of_cross_ne_zero sqrtf p1 p2 p3 hz,
        SurfaceNormal_of_cross_ne_zero sqrtf p1 p3 p2 hz', hcross]
      exact hnorm _
  · by_cases hz : VectorCrossProduct (SubtractVector p2 p1) (SubtractVector p3 p1)
        = Vector3D.zero
    · have hz' : VectorCrossProduct (SubtractVector p3 p1) (SubtractVector p2 p1)
          = Vector3D.zero := by
        rw [hcross, hz]
        simp [Vector3D.zero]
      rw [SurfaceNormal_of_cross_eq_zero sqrtf p1 p2 p3 hz,
        SurfaceNormal_of_cross_eq_zero sqrtf p1 p3 p2 hz']
    · have hz' : VectorCrossProduct (SubtractVector p3 p1) (SubtractVector p2 p1)
          ≠ Vector3D.zero := by
        intro e
        apply hz
        rw [hcross, e]
        simp [Vector3D.zero]
      rw [SurfaceNormal_of_cross_ne_zero sqrtf p1 p2 p3 hz,
        SurfaceNormal_of_cross_ne_zero sqrtf p1 p3 p2 hz']

/-- C30. The result of `VectorCrossProduct (v1, v2)` is perpendicular to `v1`
and to `v2` (both dot products are 0), and the face normal written by
`SurfaceNormal (P0, P1, P2)` is perpendicular to the edges `P1 - P0` and
`P2 - P0`. -/
theorem cross_product_perpendicular [DecidableEq F] (sqrtf : F → F)
    (v1 v2 p0 p1 p2 : Vector3D F) :
    (VectorCrossProduct v1 v2).x * v1.x + (VectorCrossProduct v1 v2).y * v1.y
        + (VectorCrossProduct v1 v2).z * v1.z = 0
    ∧ (VectorCrossProduct v1 v2).x * v2.x + (VectorCrossProduct v1 v2).y * v2.y
        + (VectorCrossProduct v1 v2).z * v2.z = 0
    ∧ (SurfaceNormal sqrtf p0 p1 p2).2.x * (p1.x - p0.x)
        + (SurfaceNormal sqrtf p0 p1 p2).2.y * (p1.y - p0.y)
        + (SurfaceNormal sqrtf p0 p1 p2).2.z * (p1.z - p0.z) = 0
    ∧ (SurfaceNormal sqrtf p0 p1 p2).2.x * (p2.x - p0.x)
        + (SurfaceNormal sqrtf p0 p1 p2).2.y * (p2.y - p0.y)
        + (SurfaceNormal sqrtf p0 p1 p2).2.z * (p2.z - p0.z) = 0 := by
  have hnorm : ∀ c : Vector3D F, ∃ k : F, NormalizeVector sqrtf c = ⟨c.x * k, c.y * k, c.z * k⟩ := by
    intro c
    unfold NormalizeVector
    by_cases h0 : VectorMagnitude sqrtf c = 0
    · exact ⟨1, by simp only [h0, if_true, mul_one]⟩
    · exact ⟨1 / VectorMagnitude sqrtf c, by simp only [h0, if_false, MultiplyScalarVector]⟩
  have hsn : ∃ k : F, (SurfaceNormal sqrtf p0 p1 p2).2
      = ⟨(VectorCrossProduct (SubtractVector p1 p0) (SubtractVector p2 p0)).x * k,
         (VectorCrossProduct (SubtractVector p1 p0) (SubtractVector p2 p0)).y * k,
         (VectorCrossProduct (SubtractVector p1 p0) (SubtractVector p2 p0)).z * k⟩ := by
    by_cases hz : VectorCrossProduct (SubtractVector p1 p0) (SubtractVector p2 p0)
        = Vector3D.zero
    · rw [SurfaceNormal_of_cross_eq_zero sqrtf p0 p1 p2 hz, hz]
      exact ⟨0, by simp [Vector3D.zero]⟩
    · rw [SurfaceNormal_of_cross_ne_zero sqrtf p0 p1 p2 hz]
      exact hnorm _
  obtain ⟨k, hk⟩ := hsn
  refine ⟨?_, ?_, ?_, ?_⟩
  · simp only [VectorCrossProduct]
    ring
  · simp only [VectorCrossProduct]
    ring
  · rw [hk]
    simp only [VectorCrossProduct, SubtractVector]
    ring
  · rw [hk]
    simp only [VectorCrossProduct, SubtractVector]
    ring

end NormalsAlgebra

/-! ## A vertex without contributing face -/

section IsolatedVertex

/-- C21. `ComputeVertexNormals` in real arithmetic: for a vertex `i` to which
no triangle is adjacent under the selected policy, `poly_count` stays 0 (the
multiplication by `1 / poly_count` is skipped), the magnitude of the
accumulated vector is 0 (`NormalizeVector` copies the vector and does not
divide), and the vertex normal is the zero vector. -/
theorem isolated_vertex_normal_zero (object : Object3D ℝ) (smooth : Bool) (i : Nat)
    (hi : i < object.num_vertices)
    (hnone : ∀ j : Nat, j < object.num_polygons →
      adjacentPolygon object smooth i (readNat ⟨0, 0, 0⟩ object.polygon j) = false) :
    (ComputeVertexNormals Real.sqrt object smooth).2.vertex_normal[i]? = some ⟨0, 0, 0⟩
    ∧ accumulateNormals object smooth i = (⟨0, 0, 0⟩, 0)
    ∧ VectorMagnitude Real.sqrt (accumulateNormals object smooth i).1 = 0 := by
  have hfilter : ((List.range object.num_polygons).filter fun j =>
      adjacentPolygon object smooth i (readNat ⟨0, 0, 0⟩ object.polygon j)) = [] := by
    rw [List.filter_eq_nil_iff]
    intro j hj
    rw [hnone j (List.mem_range.mp hj)]
    simp
  have hacc : accumulateNormals object smooth i = (⟨0, 0, 0⟩, 0) := by
    rw [accumulateNormals_eq, hfilter]
    simp [sumVectors]
  refine ⟨?_, hacc, ?_⟩
  · rw [vertex_normal_getElem? Real.sqrt object smooth i hi, vertexNormal_real, hacc]
    exact congrArg some NormalizeVector_zero
  · rw [hacc]
    exact (VectorMagnitude_eq_zero_iff _).mpr rfl

/-- Witness of C21 on the fourth vertex of a mesh of one triangle. -/
theorem isolated_vertex_normal_zero_witness :
    3 < (isolatedObject ℝ).num_vertices
    ∧ (∀ j : Nat, j < (isolatedObject ℝ).num_polygons →
      adjacentPolygon (isolatedObject ℝ) false 3
        (readNat ⟨0, 0, 0⟩ (isolatedObject ℝ).polygon j) = false)
    ∧ (ComputeVertexNormals Real.sqrt (isolatedObject ℝ) false).2.vertex_normal[3]?
        = some ⟨0, 0, 0⟩ :=
  have h1 : 3 < (isolatedObject ℝ).num_vertices := by decide
  have h2 : ∀ j : Nat, j < (isolatedObject ℝ).num_polygons →
      adjacentPolygon (isolatedObject ℝ) false 3
        (readNat ⟨0, 0, 0⟩ (isolatedObject ℝ).polygon j) = false := by
    intro j hj
    have hj0 : j = 0 := by
      have : j < 1 := hj
      omega
    subst hj0
    simp [adjacentPolygon_strict, isolatedObject, readNat]
  ⟨h1, h2, (isolated_vertex_normal_zero (isolatedObject ℝ) false 3 h1 h2).1⟩

end IsolatedVertex

/-! ## The two loops of `ReadOBJFile` -/

section ReadLoops

variable {F : Type} [Field F]

theorem countKind_cons (k : LineKind) (line : List Char) (rest : List (List Char)) :
    countKind k (line :: rest)
      = (if classifyLine line = k then 1 else 0) + countKind k rest := by
  unfold countKind
  by_cases h : classifyLine line = k
  · simp [List.filter_cons, h]
    omega
  · simp [List.filter_cons, h]

theorem foldl_countLine (lines : List (List Char)) (c : SrcCounts) :
    lines.foldl countLine c
      = ⟨c.src_num_vertices + countKind LineKind.position lines,
          c.src_num_texcoords + countKind LineKind.texcoord lines,
          c.src_num_polys + countKind LineKind.face lines⟩ := by
  induction lines generalizing c with
  | nil => simp [countKind]
  | cons line rest ih =>
    rw [List.foldl_cons, ih, countKind_cons, countKind_cons, countKind_cons]
    unfold countLine
    cases h : classifyLine line <;> simp <;> omega

theorem countPass_eq (lines : List (List Char)) :
    countPass lines
      = ⟨countKind LineKind.position lines, countKind LineKind.texcoord lines,
          countKind LineKind.face lines⟩ := by
  unfold countPass
  rw [foldl_countLine]
  simp

theorem set_append_replicate {α : Type} (d : List α) (k : Nat) (z x : α) :
    (d ++ List.replicate (k + 1) z).set d.length x = (d ++ [x]) ++ List.replicate k z := by
  induction d with
  | nil => simp [List.replicate_succ]
  | cons a d ih => simp only [List.cons_append, List.length_cons, List.set_cons_succ, ih]

theorem readNat_append_replicate {α : Type} (d : List α) (k : Nat) (z : α) :
    readNat z (d ++ List.replicate k z) d.length = z := by
  unfold readNat
  rw [List.getD_eq_getElem?_getD]
  by_cases hk : k = 0
  · subst hk
    simp
  · have hlt : d.length < (d ++ List.replicate k z).length := by
      simp
      omega
    rw [List.getElem?_eq_getElem hlt, List.getElem_append_right (Nat.le_refl _)]
    simp

theorem positionsOf_cons (line : List Char) (rest : List (List Char)) :
    (positionsOf (line :: rest) : List (Vector3D F))
      = if classifyLine line = LineKind.position then
          scanVertexLine Vector3D.zero line :: positionsOf rest
        else positionsOf rest := by
  unfold positionsOf
  by_cases h : classifyLine line = LineKind.position <;> simp [List.filter_cons, h]

theorem texcoordsOf_cons (line : List Char) (rest : List (List Char)) :
    (texcoordsOf (line :: rest) : List (UVCoordinate F))
      = if classifyLine line = LineKind.texcoord then
          scanTexcoordLine UVCoordinate.zero line :: texcoordsOf rest
        else texcoordsOf rest := by
  unfold texcoordsOf
  by_cases h : classifyLine line = LineKind.texcoord <;> simp [List.filter_cons, h]

theorem facesOf_cons (load_texcoords : Bool) (vars : ScanVars) (line : List Char)
    (rest : List (List Char)) :
    facesOf load_texcoords vars (line :: rest)
      = if classifyLine line = LineKind.face then
          (ingestFaceLine load_texcoords vars line).1
            :: facesOf load_texcoords (ingestFaceLine load_texcoords vars line).2 rest
        else facesOf load_texcoords vars rest := rfl

theorem readPass_cons (load_texcoords : Bool) (st : ReadState F) (line : List Char)
    (rest : List (List Char)) :
    readPass load_texcoords st (line :: rest)
      = readPass load_texcoords (readLine load_texcoords st line) rest := rfl

theorem readPass_arrays (load_texcoords : Bool) (lines : List (List Char)) :
    ∀ (dv : List (Vector3D F)) (kv : Nat) (ta dt : List (UVCoordinate F)) (kt : Nat)
      (dp : List SrcPoly) (kp : Nat) (vars : ScanVars),
      countKind LineKind.position lines ≤ kv → countKind LineKind.face lines ≤ kp →
      (load_texcoords = true →
        ta = dt ++ List.replicate kt UVCoordinate.zero
        ∧ countKind LineKind.texcoord lines ≤ kt) →
      (readPass load_texcoords
          ⟨dv ++ List.replicate kv Vector3D.zero, ta,
            dp ++ List.replicate kp ⟨⟨0, 0⟩, ⟨0, 0⟩, ⟨0, 0⟩⟩, dv.length, dp.length, dt.length,
            vars⟩ lines).src_vertices
        = dv ++ positionsOf lines
            ++ List.replicate (kv - countKind LineKind.position lines) Vector3D.zero
      ∧ (readPass load_texcoords
          ⟨dv ++ List.replicate kv Vector3D.zero, ta,
            dp ++ List.replicate kp ⟨⟨0, 0⟩, ⟨0, 0⟩, ⟨0, 0⟩⟩, dv.length, dp.length, dt.length,
            vars⟩ lines).src_polys
        = dp ++ facesOf load_texcoords vars lines
            ++ List.replicate (kp - countKind LineKind.face lines) ⟨⟨0, 0⟩, ⟨0, 0⟩, ⟨0, 0⟩⟩
      ∧ (load_texcoords = true →
        (readPass load_texcoords
          ⟨dv ++ List.replicate kv Vector3D.zero, ta,
            dp ++ List.replicate kp ⟨⟨0, 0⟩, ⟨0, 0⟩, ⟨0, 0⟩⟩, dv.length, dp.length, dt.length,
            vars⟩ lines).src_texcoords
        = dt ++ texcoordsOf lines
            ++ List.replicate (kt - countKind LineKind.texcoord lines) UVCoordinate.zero) := by
  induction lines with
  | nil =>
    intro dv kv ta dt kt dp kp vars _ _ ht
    refine ⟨by simp [readPass, positionsOf, countKind], by simp [readPass, facesOf, countKind], ?_⟩
    intro hl
    simp [readPass, texcoordsOf, countKind, (ht hl).1]
  | cons line rest ih =>
    intro dv kv ta dt kt dp kp vars hv hp ht
    rw [countKind_cons] at hv hp
    rw [readPass_cons, positionsOf_cons, facesOf_cons, texcoordsOf_cons, countKind_cons,
      countKind_cons, countKind_cons]
    cases hc : classifyLine line with
    | position =>
      simp only [hc, if_true, reduceCtorEq, if_false, Nat.zero_add] at hv hp ⊢
      obtain ⟨kv', rfl⟩ : ∃ kv', kv = kv' + 1 := ⟨kv - 1, by omega⟩
      have hstep : readLine load_texcoords
          ⟨dv ++ List.replicate (kv' + 1) Vector3D.zero, ta,
            dp ++ List.replicate kp ⟨⟨0, 0⟩, ⟨0, 0⟩, ⟨0, 0⟩⟩, dv.length, dp.length, dt.length,
            vars⟩ line
          = ⟨(dv ++ [scanVertexLine Vector3D.zero line]) ++ List.replicate kv' Vector3D.zero,
              ta, dp ++ List.replicate kp ⟨⟨0, 0⟩, ⟨0, 0⟩, ⟨0, 0⟩⟩,
              (dv ++ [scanVertexLine Vector3D.zero line]).length, dp.length, dt.length,
              vars⟩ := by
        simp only [readLine, hc, readNat_append_replicate, set_append_replicate,
          List.length_append, List.length_singleton]
      rw [hstep]
      have hih := ih (dv ++ [scanVertexLine Vector3D.zero line]) kv' ta dt kt dp kp vars
        (by omega) hp (fun hl => ⟨(ht hl).1, by
          have := (ht hl).2
          rw [countKind_cons] at this
          simp only [hc, reduceCtorEq, if_false, Nat.zero_add] at this
          exact this⟩)
      refine ⟨?_, hih.2.1, hih.2.2⟩
      rw [hih.1]
      have e : kv' + 1 - (1 + countKind LineKind.position rest)
          = kv' - countKind LineKind.position rest := by omega
      rw [e]
      simp
    | texcoord =>
      simp only [hc, if_true, reduceCtorEq, if_false, Nat.zero_add] at hv hp ⊢
      cases hl : load_texcoords with
      | false =>
        subst hl
        have hstep : readLine false
            ⟨dv ++ List.replicate kv Vector3D.zero, ta,
              dp ++ List.replicate kp ⟨⟨0, 0⟩, ⟨0, 0⟩, ⟨0, 0⟩⟩, dv.length, dp.length,
              dt.length, vars⟩ line
            = ⟨dv ++ List.replicate kv Vector3D.zero, ta,
              dp ++ List.replicate kp ⟨⟨0, 0⟩, ⟨0, 0⟩, ⟨0, 0⟩⟩, dv.length, dp.length,
              dt.length, vars⟩ := by
          simp [readLine, hc]
        rw [hstep]
        have hih := ih dv kv ta dt kt dp kp vars hv hp (fun h => absurd h (by decide))
        exact ⟨hih.1, hih.2.1, fun h => absurd h (by decide)⟩
      | true =>
        subst hl
        obtain ⟨hta, hkt⟩ := ht rfl
        rw [countKind_cons] at hkt
        simp only [hc, if_true] at hkt
        obtain ⟨kt', rfl⟩ : ∃ kt', kt = kt' + 1 := ⟨kt - 1, by omega⟩
        subst hta
        have hstep : readLine true
            ⟨dv ++ List.replicate kv Vector3D.zero,
              dt ++ List.replicate (kt' + 1) UVCoordinate.zero,
              dp ++ List.replicate kp ⟨⟨0, 0⟩, ⟨0, 0⟩, ⟨0, 0⟩⟩, dv.length, dp.length,
              dt.length, vars⟩ line
            = ⟨dv ++ List.replicate kv Vector3D.zero,
              (dt ++ [scanTexcoordLine UVCoordinate.zero line])
                ++ List.replicate kt' UVCoordinate.zero,
              dp ++ List.replicate kp ⟨⟨0, 0⟩, ⟨0, 0⟩, ⟨0, 0⟩⟩, dv.length, dp.length,
              (dt ++ [scanTexcoordLine UVCoordinate.zero line]).length, vars⟩ := by
          simp only [readLine, hc, if_true, readNat_append_replicate, set_append_replicate,
            List.length_append, List.length_singleton]
        rw [hstep]
        have hih := ih dv kv
          ((dt ++ [scanTexcoordLine UVCoordinate.zero line])
            ++ List.replicate kt' UVCoordinate.zero)
          (dt ++ [scanTexcoordLine UVCoordinate.zero line]) kt' dp kp vars hv hp
          (fun _ => ⟨rfl, by omega⟩)
        refine ⟨hih.1, hih.2.1, fun _ => ?_⟩
        rw [hih.2.2 rfl]
        have e : kt' + 1 - (1 + countKind LineKind.texcoord rest)
            = kt' - countKind LineKind.texcoord rest := by omega
        rw [e]
        simp
    | face =>
      simp only [hc, if_true, reduceCtorEq, if_false, Nat.zero_add] at hv hp ⊢
      obtain ⟨kp', rfl⟩ : ∃ kp', kp = kp' + 1 := ⟨kp - 1, by omega⟩
      have hstep : readLine load_texcoords
          ⟨dv ++ List.replicate kv Vector3D.zero, ta,
            dp ++ List.replicate (kp' + 1) ⟨⟨0, 0⟩, ⟨0, 0⟩, ⟨0, 0⟩⟩, dv.length, dp.length,
            dt.length, vars⟩ line
          = ⟨dv ++ List.replicate kv Vector3D.zero, ta,
              (dp ++ [(ingestFaceLine load_texcoords vars line).1])
                ++ List.replicate kp' ⟨⟨0, 0⟩, ⟨0, 0⟩, ⟨0, 0⟩⟩,
              dv.length, (dp ++ [(ingestFaceLine load_texcoords vars line).1]).length,
              dt.length, (ingestFaceLine load_texcoords vars line).2⟩ := by
        simp only [readLine, hc, set_append_replicate, List.length_append,
          List.length_singleton]
      rw [hstep]
      have hih := ih dv kv ta dt kt (dp ++ [(ingestFaceLine load_texcoords vars line).1]) kp'
        (ingestFaceLine load_texcoords vars line).2 hv (by omega)
        (fun hl => ⟨(ht hl).1, by
          have := (ht hl).2
          rw [countKind_cons] at this
          simp only [hc, reduceCtorEq, if_false, Nat.zero_add] at this
          exact this⟩)
      refine ⟨hih.1, ?_, hih.2.2⟩
      rw [hih.2.1]
      have e : kp' + 1 - (1 + countKind LineKind.face rest)
          = kp' - countKind LineKind.face rest := by omega
      rw [e]
      simp
    | other =>
      simp only [hc, reduceCtorEq, if_false, Nat.zero_add] at hv hp ⊢
      have hstep : readLine load_texcoords
          ⟨dv ++ List.replicate kv Vector3D.zero, ta,
            dp ++ List.replicate kp ⟨⟨0, 0⟩, ⟨0, 0⟩, ⟨0, 0⟩⟩, dv.length, dp.length, dt.length,
            vars⟩ line
          = ⟨dv ++ List.replicate kv Vector3D.zero, ta,
            dp ++ List.replicate kp ⟨⟨0, 0⟩, ⟨0, 0⟩, ⟨0, 0⟩⟩, dv.length, dp.length, dt.length,
            vars⟩ := by
        simp [readLine, hc]
      rw [hstep]
      exact ih dv kv ta dt kt dp kp vars hv hp (fun hl => ⟨(ht hl).1, by
        have := (ht hl).2
        rw [countKind_cons] at this
        simp only [hc, reduceCtorEq, if_false, Nat.zero_add] at this
        exact this⟩)

theorem length_positionsOf (lines : List (List Char)) :
    (positionsOf lines : List (Vector3D F)).length = countKind LineKind.position lines := by
  simp [positionsOf, countKind]

theorem length_texcoordsOf (lines : List (List Char)) :
    (texcoordsOf lines : List (UVCoordinate F)).length = countKind LineKind.texcoord lines := by
  simp [texcoordsOf, countKind]

theorem length_facesOf (load_texcoords : Bool) (lines : List (List Char)) (vars : ScanVars) :
    (facesOf load_texcoords vars lines).length = countKind LineKind.face lines := by
  induction lines generalizing vars with
  | nil => rfl
  | cons line rest ih =>
    rw [facesOf_cons, countKind_cons]
    by_cases h : classifyLine line = LineKind.face
    · simp only [h, if_true, List.length_cons, ih]
      omega
    · simp only [h, if_false, ih, Nat.zero_add]

theorem ReadOBJFile_ok [DecidableEq F] (sqrtf : F → F) (lines : List (List Char))
    (load_texcoords smooth : Bool) (vars0 : ScanVars)
    (hv : countKind LineKind.position lines ≠ 0) (hp : countKind LineKind.face lines ≠ 0)
    (ht : load_texcoords = true → countKind LineKind.texcoord lines ≠ 0) :
    ReadOBJFile sqrtf (some lines) load_texcoords smooth vars0
      = if load_texcoords then
          callConvertWithTexcoords sqrtf (positionsOf lines) (texcoordsOf lines)
            (facesOf true vars0 lines) smooth
        else
          LoadOutcome.returned
            (some (Convert_Data sqrtf (positionsOf lines) (facesOf false vars0 lines) smooth)) := by
  have herr : (Option.isNone (some lines) || decide (countKind LineKind.position lines = 0)
      || decide (countKind LineKind.face lines = 0)
      || (load_texcoords && decide (countKind LineKind.texcoord lines = 0))) = false := by
    cases hl : load_texcoords with
    | false => simp [hv, hp]
    | true => simp [hv, hp, ht hl]
  unfold ReadOBJFile
  simp only [countPass_eq, herr]
  cases hl : load_texcoords with
  | false =>
    have h := readPass_arrays false lines ([] : List (Vector3D F))
      (countKind LineKind.position lines) [] []
      0 [] (countKind LineKind.face lines) vars0 (Nat.le_refl _) (Nat.le_refl _)
      (fun h => absurd h (by decide))
    simp only [List.nil_append, List.length_nil, Nat.sub_self, List.replicate_zero,
      List.append_nil] at h
    simp only [Bool.false_eq_true, if_false, h.1, h.2.1]
  | true =>
    have h := readPass_arrays true lines ([] : List (Vector3D F))
      (countKind LineKind.position lines)
      (List.replicate (countKind LineKind.texcoord lines) UVCoordinate.zero) []
      (countKind LineKind.texcoord lines) [] (countKind LineKind.face lines) vars0
      (Nat.le_refl _) (Nat.le_refl _) (fun _ => ⟨by simp, Nat.le_refl _⟩)
    simp only [List.nil_append, List.length_nil, Nat.sub_self, List.replicate_zero,
      List.append_nil] at h
    simp only [if_true, h.1, h.2.1, h.2.2]

theorem ReadOBJFile_none [DecidableEq F] (sqrtf : F → F) (load_texcoords smooth : Bool)
    (vars0 : ScanVars) :
    ReadOBJFile sqrtf none load_texcoords smooth vars0
      = if load_texcoords then callConvertWithTexcoords sqrtf [] [] [] smooth
        else LoadOutcome.returned (some (Convert_Data sqrtf [] [] smooth)) := by
  unfold ReadOBJFile
  cases load_texcoords <;> simp

theorem ReadOBJFile_missing [DecidableEq F] (sqrtf : F → F) (lines : List (List Char))
    (load_texcoords smooth : Bool) (vars0 : ScanVars)
    (h : countKind LineKind.position lines = 0 ∨ countKind LineKind.face lines = 0
      ∨ (load_texcoords = true ∧ countKind LineKind.texcoord lines = 0)) :
    ReadOBJFile sqrtf (some lines) load_texcoords smooth vars0
      = if load_texcoords then
          if countKind LineKind.face lines = 0 then
            callConvertWithTexcoords sqrtf [] [] [] smooth
          else LoadOutcome.undefined
        else if countKind LineKind.position lines = 0 ∧ countKind LineKind.face lines = 0 then
          LoadOutcome.returned (some (Convert_Data sqrtf [] [] smooth))
        else LoadOutcome.undefined := by
  have herr : (Option.isNone (some lines) || decide (countKind LineKind.position lines = 0)
      || decide (countKind LineKind.face lines = 0)
      || (load_texcoords && decide (countKind LineKind.texcoord lines = 0))) = true := by
    rcases h with h | h | ⟨hl, h⟩
    · simp [h]
    · simp [h]
    · simp [h, hl]
  unfold ReadOBJFile
  simp only [countPass_eq, herr]

theorem Convert_Data_empty [DecidableEq F] (sqrtf : F → F) (smooth : Bool) :
    Convert_Data sqrtf ([] : List (Vector3D F)) [] smooth = ⟨0, 0, [], [], none, [], []⟩ := by
  simp [Convert_Data, ComputeVertexNormals, polygonNormals]

theorem callConvertWithTexcoords_empty [DecidableEq F] (sqrtf : F → F) (smooth : Bool) :
    callConvertWithTexcoords sqrtf ([] : List (Vector3D F)) [] [] smooth
      = LoadOutcome.returned (some ⟨0, 0, [], [], some [], [], []⟩) := by
  simp [callConvertWithTexcoords, Convert_Data_With_Texcoords, buildGx, dedupLoop,
    GxState.init, GxState.num_gx_vertices, ComputeVertexNormals, polygonNormals]

end ReadLoops

/-! ## `ReadOBJFile`: failures and faces that are not checked -/

section LoadClaims

variable {F : Type} [Field F]

theorem ingestFaceLine_plain (load_texcoords : Bool) (vars : ScanVars) (line : List Char)
    (hf : faceFormat line = FaceFormat.plain) (r : List Int)
    (hr : sscanf (parseFormat ("f %d %d %d".toList)) line = r) :
    ingestFaceLine load_texcoords vars line
      = (⟨⟨r.getD 0 0 - 1, if load_texcoords then (0 : Int) - 1 else 0⟩,
          ⟨r.getD 1 0 - 1, if load_texcoords then (0 : Int) - 1 else 0⟩,
          ⟨r.getD 2 0 - 1, if load_texcoords then (0 : Int) - 1 else 0⟩⟩, vars) := by
  subst hr
  unfold ingestFaceLine
  rw [hf]

theorem ingestFaceLine_unrecognised (load_texcoords : Bool) (vars : ScanVars)
    (line : List Char) (hf : faceFormat line = FaceFormat.unrecognised) :
    ingestFaceLine load_texcoords vars line
      = (⟨⟨(0 : Int) - 1, if load_texcoords then (0 : Int) - 1 else 0⟩,
          ⟨(0 : Int) - 1, if load_texcoords then (0 : Int) - 1 else 0⟩,
          ⟨(0 : Int) - 1, if load_texcoords then (0 : Int) - 1 else 0⟩⟩, vars) := by
  unfold ingestFaceLine
  rw [hf]

theorem faceFormat_unrecognised (line : List Char)
    (h1 : ¬ ∃ a b : List Char, line = a ++ '/' :: '/' :: b)
    (h0 : line.count '/' ≠ 0) (h3 : line.count '/' ≠ 3) (h6 : line.count '/' ≠ 6) :
    faceFormat line = FaceFormat.unrecognised := by
  have hs : strstrSlashSlash line = false := by
    cases hb : strstrSlashSlash line with
    | false => rfl
    | true => exact absurd ((strstrSlashSlash_iff line).mp hb) h1
  unfold faceFormat
  rw [hs, strNumExists_eq_count]
  simp only [Bool.false_eq_true, if_false]

theorem faceFormat_faceLinePlain (a b c : Nat) (eol : List Char) (h1 : '/' ∉ eol) :
    faceFormat (faceLinePlain a b c eol) = FaceFormat.plain := by
  have hss : strstrSlashSlash (faceLinePlain a b c eol) = false := by
    simp only [faceLinePlain, List.append_assoc, List.cons_append]
    rw [strstrSlashSlash_cons_ne _ _ (by decide), strstrSlashSlash_cons_ne _ _ (by decide),
      strstrSlashSlash_decimal, strstrSlashSlash_cons_ne _ _ (by decide),
      strstrSlashSlash_decimal, strstrSlashSlash_cons_ne _ _ (by decide),
      strstrSlashSlash_decimal]
    exact strstrSlashSlash_of_no_slash eol h1
  have hcount : strNumExists (faceLinePlain a b c eol) '/' = 0 := by
    rw [strNumExists_eq_count]
    have he : eol.count '/' = 0 := List.count_eq_zero.mpr h1
    simp [faceLinePlain, List.count_append, List.count_cons, count_slash_decimal, he]
  simp [faceFormat, hss, hcount]

theorem sscanf_faceLinePlain (a b c : Nat) (eol : List Char)
    (h2 : ∀ ch, eol.head? = some ch → digitVal ch = none) :
    sscanf (parseFormat ("f %d %d %d".toList)) (faceLinePlain a b c eol)
      = [(a : Int), b, c] := by
  have hfmt : parseFormat ("f %d %d %d".toList)
      = [ScanItem.lit 'f', ScanItem.white, ScanItem.int, ScanItem.white, ScanItem.int,
          ScanItem.white, ScanItem.int] := by decide
  rw [hfmt]
  simp only [faceLinePlain, List.append_assoc, List.cons_append]
  rw [sscanf_lit, sscanf_white_decimal, sscanf_int_decimal _ _ _ (head_blank _),
    sscanf_white_decimal, sscanf_int_decimal _ _ _ (head_blank _), sscanf_white_decimal,
    sscanf_int_decimal _ _ _ h2]
  rfl

theorem ingestFaceLine_faceLinePlain (load_texcoords : Bool) (vars : ScanVars) (a b c : Nat)
    (eol : List Char) (h1 : '/' ∉ eol) (h2 : ∀ ch, eol.head? = some ch → digitVal ch = none) :
    ingestFaceLine load_texcoords vars (faceLinePlain a b c eol)
      = (⟨⟨(a : Int) - 1, if load_texcoords then (0 : Int) - 1 else 0⟩,
          ⟨(b : Int) - 1, if load_texcoords then (0 : Int) - 1 else 0⟩,
          ⟨(c : Int) - 1, if load_texcoords then (0 : Int) - 1 else 0⟩⟩, vars) := by
  rw [ingestFaceLine_plain load_texcoords vars _ (faceFormat_faceLinePlain a b c eol h1) _
    (sscanf_faceLinePlain a b c eol h2)]
  rfl

/-- C23, the code at inputs with missing data: `ReadOBJFile` sets `error`
but creates and converts the object all the same.  Without `v ` and `f `
lines (no-texcoord mode), and without `f ` lines (texcoord mode), it returns
with `*object` pointing to an object of 0 vertices and 0 polygons; in the other
cases of missing data the conversion reads a null source array. -/
theorem missing_data_object_returned [DecidableEq F] (sqrtf : F → F)
    (lines : List (List Char)) (smooth : Bool) (vars0 : ScanVars) :
    ReadOBJFile sqrtf (some []) false smooth vars0
        = LoadOutcome.returned (some ⟨0, 0, [], [], none, [], []⟩)
    ∧ (countKind LineKind.position lines = 0 → countKind LineKind.face lines = 0 →
        ReadOBJFile sqrtf (some lines) false smooth vars0
          = LoadOutcome.returned (some ⟨0, 0, [], [], none, [], []⟩))
    ∧ (countKind LineKind.face lines = 0 →
        ReadOBJFile sqrtf (some lines) true smooth vars0
          = LoadOutcome.returned (some ⟨0, 0, [], [], some [], [], []⟩))
    ∧ ((countKind LineKind.position lines = 0 ∧ countKind LineKind.face lines ≠ 0)
        ∨ (countKind LineKind.position lines ≠ 0 ∧ countKind LineKind.face lines = 0) →
        ReadOBJFile sqrtf (some lines) false smooth vars0 = LoadOutcome.undefined)
    ∧ (countKind LineKind.face lines ≠ 0 →
        countKind LineKind.position lines = 0 ∨ countKind LineKind.texcoord lines = 0 →
        ReadOBJFile sqrtf (some lines) true smooth vars0 = LoadOutcome.undefined) := by
  refine ⟨?_, ?_, ?_, ?_, ?_⟩
  · rw [ReadOBJFile_missing sqrtf [] false smooth vars0 (Or.inl rfl)]
    simp [countKind, Convert_Data_empty]
  · intro hv hp
    rw [ReadOBJFile_missing sqrtf lines false smooth vars0 (Or.inl hv)]
    simp [hv, hp, Convert_Data_empty]
  · intro hp
    rw [ReadOBJFile_missing sqrtf lines true smooth vars0 (Or.inr (Or.inl hp))]
    simp [hp, callConvertWithTexcoords_empty]
  · rintro (⟨hv, hp⟩ | ⟨hv, hp⟩)
    · rw [ReadOBJFile_missing sqrtf lines false smooth vars0 (Or.inl hv)]
      simp [hv, hp]
    · rw [ReadOBJFile_missing sqrtf lines false smooth vars0 (Or.inr (Or.inl hp))]
      simp [hv, hp]
  · intro hp h
    have hm : countKind LineKind.position lines = 0 ∨ countKind LineKind.face lines = 0
        ∨ ((true : Bool) = true ∧ countKind LineKind.texcoord lines = 0) := by
      rcases h with h | h
      · exact Or.inl h
      · exact Or.inr (Or.inr ⟨rfl, h⟩)
    rw [ReadOBJFile_missing sqrtf lines true smooth vars0 hm]
    simp [hp]

/-- C25, the code when the file cannot be opened: `ReadOBJFile` returns with
`*object` pointing to an object of 0 vertices and 0 polygons (with an empty
texture-coordinate array in texcoord mode), not with a null pointer. -/
theorem unreadable_file_object_returned [DecidableEq F] (sqrtf : F → F) (smooth : Bool)
    (vars0 : ScanVars) :
    ReadOBJFile sqrtf none false smooth vars0
        = LoadOutcome.returned (some ⟨0, 0, [], [], none, [], []⟩)
    ∧ ReadOBJFile sqrtf none true smooth vars0
        = LoadOutcome.returned (some ⟨0, 0, [], [], some [], [], []⟩) := by
  constructor
  · rw [ReadOBJFile_none]
    simp [Convert_Data_empty]
  · rw [ReadOBJFile_none]
    simp [callConvertWithTexcoords_empty]

/-! ## The scenarios A and B -/

theorem toField_zero (e : Int) : (DecimalValue.toField ⟨false, 0, e⟩ : F) = 0 := by
  simp [DecimalValue.toField]

theorem toField_one : (DecimalValue.toField ⟨false, 1, 0⟩ : F) = 1 := by
  simp [DecimalValue.toField]

theorem scanVertexLine_of (old : Vector3D F) (line : List Char) (a b c : DecimalValue)
    (h : sscanfDecimal (parseFloatFormat ("v %f %f %f".toList)) line = [a, b, c]) :
    scanVertexLine old line = (⟨a.toField, b.toField, c.toField⟩ : Vector3D F) := by
  unfold scanVertexLine
  rw [h]
  rfl

theorem positionsOf_scenarioA :
    (positionsOf scenarioA : List (Vector3D F)) = [⟨0, 0, 0⟩, ⟨1, 0, 0⟩, ⟨1, 1, 0⟩, ⟨0, 1, 0⟩] := by
  have hfil : scenarioA.filter (fun l => decide (classifyLine l = LineKind.position))
      = ["v 0 0 0\n".toList, "v 1 0 0\n".toList, "v 1 1 0\n".toList, "v 0 1 0\n".toList] := by
    decide
  unfold positionsOf
  rw [hfil]
  simp only [List.map_cons, List.map_nil]
  rw [scanVertexLine_of _ ("v 0 0 0\n".toList) ⟨false, 0, 0⟩ ⟨false, 0, 0⟩ ⟨false, 0, 0⟩
      (by decide),
    scanVertexLine_of _ ("v 1 0 0\n".toList) ⟨false, 1, 0⟩ ⟨false, 0, 0⟩ ⟨false, 0, 0⟩
      (by decide),
    scanVertexLine_of _ ("v 1 1 0\n".toList) ⟨false, 1, 0⟩ ⟨false, 1, 0⟩ ⟨false, 0, 0⟩
      (by decide),
    scanVertexLine_of _ ("v 0 1 0\n".toList) ⟨false, 0, 0⟩ ⟨false, 1, 0⟩ ⟨false, 0, 0⟩
      (by decide)]
  simp only [toField_zero, toField_one]

theorem facesOf_scenarioA (vars0 : ScanVars) :
    facesOf false vars0 scenarioA = [⟨⟨0, 0⟩, ⟨1, 0⟩, ⟨2, 0⟩⟩, ⟨⟨0, 0⟩, ⟨2, 0⟩, ⟨3, 0⟩⟩] := by
  have h1 : ingestFaceLine false vars0 ("f 1 2 3\n".toList)
      = (⟨⟨0, 0⟩, ⟨1, 0⟩, ⟨2, 0⟩⟩, vars0) := by
    rw [ingestFaceLine_plain false vars0 _ (by decide) [1, 2, 3] (by decide)]
    rfl
  have h2 : ingestFaceLine false vars0 ("f 1 3 4\n".toList)
      = (⟨⟨0, 0⟩, ⟨2, 0⟩, ⟨3, 0⟩⟩, vars0) := by
    rw [ingestFaceLine_plain false vars0 _ (by decide) [1, 3, 4] (by decide)]
    rfl
  unfold scenarioA
  rw [facesOf_cons, if_neg (by decide), facesOf_cons, if_neg (by decide), facesOf_cons,
    if_neg (by decide), facesOf_cons, if_neg (by decide), facesOf_cons, if_pos (by decide), h1,
    facesOf_cons, if_pos (by decide), h2]
  rfl

/-- C27. Scenario A: the file with the positions (0,0,0), (1,0,0), (1,1,0),
(0,1,0) and the faces `f 1 2 3`, `f 1 3 4`, loaded with
`load_texcoords = false` in real arithmetic, gives an object with these 4
vertices, the 2 triangles (0,1,2) and (0,2,3), and the face normals (0,0,1)
and (0,0,1). -/
theorem scenario_unit_square (smooth : Bool) (vars0 : ScanVars) :
    ∃ object : Object3D ℝ,
      ReadOBJFile Real.sqrt (some scenarioA) false smooth vars0
        = LoadOutcome.returned (some object)
      ∧ object.num_vertices = 4
      ∧ object.vertex = [⟨0, 0, 0⟩, ⟨1, 0, 0⟩, ⟨1, 1, 0⟩, ⟨0, 1, 0⟩]
      ∧ object.num_polygons = 2
      ∧ object.polygon = [⟨0, 1, 2⟩, ⟨0, 2, 3⟩]
      ∧ object.polygon_normal = [⟨0, 0, 1⟩, ⟨0, 0, 1⟩] := by
  have hload := ReadOBJFile_ok Real.sqrt scenarioA false smooth vars0 (by decide) (by decide)
    (fun h => absurd h (by decide))
  rw [positionsOf_scenarioA, facesOf_scenarioA] at hload
  refine ⟨_, hload, rfl, ?_, rfl, ?_, ?_⟩
  · exact Convert_Data_vertex Real.sqrt _ _ smooth
  · rw [Convert_Data_polygon]
    decide
  · have h : (Convert_Data Real.sqrt
          ([⟨0, 0, 0⟩, ⟨1, 0, 0⟩, ⟨1, 1, 0⟩, ⟨0, 1, 0⟩] : List (Vector3D ℝ))
          [⟨⟨0, 0⟩, ⟨1, 0⟩, ⟨2, 0⟩⟩, ⟨⟨0, 0⟩, ⟨2, 0⟩, ⟨3, 0⟩⟩] smooth).polygon_normal
        = (([⟨⟨0, 0⟩, ⟨1, 0⟩, ⟨2, 0⟩⟩, ⟨⟨0, 0⟩, ⟨2, 0⟩, ⟨3, 0⟩⟩] : List SrcPoly).map
            storedTriangle).map
            (faceNormal Real.sqrt [⟨0, 0, 0⟩, ⟨1, 0, 0⟩, ⟨1, 1, 0⟩, ⟨0, 1, 0⟩]) :=
      convertDataObject_polygon_normal Real.sqrt _ _
    have hs : ([⟨⟨0, 0⟩, ⟨1, 0⟩, ⟨2, 0⟩⟩, ⟨⟨0, 0⟩, ⟨2, 0⟩, ⟨3, 0⟩⟩] : List SrcPoly).map
        storedTriangle = [⟨0, 1, 2⟩, ⟨0, 2, 3⟩] := by decide
    simp only [Bool.false_eq_true, if_false] at h ⊢
    rw [h, hs]
    simp [faceNormal, cornerPositions, readNat, SurfaceNormal, SubtractVector,
      VectorCrossProduct, NormalizeVector, VectorMagnitude, MultiplyScalarVector]

theorem facesOf_filter (load_texcoords : Bool) (lines : List (List Char)) :
    ∀ vars : ScanVars,
      facesOf load_texcoords vars
          (lines.filter fun l => decide (classifyLine l = LineKind.face))
        = facesOf load_texcoords vars lines := by
  induction lines with
  | nil => intro vars; rfl
  | cons line rest ih =>
    intro vars
    by_cases h : classifyLine line = LineKind.face
    · rw [List.filter_cons_of_pos (by simpa using h), facesOf_cons, facesOf_cons, if_pos h,
        if_pos h, ih]
    · rw [List.filter_cons_of_neg (by simpa using h), facesOf_cons, if_neg h, ih]

theorem readArr_three {α : Type} (d : α) (l : List α) (h : l.length = 3) :
    ([⟨0, 0⟩, ⟨1, 1⟩, ⟨2, 2⟩] : List SrcPolyVertex).map (fun c => readArr d l c.v) = l
    ∧ ([⟨0, 0⟩, ⟨1, 1⟩, ⟨2, 2⟩] : List SrcPolyVertex).map (fun c => readArr d l c.t) = l := by
  match l, h with
  | [a, b, c], _ => exact ⟨rfl, rfl⟩

/-- C28. Scenario B: for every file with three `v ` lines, three `vt` lines
and the single face line `f 1/1/1 2/2/1 3/3/1` (followed by an end of line
without slash that does not start with a digit), the load with
`load_texcoords = true` returns an object with exactly 3 vertices, which are
the three positions with the three texcoords in the order of the file, and one
triangle, with the indices (0,1,2). -/
theorem scenario_position_texture_normal [DecidableEq F] (sqrtf : F → F)
    (lines : List (List Char)) (eol : List Char) (smooth : Bool) (vars0 : ScanVars)
    (hv : countKind LineKind.position lines = 3) (ht : countKind LineKind.texcoord lines = 3)
    (hf : (lines.filter fun l => decide (classifyLine l = LineKind.face))
      = [faceLinePTN 1 1 1 2 2 1 3 3 1 eol])
    (h1 : '/' ∉ eol) (h2 : ∀ c, eol.head? = some c → digitVal c = none) :
    ∃ object : Object3D F,
      ReadOBJFile sqrtf (some lines) true smooth vars0 = LoadOutcome.returned (some object)
      ∧ object.num_vertices = 3
      ∧ object.vertex = positionsOf lines
      ∧ object.tex_coords = some (texcoordsOf lines)
      ∧ object.num_polygons = 1
      ∧ object.polygon = [⟨0, 1, 2⟩] := by
  have hp : countKind LineKind.face lines = 1 := by
    unfold countKind
    rw [hf]
    rfl
  have hclass : classifyLine (faceLinePTN 1 1 1 2 2 1 3 3 1 eol) = LineKind.face := by
    have hm : faceLinePTN 1 1 1 2 2 1 3 3 1 eol
        ∈ lines.filter fun l => decide (classifyLine l = LineKind.face) := by
      rw [hf]
      exact List.mem_singleton.mpr rfl
    simpa using (List.mem_filter.mp hm).2
  have hfaces : facesOf true vars0 lines = [⟨⟨0, 0⟩, ⟨1, 1⟩, ⟨2, 2⟩⟩] := by
    rw [← facesOf_filter, hf, facesOf_cons, if_pos hclass,
      ingestFaceLine_positionTextureNormal true vars0 _
        (faceFormat_faceLinePTN 1 1 1 2 2 1 3 3 1 eol h1) _
        (sscanf_faceLinePTN 1 1 1 2 2 1 3 3 1 eol h2)]
    rfl
  have hload := ReadOBJFile_ok sqrtf lines true smooth vars0 (by rw [hv]; decide)
    (by rw [hp]; decide) (fun _ => by rw [ht]; decide)
  rw [hfaces, if_pos rfl] at hload
  obtain ⟨object, hc, -, hnv, hnp, hvert, htex, hlen, hidx⟩ :=
    Convert_Data_With_Texcoords_spec sqrtf (positionsOf lines) (texcoordsOf lines)
      [⟨⟨0, 0⟩, ⟨1, 1⟩, ⟨2, 2⟩⟩] smooth
  have hsigs : addSigs [] (cornerList [⟨⟨0, 0⟩, ⟨1, 1⟩, ⟨2, 2⟩⟩])
      = [⟨0, 0⟩, ⟨1, 1⟩, ⟨2, 2⟩] := by decide
  rw [hsigs] at hnv hvert htex hidx
  have hlv : (positionsOf lines : List (Vector3D F)).length = 3 := by
    rw [length_positionsOf, hv]
  have hlt : (texcoordsOf lines : List (UVCoordinate F)).length = 3 := by
    rw [length_texcoordsOf, ht]
  refine ⟨object, ?_, hnv, ?_, ?_, hnp, ?_⟩
  · rw [hload]
    unfold callConvertWithTexcoords
    rw [hc]
  · rw [hvert]
    exact (readArr_three Vector3D.zero _ hlv).1
  · rw [htex]
    exact congrArg some (readArr_three UVCoordinate.zero _ hlt).2
  · match hq : object.polygon, hlen with
    | [q], _ =>
      have h := hidx 0 _ q rfl (by rw [hq]; rfl)
      have h0 := h 0
      have h1 := h 1
      have h2 := h 2
      have e0 : q.index0 = 0 := h0
      have e1 : q.index1 = 1 := h1
      have e2 : q.index2 = 2 := h2
      cases q
      simp only at e0 e1 e2
      rw [e0, e1, e2]

/-- Witness of C28 on the file `scenarioB`, whose lines end with a newline. -/
theorem scenario_position_texture_normal_witness :
    countKind LineKind.position scenarioB = 3 ∧ countKind LineKind.texcoord scenarioB = 3
    ∧ (scenarioB.filter fun l => decide (classifyLine l = LineKind.face))
      = [faceLinePTN 1 1 1 2 2 1 3 3 1 ['\n']]
    ∧ ∃ object : Object3D ℚ,
      ReadOBJFile Rat.sqrt (some scenarioB) true false ⟨0, 0, 0, 0, 0, 0⟩
        = LoadOutcome.returned (some object)
      ∧ object.num_vertices = 3
      ∧ object.vertex = positionsOf scenarioB
      ∧ object.tex_coords = some (texcoordsOf scenarioB)
      ∧ object.num_polygons = 1
      ∧ object.polygon = [⟨0, 1, 2⟩] :=
  have hline : "f 1/1/1 2/2/1 3/3/1\n".toList = faceLinePTN 1 1 1 2 2 1 3 3 1 ['\n'] := by
    simp [faceLinePTN, decimal]
    decide
  have hf : (scenarioB.filter fun l => decide (classifyLine l = LineKind.face))
      = [faceLinePTN 1 1 1 2 2 1 3 3 1 ['\n']] := by
    rw [← hline]
    decide
  ⟨by decide, by decide, hf,
    scenario_position_texture_normal Rat.sqrt scenarioB ['\n'] false ⟨0, 0, 0, 0, 0, 0⟩
      (by decide) (by decide) hf (by decide) (by decide)⟩

end LoadClaims

/-! ## `NormalizeVector`, the two adjacency policies, matrices -/

section MathClaims

variable {F : Type} [Field F]

theorem MultiplyMatrix_eq (m1 m2 : Matrix3D F) :
    MultiplyMatrix m1 m2
      = ⟨m1._00 * m2._00 + m1._01 * m2._10 + m1._02 * m2._20 + m1._03 * m2._30,
          m1._00 * m2._01 + m1._01 * m2._11 + m1._02 * m2._21 + m1._03 * m2._31,
          m1._00 * m2._02 + m1._01 * m2._12 + m1._02 * m2._22 + m1._03 * m2._32,
          m1._00 * m2._03 + m1._01 * m2._13 + m1._02 * m2._23 + m1._03 * m2._33,
          m1._10 * m2._00 + m1._11 * m2._10 + m1._12 * m2._20 + m1._13 * m2._30,
          m1._10 * m2._01 + m1._11 * m2._11 + m1._12 * m2._21 + m1._13 * m2._31,
          m1._10 * m2._02 + m1._11 * m2._12 + m1._12 * m2._22 + m1._13 * m2._32,
          m1._10 * m2._03 + m1._11 * m2._13 + m1._12 * m2._23 + m1._13 * m2._33,
          m1._20 * m2._00 + m1._21 * m2._10 + m1._22 * m2._20 + m1._23 * m2._30,
          m1._20 * m2._01 + m1._21 * m2._11 + m1._22 * m2._21 + m1._23 * m2._31,
          m1._20 * m2._02 + m1._21 * m2._12 + m1._22 * m2._22 + m1._23 * m2._32,
          m1._20 * m2._03 + m1._21 * m2._13 + m1._22 * m2._23 + m1._23 * m2._33,
          m1._30 * m2._00 + m1._31 * m2._10 + m1._32 * m2._20 + m1._33 * m2._30,
          m1._30 * m2._01 + m1._31 * m2._11 + m1._32 * m2._21 + m1._33 * m2._31,
          m1._30 * m2._02 + m1._31 * m2._12 + m1._32 * m2._22 + m1._33 * m2._32,
          m1._30 * m2._03 + m1._31 * m2._13 + m1._32 * m2._23 + m1._33 * m2._33⟩ := by
  simp [MultiplyMatrix, Matrix3D.ofFloats, Matrix3D.floats, readNat, List.range_succ,
    List.replicate]

theorem toMatrix_MultiplyMatrix (m1 m2 : Matrix3D F) :
    (MultiplyMatrix m1 m2).toMatrix = m1.toMatrix * m2.toMatrix := by
  have h3 : ((3 : Fin 4) : Nat) = 3 := rfl
  rw [MultiplyMatrix_eq]
  ext i j
  fin_cases i <;> fin_cases j <;>
    simp [Matrix3D.toMatrix, Matrix.mul_apply, Fin.sum_univ_four, Matrix3D.floats, readNat, h3]

/-- C39. `MultiplyMatrix (m1, m2)` is the 4x4 matrix product `m1 * m2`, and
for a matrix `m2` whose last row is `(0,0,0,1)`, `MultiplyVectorMatrix` with
the product applies `m2` first and then `m1`. -/
theorem matrix_product_composition (v : Vector3D F) (m1 m2 : Matrix3D F)
    (hrow : m2._30 = 0 ∧ m2._31 = 0 ∧ m2._32 = 0 ∧ m2._33 = 1) :
    (MultiplyMatrix m1 m2).toMatrix = m1.toMatrix * m2.toMatrix
    ∧ MultiplyVectorMatrix v (MultiplyMatrix m1 m2)
        = MultiplyVectorMatrix (MultiplyVectorMatrix v m2) m1 := by
  refine ⟨toMatrix_MultiplyMatrix m1 m2, ?_⟩
  obtain ⟨h0, h1, h2, h3⟩ := hrow
  rw [MultiplyMatrix_eq]
  simp only [MultiplyVectorMatrix, h0, h1, h2, h3, Vector3D.mk.injEq]
  refine ⟨?_, ?_, ?_⟩ <;> ring

/-- Witness of C39: a translation applied before a matrix with a general
last row. -/
theorem matrix_product_composition_witness :
    (translateMatrix._30 = 0 ∧ translateMatrix._31 = 0 ∧ translateMatrix._32 = 0
      ∧ translateMatrix._33 = 1)
    ∧ MultiplyVectorMatrix (⟨1, 2, 3⟩ : Vector3D ℚ)
        (MultiplyMatrix projectiveMatrix translateMatrix)
      = MultiplyVectorMatrix (MultiplyVectorMatrix ⟨1, 2, 3⟩ translateMatrix) projectiveMatrix :=
  ⟨by decide,
    (matrix_product_composition ⟨1, 2, 3⟩ projectiveMatrix translateMatrix (by decide)).2⟩

/-- C31. `NormalizeVector` in real arithmetic: the result is `v` when the
magnitude of `v` is 0, and otherwise `v` multiplied by `1 / magnitude`, the
only division, which is by a number other than 0; normalising the result again
returns it unchanged. -/
theorem normalize_vector_cases (v : Vector3D ℝ) :
    (VectorMagnitude Real.sqrt v = 0 → NormalizeVector Real.sqrt v = v)
    ∧ (VectorMagnitude Real.sqrt v ≠ 0 →
        NormalizeVector Real.sqrt v
          = ⟨v.x * (1 / VectorMagnitude Real.sqrt v), v.y * (1 / VectorMagnitude Real.sqrt v),
              v.z * (1 / VectorMagnitude Real.sqrt v)⟩)
    ∧ NormalizeVector Real.sqrt (NormalizeVector Real.sqrt v) = NormalizeVector Real.sqrt v := by
  refine ⟨?_, ?_, ?_⟩
  · intro h
    unfold NormalizeVector
    simp only [h, if_true]
  · intro h
    unfold NormalizeVector
    simp only [if_neg h, MultiplyScalarVector]
  · by_cases hv : v = Vector3D.zero
    · subst hv
      rw [NormalizeVector_zero, NormalizeVector_zero]
    · have h1 := VectorMagnitude_NormalizeVector v hv
      have hne : VectorMagnitude Real.sqrt (NormalizeVector Real.sqrt v) ≠ 0 := by
        rw [h1]
        exact one_ne_zero
      generalize NormalizeVector Real.sqrt v = w at h1 hne
      unfold NormalizeVector
      simp only [h1, MultiplyScalarVector, div_one, mul_one, one_ne_zero, if_false]

theorem readNat_inj_of_nodup {α : Type} (d : α) (l : List α) (h : l.Nodup) (a b : Nat)
    (ha : a < l.length) (hb : b < l.length) : readNat d l a = readNat d l b ↔ a = b := by
  have e1 : readNat d l a = l[a] := by
    simp [readNat, List.getD_eq_getElem?_getD, List.getElem?_eq_getElem ha]
  have e2 : readNat d l b = l[b] := by
    simp [readNat, List.getD_eq_getElem?_getD, List.getElem?_eq_getElem hb]
  rw [e1, e2]
  exact h.getElem_inj_iff

theorem adjacentPolygon_smooth_of_strict [DecidableEq F] (object : Object3D F) (i : Nat)
    (q : Polygon3D) (h : adjacentPolygon object false i q = true) :
    adjacentPolygon object true i q = true := by
  rw [adjacentPolygon_strict] at h
  have h' : q.index0 = i ∨ q.index1 = i ∨ q.index2 = i := by simpa using h
  simp only [adjacentPolygon, if_true, List.any_cons, List.any_nil, Bool.or_false,
    Bool.or_eq_true, decide_eq_true_eq]
  rcases h' with e | e | e
  · exact Or.inl (by rw [e])
  · exact Or.inr (Or.inl (by rw [e]))
  · exact Or.inr (Or.inr (by rw [e]))

/-- C36. For a mesh whose triangle indices are in bounds and a vertex `i`,
every triangle that contributes to vertex `i` under the strict policy (a
corner index equals `i`) contributes to it under the position-smoothed policy
(a corner position equals the position of vertex `i`). -/
theorem strict_contributors_subset_smooth [DecidableEq F] (object : Object3D F) (i : Nat)
    (hbounds : (∀ j : Nat, j < object.num_polygons →
        (readNat ⟨0, 0, 0⟩ object.polygon j).index0 < object.vertex.length
        ∧ (readNat ⟨0, 0, 0⟩ object.polygon j).index1 < object.vertex.length
        ∧ (readNat ⟨0, 0, 0⟩ object.polygon j).index2 < object.vertex.length)
      ∧ i < object.vertex.length) :
    (∀ j : Nat, j < object.num_polygons →
      adjacentPolygon object false i (readNat ⟨0, 0, 0⟩ object.polygon j) = true →
      adjacentPolygon object true i (readNat ⟨0, 0, 0⟩ object.polygon j) = true)
    ∧ ((List.range object.num_polygons).filter fun j =>
          adjacentPolygon object false i (readNat ⟨0, 0, 0⟩ object.polygon j))
        ⊆ ((List.range object.num_polygons).filter fun j =>
          adjacentPolygon object true i (readNat ⟨0, 0, 0⟩ object.polygon j))
    ∧ (∀ j : Nat, j < object.num_polygons →
        (adjacentPolygon object true i (readNat ⟨0, 0, 0⟩ object.polygon j) = true ↔
          object.vertex[(readNat ⟨0, 0, 0⟩ object.polygon j).index0]? = object.vertex[i]?
          ∨ object.vertex[(readNat ⟨0, 0, 0⟩ object.polygon j).index1]? = object.vertex[i]?
          ∨ object.vertex[(readNat ⟨0, 0, 0⟩ object.polygon j).index2]? = object.vertex[i]?)) := by
  obtain ⟨hb, hi⟩ := hbounds
  have hread : ∀ a : Nat, a < object.vertex.length →
      (readNat Vector3D.zero object.vertex a = readNat Vector3D.zero object.vertex i
        ↔ object.vertex[a]? = object.vertex[i]?) := by
    intro a ha
    simp [readNat, List.getD_eq_getElem?_getD, List.getElem?_eq_getElem ha,
      List.getElem?_eq_getElem hi]
  refine ⟨fun j _ h => adjacentPolygon_smooth_of_strict object i _ h, ?_, ?_⟩
  · intro j hj
    rw [List.mem_filter] at hj ⊢
    exact ⟨hj.1, adjacentPolygon_smooth_of_strict object i _ hj.2⟩
  · intro j hj
    obtain ⟨h0, h1, h2⟩ := hb j hj
    simp only [adjacentPolygon, if_true, List.any_cons, List.any_nil, Bool.or_false,
      Bool.or_eq_true, decide_eq_true_eq, hread _ h0, hread _ h1, hread _ h2]

/-- Witness of C36 on vertex 0 of a mesh whose vertices 0 and 2 have the same
position. -/
theorem strict_contributors_subset_smooth_witness :
    ((∀ j : Nat, j < seamObject.num_polygons →
        (readNat ⟨0, 0, 0⟩ seamObject.polygon j).index0 < seamObject.vertex.length
        ∧ (readNat ⟨0, 0, 0⟩ seamObject.polygon j).index1 < seamObject.vertex.length
        ∧ (readNat ⟨0, 0, 0⟩ seamObject.polygon j).index2 < seamObject.vertex.length)
      ∧ 0 < seamObject.vertex.length)
    ∧ ((List.range seamObject.num_polygons).filter fun j =>
          adjacentPolygon seamObject false 0 (readNat ⟨0, 0, 0⟩ seamObject.polygon j))
        ⊆ ((List.range seamObject.num_polygons).filter fun j =>
          adjacentPolygon seamObject true 0 (readNat ⟨0, 0, 0⟩ seamObject.polygon j)) :=
  have hb : (∀ j : Nat, j < seamObject.num_polygons →
        (readNat ⟨0, 0, 0⟩ seamObject.polygon j).index0 < seamObject.vertex.length
        ∧ (readNat ⟨0, 0, 0⟩ seamObject.polygon j).index1 < seamObject.vertex.length
        ∧ (readNat ⟨0, 0, 0⟩ seamObject.polygon j).index2 < seamObject.vertex.length)
      ∧ 0 < seamObject.vertex.length := by decide
  ⟨hb, (strict_contributors_subset_smooth seamObject 0 hb).2.1⟩

/-- C37. For a mesh whose triangle indices are in bounds and whose vertex
positions are pairwise distinct, `ComputeVertexNormals` gives the same result
with `smooth_discontinuous_vertices = true` as with `false`. -/
theorem distinct_positions_policies_agree [DecidableEq F] (sqrtf : F → F)
    (object : Object3D F)
    (hlen : object.vertex.length = object.num_vertices)
    (hbounds : ∀ j : Nat, j < object.num_polygons →
      (readNat ⟨0, 0, 0⟩ object.polygon j).index0 < object.num_vertices
      ∧ (readNat ⟨0, 0, 0⟩ object.polygon j).index1 < object.num_vertices
      ∧ (readNat ⟨0, 0, 0⟩ object.polygon j).index2 < object.num_vertices)
    (hdistinct : object.vertex.Nodup) :
    ComputeVertexNormals sqrtf object true = ComputeVertexNormals sqrtf object false
    ∧ ∀ i : Nat, i < object.num_vertices →
        accumulateNormals object true i = accumulateNormals object false i := by
  have hadj : ∀ i : Nat, i < object.num_vertices → ∀ j : Nat, j < object.num_polygons →
      adjacentPolygon object true i (readNat ⟨0, 0, 0⟩ object.polygon j)
        = adjacentPolygon object false i (readNat ⟨0, 0, 0⟩ object.polygon j) := by
    intro i hi j hj
    obtain ⟨h0, h1, h2⟩ := hbounds j hj
    rw [← hlen] at hi h0 h1 h2
    simp only [adjacentPolygon, if_true, Bool.false_eq_true, if_false, List.any_cons,
      List.any_nil,
      readNat_inj_of_nodup Vector3D.zero object.vertex hdistinct _ i h0 hi,
      readNat_inj_of_nodup Vector3D.zero object.vertex hdistinct _ i h1 hi,
      readNat_inj_of_nodup Vector3D.zero object.vertex hdistinct _ i h2 hi]
  have hacc : ∀ i : Nat, i < object.num_vertices →
      accumulateNormals object true i = accumulateNormals object false i := by
    intro i hi
    have hf : ((List.range object.num_polygons).filter fun j =>
          adjacentPolygon object true i (readNat ⟨0, 0, 0⟩ object.polygon j))
        = ((List.range object.num_polygons).filter fun j =>
          adjacentPolygon object false i (readNat ⟨0, 0, 0⟩ object.polygon j)) :=
      List.filter_congr fun j hj => hadj i hi j (List.mem_range.mp hj)
    rw [accumulateNormals_eq, accumulateNormals_eq, hf]
  refine ⟨?_, hacc⟩
  unfold ComputeVertexNormals
  have hmap : (List.range object.num_vertices).map (vertexNormal sqrtf object true)
      = (List.range object.num_vertices).map (vertexNormal sqrtf object false) := by
    apply List.map_congr_left
    intro i hi
    unfold vertexNormal
    rw [hacc i (List.mem_range.mp hi)]
  rw [hmap]

/-- Witness of C37 on a mesh of four distinct positions. -/
theorem distinct_positions_policies_agree_witness :
    (isolatedObject ℚ).vertex.length = (isolatedObject ℚ).num_vertices
    ∧ (isolatedObject ℚ).vertex.Nodup
    ∧ ComputeVertexNormals Rat.sqrt (isolatedObject ℚ) true
      = ComputeVertexNormals Rat.sqrt (isolatedObject ℚ) false :=
  have hb : ∀ j : Nat, j < (isolatedObject ℚ).num_polygons →
      (readNat ⟨0, 0, 0⟩ (isolatedObject ℚ).polygon j).index0 < (isolatedObject ℚ).num_vertices
      ∧ (readNat ⟨0, 0, 0⟩ (isolatedObject ℚ).polygon j).index1
          < (isolatedObject ℚ).num_vertices
      ∧ (readNat ⟨0, 0, 0⟩ (isolatedObject ℚ).polygon j).index2
          < (isolatedObject ℚ).num_vertices := by decide
  ⟨by decide, by decide,
    (distinct_positions_policies_agree Rat.sqrt (isolatedObject ℚ) (by decide) hb
      (by decide)).1⟩

end MathClaims

/-! ## The output vertices of `Convert_Data_With_Texcoords` and the stored indices -/

section OutputVertices

variable {F : Type} [Field F]

theorem addSigs_cons (l : List SrcPolyVertex) (c : SrcPolyVertex) (cs : List SrcPolyVertex) :
    addSigs l (c :: cs) = addSigs (addSig l c) cs := rfl

theorem addSigs_eq_firstOccurrences (cs : List SrcPolyVertex) :
    ∀ l : List SrcPolyVertex,
      addSigs l cs = l ++ (firstOccurrences cs).filter fun x => decide (x ∉ l) := by
  induction cs with
  | nil => intro l; simp [addSigs, firstOccurrences]
  | cons c cs ih =>
    intro l
    rw [addSigs_cons, ih]
    by_cases hc : c ∈ l
    · have hf : (firstOccurrences (c :: cs)).filter (fun x => decide (x ∉ l))
          = (firstOccurrences cs).filter fun x => decide (x ∉ l) := by
        simp only [firstOccurrences, List.filter_cons, hc, not_true_eq_false, decide_False,
          Bool.false_eq_true, if_false, List.filter_filter]
        apply List.filter_congr
        intro x _
        by_cases hx : x ∈ l
        · simp [hx]
        · have hne : x ≠ c := fun e => hx (e ▸ hc)
          simp [hx, hne]
      rw [hf]
      simp only [addSig, hc, if_true]
    · have hf : (firstOccurrences (c :: cs)).filter (fun x => decide (x ∉ l))
          = c :: (firstOccurrences cs).filter fun x => decide (x ∉ l ++ [c]) := by
        simp only [firstOccurrences, List.filter_cons, hc, not_false_eq_true, decide_True,
          if_true, List.filter_filter]
        congr 1
        apply List.filter_congr
        intro x _
        by_cases hx : x ∈ l <;> by_cases hne : x = c <;> simp [hx, hne]
      rw [hf]
      simp only [addSig, hc, if_false, List.append_assoc, List.singleton_append]

theorem finalSigs_eq_firstOccurrences (polys : List SrcPoly) :
    addSigs [] (cornerList polys) = firstOccurrences (cornerList polys) := by
  rw [addSigs_eq_firstOccurrences]
  simp

/-- C34. Texcoord mode, order of the output vertices: for every list of face
records the final signature sequence is the list of the corner signatures,
face by face and corner 0, 1, 2 within a face, with every later repetition
removed; the output vertices and texture coordinates are read through it, and
the first corner of the first face is output vertex 0. -/
theorem texcoord_output_order [DecidableEq F] (sqrtf : F → F) (src_vertices : List (Vector3D F))
    (src_texcoords : List (UVCoordinate F)) (src_polys : List SrcPoly) (smooth : Bool) :
    ∃ (st : GxState F) (object : Object3D F),
      buildGx src_vertices src_texcoords src_polys = some (st, object.polygon)
      ∧ Convert_Data_With_Texcoords sqrtf src_vertices src_texcoords src_polys smooth
          = some object
      ∧ st.tmp_gx_vertices_sig = firstOccurrences (cornerList src_polys)
      ∧ object.vertex = (firstOccurrences (cornerList src_polys)).map
          (fun c => readArr Vector3D.zero src_vertices c.v)
      ∧ object.tex_coords = some ((firstOccurrences (cornerList src_polys)).map
          (fun c => readArr UVCoordinate.zero src_texcoords c.t))
      ∧ ∀ (p : SrcPoly) (rest : List SrcPoly), src_polys = p :: rest →
          st.tmp_gx_vertices_sig[0]? = some p.vdata0
          ∧ object.vertex[0]? = some (readArr Vector3D.zero src_vertices p.vdata0.v)
          ∧ ∃ q : Polygon3D, object.polygon[0]? = some q ∧ q.index0 = 0 := by
  obtain ⟨obj, hc, hb, -, -, hv, ht, hlen, hidx⟩ :=
    Convert_Data_With_Texcoords_spec sqrtf src_vertices src_texcoords src_polys smooth
  rw [finalSigs_eq_firstOccurrences] at hv ht hidx
  refine ⟨_, obj, hb, hc, ?_, hv, ht, ?_⟩
  · rw [gxOf_sig, finalSigs_eq_firstOccurrences]
  · intro p rest hp
    subst hp
    have h0 : (firstOccurrences (cornerList (p :: rest)))[0]? = some p.vdata0 := by
      simp [cornerList, firstOccurrences]
    refine ⟨?_, ?_, ?_⟩
    · rw [gxOf_sig, finalSigs_eq_firstOccurrences]
      exact h0
    · rw [hv, List.getElem?_map, h0]
      rfl
    · have hpos : 0 < obj.polygon.length := by
        rw [hlen]
        exact Nat.succ_pos _
      refine ⟨obj.polygon[0], List.getElem?_eq_getElem hpos, ?_⟩
      have h := hidx 0 p obj.polygon[0] (by simp) (List.getElem?_eq_getElem hpos) 0
      have hi : (firstOccurrences (cornerList (p :: rest))).indexOf (p.vdata 0) = 0 := by
        show (p.vdata0 :: _).indexOf p.vdata0 = 0
        exact List.indexOf_cons_self _ _
      rw [hi] at h
      exact h

theorem count_pos_of_strict [DecidableEq F] (object : Object3D F) (smooth : Bool) (k i : Nat)
    (q : Polygon3D) (hi : i < object.num_polygons) (hq : object.polygon[i]? = some q)
    (hk : q.index0 = k ∨ q.index1 = k ∨ q.index2 = k) :
    1 ≤ (accumulateNormals object smooth k).2 := by
  have hread : readNat (⟨0, 0, 0⟩ : Polygon3D) object.polygon i = q := by
    simp [readNat, List.getD_eq_getElem?_getD, hq]
  have hstrict : adjacentPolygon object false k q = true := by
    rw [adjacentPolygon_strict]
    simpa using hk
  have hadj : adjacentPolygon object smooth k q = true := by
    cases smooth
    · exact hstrict
    · exact adjacentPolygon_smooth_of_strict object k q hstrict
  rw [accumulateNormals_eq]
  exact List.length_pos_of_mem
    (List.mem_filter.mpr ⟨List.mem_range.mpr hi, by rw [hread]; exact hadj⟩)

/-- C35. Texcoord mode, for face records with at most 65536 distinct
signatures: every output vertex is referenced by a corner of some triangle,
and under either adjacency policy `ComputeVertexNormals` counts at least one
contributing face for it. -/
theorem texcoord_every_vertex_referenced [DecidableEq F] (sqrtf : F → F)
    (src_vertices : List (Vector3D F)) (src_texcoords : List (UVCoordinate F))
    (src_polys : List SrcPoly) (smooth : Bool)
    (hcount : (cornerList src_polys).toFinset.card ≤ 65536) :
    ∃ object : Object3D F,
      Convert_Data_With_Texcoords sqrtf src_vertices src_texcoords src_polys smooth
          = some object
      ∧ ∀ k : Nat, k < object.num_vertices →
          (∃ (i : Nat) (q : Polygon3D) (j : Fin 3),
            i < object.num_polygons ∧ object.polygon[i]? = some q ∧ q.index j = k)
          ∧ ∀ policy : Bool, 1 ≤ (accumulateNormals object policy k).2 := by
  obtain ⟨obj, hc, -, hnv, hnp, -, -, hlen, hidx⟩ :=
    Convert_Data_With_Texcoords_spec sqrtf src_vertices src_texcoords src_polys smooth
  refine ⟨obj, hc, ?_⟩
  intro k hk
  rw [hnv] at hk
  have hk16 : k < 65536 := by
    have := length_finalSigs src_polys
    omega
  have hmem : (addSigs [] (cornerList src_polys))[k] ∈ addSigs [] (cornerList src_polys) :=
    List.getElem_mem hk
  obtain ⟨p, hp, j, hpj⟩ := (mem_finalSigs src_polys _).mp hmem
  obtain ⟨i, hi, hpi⟩ := List.getElem_of_mem hp
  have hi' : i < obj.polygon.length := by rw [hlen]; exact hi
  have hq : obj.polygon[i]? = some obj.polygon[i] := List.getElem?_eq_getElem hi'
  have hstored : obj.polygon[i].index j = k := by
    rw [hidx i p _ (by rw [List.getElem?_eq_getElem hi, hpi]) hq j, hpj,
      List.indexOf_getElem (nodup_finalSigs src_polys)]
    exact Nat.mod_eq_of_lt hk16
  have hinp : i < obj.num_polygons := by rw [hnp]; exact hi
  refine ⟨⟨i, _, j, hinp, hq, hstored⟩, ?_⟩
  intro policy
  apply count_pos_of_strict obj policy k i _ hinp hq
  have hj : ∀ (q : Polygon3D) (j : Fin 3), q.index j = k →
      q.index0 = k ∨ q.index1 = k ∨ q.index2 = k := by
    intro q j h
    fin_cases j
    · exact Or.inl h
    · exact Or.inr (Or.inl h)
    · exact Or.inr (Or.inr h)
  exact hj _ j hstored

/-- Witness of C35 on the unit square with a texture seam (6 signatures). -/
theorem texcoord_every_vertex_referenced_witness :
    (cornerList squarePolys).toFinset.card ≤ 65536
    ∧ ∃ object : Object3D ℚ,
      Convert_Data_With_Texcoords Rat.sqrt squareVertices squareTexcoords squarePolys false
          = some object
      ∧ ∀ k : Nat, k < object.num_vertices →
          (∃ (i : Nat) (q : Polygon3D) (j : Fin 3),
            i < object.num_polygons ∧ object.polygon[i]? = some q ∧ q.index j = k)
          ∧ ∀ policy : Bool, 1 ≤ (accumulateNormals object policy k).2 :=
  ⟨by decide,
    texcoord_every_vertex_referenced Rat.sqrt squareVertices squareTexcoords squarePolys false
      (by decide)⟩

theorem storedTriangle_index (p : SrcPoly) (j : Fin 3) :
    (storedTriangle p).index j = intToUShort (p.vdata j).v := by
  fin_cases j <;> rfl

end OutputVertices

/-! ## The two passes of `ReadOBJFile` over the file -/

section TwoPass

variable {F : Type} [Field F]

theorem readPass_counters (load_texcoords : Bool) (lines : List (List Char)) :
    ∀ st : ReadState F,
      (readPass load_texcoords st lines).v = st.v + countKind LineKind.position lines
      ∧ (readPass load_texcoords st lines).p = st.p + countKind LineKind.face lines
      ∧ (readPass load_texcoords st lines).t
          = st.t + (if load_texcoords then countKind LineKind.texcoord lines else 0)
      ∧ (readPass load_texcoords st lines).src_vertices.length = st.src_vertices.length
      ∧ (readPass load_texcoords st lines).src_polys.length = st.src_polys.length
      ∧ (readPass load_texcoords st lines).src_texcoords.length = st.src_texcoords.length := by
  induction lines with
  | nil => intro st; simp [readPass, countKind]
  | cons line rest ih =>
    intro st
    rw [readPass_cons, countKind_cons, countKind_cons, countKind_cons]
    obtain ⟨h1, h2, h3, h4, h5, h6⟩ := ih (readLine load_texcoords st line)
    rw [h1, h2, h3, h4, h5, h6]
    unfold readLine
    cases hk : classifyLine line <;> cases load_texcoords <;>
      simp <;> omega

theorem ReadOBJFile_readPass [DecidableEq F] (sqrtf : F → F) (lines : List (List Char))
    (load_texcoords smooth : Bool) (vars0 : ScanVars)
    (hv : (countPass lines).src_num_vertices ≠ 0) (hp : (countPass lines).src_num_polys ≠ 0)
    (ht : load_texcoords = true → (countPass lines).src_num_texcoords ≠ 0) :
    ReadOBJFile sqrtf (some lines) load_texcoords smooth vars0
      = if load_texcoords then
          callConvertWithTexcoords sqrtf
            (readPass load_texcoords
              (allocatedState (countPass lines) load_texcoords vars0 : ReadState F) lines).src_vertices
            (readPass load_texcoords
              (allocatedState (countPass lines) load_texcoords vars0 : ReadState F) lines).src_texcoords
            (readPass load_texcoords
              (allocatedState (countPass lines) load_texcoords vars0 : ReadState F) lines).src_polys smooth
        else
          LoadOutcome.returned (some (Convert_Data sqrtf
            (readPass load_texcoords
              (allocatedState (countPass lines) load_texcoords vars0 : ReadState F) lines).src_vertices
            (readPass load_texcoords
              (allocatedState (countPass lines) load_texcoords vars0 : ReadState F) lines).src_polys
            smooth)) := by
  have herr : (Option.isNone (some lines) || decide ((countPass lines).src_num_vertices = 0)
      || decide ((countPass lines).src_num_polys = 0)
      || (load_texcoords && decide ((countPass lines).src_num_texcoords = 0))) = false := by
    cases hl : load_texcoords with
    | false => simp [hv, hp]
    | true => simp [hv, hp, ht hl]
  unfold ReadOBJFile
  simp only [herr]
  rfl

/-- C32. The two passes of `ReadOBJFile` agree.  For every file that passes
the check of the required data, the counters are the numbers of lines of each
kind, the reading loop ends with `v = src_num_vertices`, `p = src_num_polys`
and, with `load_texcoords`, `t = src_num_texcoords`, the arrays handed to the
conversion hold exactly the records of the file, and at every line that is
stored the write index `v`, `p` or `t` is below the size of its array. -/
theorem two_pass_consistency [DecidableEq F] (sqrtf : F → F) (lines : List (List Char))
    (load_texcoords smooth : Bool) (vars0 : ScanVars)
    (hv : (countPass lines).src_num_vertices ≠ 0) (hp : (countPass lines).src_num_polys ≠ 0)
    (ht : load_texcoords = true → (countPass lines).src_num_texcoords ≠ 0) :
    (ReadOBJFile sqrtf (some lines) load_texcoords smooth vars0
      = if load_texcoords then
          callConvertWithTexcoords sqrtf
            (readPass load_texcoords
              (allocatedState (countPass lines) load_texcoords vars0 : ReadState F) lines).src_vertices
            (readPass load_texcoords
              (allocatedState (countPass lines) load_texcoords vars0 : ReadState F) lines).src_texcoords
            (readPass load_texcoords
              (allocatedState (countPass lines) load_texcoords vars0 : ReadState F) lines).src_polys smooth
        else
          LoadOutcome.returned (some (Convert_Data sqrtf
            (readPass load_texcoords
              (allocatedState (countPass lines) load_texcoords vars0 : ReadState F) lines).src_vertices
            (readPass load_texcoords
              (allocatedState (countPass lines) load_texcoords vars0 : ReadState F) lines).src_polys
            smooth)))
    ∧ countPass lines
        = ⟨countKind LineKind.position lines, countKind LineKind.texcoord lines,
            countKind LineKind.face lines⟩
    ∧ (readPass load_texcoords
          (allocatedState (countPass lines) load_texcoords vars0 : ReadState F) lines).v
        = (countPass lines).src_num_vertices
    ∧ (readPass load_texcoords
          (allocatedState (countPass lines) load_texcoords vars0 : ReadState F) lines).p
        = (countPass lines).src_num_polys
    ∧ (load_texcoords = true →
        (readPass load_texcoords
          (allocatedState (countPass lines) load_texcoords vars0 : ReadState F) lines).t
        = (countPass lines).src_num_texcoords)
    ∧ (readPass load_texcoords
          (allocatedState (countPass lines) load_texcoords vars0 : ReadState F)
          lines).src_vertices = positionsOf lines
    ∧ (readPass load_texcoords
          (allocatedState (countPass lines) load_texcoords vars0 : ReadState F)
          lines).src_polys = facesOf load_texcoords vars0 lines
    ∧ (load_texcoords = true →
        (readPass load_texcoords
          (allocatedState (countPass lines) load_texcoords vars0 : ReadState F)
          lines).src_texcoords = texcoordsOf lines)
    ∧ ∀ (pre : List (List Char)) (line : List Char) (post : List (List Char)),
        lines = pre ++ line :: post →
        (classifyLine line = LineKind.position →
          (readPass load_texcoords
            (allocatedState (countPass lines) load_texcoords vars0 : ReadState F) pre).v
          < (readPass load_texcoords
            (allocatedState (countPass lines) load_texcoords vars0 : ReadState F)
              pre).src_vertices.length
          ∧ (readPass load_texcoords
            (allocatedState (countPass lines) load_texcoords vars0 : ReadState F)
              pre).src_vertices.length = (countPass lines).src_num_vertices)
        ∧ (classifyLine line = LineKind.face →
          (readPass load_texcoords
            (allocatedState (countPass lines) load_texcoords vars0 : ReadState F) pre).p
          < (readPass load_texcoords
            (allocatedState (countPass lines) load_texcoords vars0 : ReadState F)
              pre).src_polys.length
          ∧ (readPass load_texcoords
            (allocatedState (countPass lines) load_texcoords vars0 : ReadState F)
              pre).src_polys.length = (countPass lines).src_num_polys)
        ∧ (classifyLine line = LineKind.texcoord → load_texcoords = true →
          (readPass load_texcoords
            (allocatedState (countPass lines) load_texcoords vars0 : ReadState F) pre).t
          < (readPass load_texcoords
            (allocatedState (countPass lines) load_texcoords vars0 : ReadState F)
              pre).src_texcoords.length
          ∧ (readPass load_texcoords
            (allocatedState (countPass lines) load_texcoords vars0 : ReadState F)
              pre).src_texcoords.length = (countPass lines).src_num_texcoords) := by
  have hcount := countPass_eq lines
  have hfin := readPass_counters load_texcoords lines
    (allocatedState (countPass lines) load_texcoords vars0 : ReadState F)
  have harr : (readPass load_texcoords
        (allocatedState (countPass lines) load_texcoords vars0 : ReadState F)
        lines).src_vertices = positionsOf lines
      ∧ (readPass load_texcoords
        (allocatedState (countPass lines) load_texcoords vars0 : ReadState F)
        lines).src_polys = facesOf load_texcoords vars0 lines
      ∧ (load_texcoords = true →
        (readPass load_texcoords
          (allocatedState (countPass lines) load_texcoords vars0 : ReadState F)
          lines).src_texcoords = texcoordsOf lines) := by
    have h := readPass_arrays load_texcoords lines ([] : List (Vector3D F))
      (countKind LineKind.position lines)
      (if load_texcoords then
        List.replicate (countKind LineKind.texcoord lines) UVCoordinate.zero else [])
      [] (countKind LineKind.texcoord lines) [] (countKind LineKind.face lines) vars0
      (Nat.le_refl _) (Nat.le_refl _) (fun hl => ⟨by simp [hl], Nat.le_refl _⟩)
    simp only [List.nil_append, List.length_nil, Nat.sub_self, List.replicate_zero,
      List.append_nil] at h
    have hst : (allocatedState (countPass lines) load_texcoords vars0 : ReadState F)
        = ⟨List.replicate (countKind LineKind.position lines) Vector3D.zero,
            if load_texcoords then
              List.replicate (countKind LineKind.texcoord lines) UVCoordinate.zero else [],
            List.replicate (countKind LineKind.face lines) ⟨⟨0, 0⟩, ⟨0, 0⟩, ⟨0, 0⟩⟩, 0, 0, 0,
            vars0⟩ := by
      rw [hcount]
      rfl
    rw [hst]
    exact h
  refine ⟨ReadOBJFile_readPass sqrtf lines load_texcoords smooth vars0 hv hp ht, hcount, ?_, ?_,
    ?_, harr.1, harr.2.1, harr.2.2, ?_⟩
  · rw [hfin.1, hcount]
    simp [allocatedState]
  · rw [hfin.2.1, hcount]
    simp [allocatedState]
  · intro hl
    rw [hfin.2.2.1, hcount, hl]
    simp [allocatedState]
  · intro pre line post hsplit
    have hpre := readPass_counters load_texcoords pre
      (allocatedState (countPass lines) load_texcoords vars0 : ReadState F)
    have hk : ∀ k : LineKind, classifyLine line = k →
        countKind k pre < countKind k lines := by
      intro k hk
      rw [hsplit]
      unfold countKind
      rw [List.filter_append, List.length_append, List.filter_cons_of_pos (by simpa using hk),
        List.length_cons]
      omega
    refine ⟨?_, ?_, ?_⟩
    · intro hc
      have := hk _ hc
      rw [hpre.1, hpre.2.2.2.1]
      simp only [allocatedState, List.length_replicate, hcount, Nat.zero_add]
      exact ⟨this, trivial⟩
    · intro hc
      have := hk _ hc
      rw [hpre.2.1, hpre.2.2.2.2.1]
      simp only [allocatedState, List.length_replicate, hcount, Nat.zero_add]
      exact ⟨this, trivial⟩
    · intro hc hl
      have := hk _ hc
      rw [hpre.2.2.1, hpre.2.2.2.2.2]
      simp only [allocatedState, hl, if_true, List.length_replicate, hcount, Nat.zero_add]
      exact ⟨this, trivial⟩

/-- Witness of C32 on the file of scenario B, with texcoords. -/
theorem two_pass_consistency_witness :
    (countPass scenarioB).src_num_vertices ≠ 0 ∧ (countPass scenarioB).src_num_polys ≠ 0
    ∧ (countPass scenarioB).src_num_texcoords ≠ 0
    ∧ (readPass true
        (allocatedState (countPass scenarioB) true ⟨0, 0, 0, 0, 0, 0⟩ : ReadState ℚ)
        scenarioB).v = (countPass scenarioB).src_num_vertices
    ∧ (readPass true
        (allocatedState (countPass scenarioB) true ⟨0, 0, 0, 0, 0, 0⟩ : ReadState ℚ)
        scenarioB).p = (countPass scenarioB).src_num_polys :=
  have h := two_pass_consistency Rat.sqrt scenarioB true false ⟨0, 0, 0, 0, 0, 0⟩ (by decide)
    (by decide) (fun _ => by decide)
  ⟨by decide, by decide, by decide, h.2.2.1, h.2.2.2.1⟩

end TwoPass

/-! ## No-texcoord mode: what the mesh does not depend on -/

section IgnoredData

variable {F : Type} [Field F]

end IgnoredData

/-! ## Indices are not checked -/

section UncheckedIndices

variable {F : Type} [Field F]

theorem readPass_allocatedState (load_texcoords : Bool) (lines : List (List Char))
    (vars0 : ScanVars) :
    (readPass load_texcoords
        (allocatedState (countPass lines) load_texcoords vars0 : ReadState F)
        lines).src_vertices = positionsOf lines
    ∧ (readPass load_texcoords
        (allocatedState (countPass lines) load_texcoords vars0 : ReadState F)
        lines).src_polys = facesOf load_texcoords vars0 lines
    ∧ (load_texcoords = true →
      (readPass load_texcoords
        (allocatedState (countPass lines) load_texcoords vars0 : ReadState F)
        lines).src_texcoords = texcoordsOf lines) := by
  have h := readPass_arrays load_texcoords lines ([] : List (Vector3D F))
    (countKind LineKind.position lines)
    (if load_texcoords then
      List.replicate (countKind LineKind.texcoord lines) UVCoordinate.zero else [])
    [] (countKind LineKind.texcoord lines) [] (countKind LineKind.face lines) vars0
    (Nat.le_refl _) (Nat.le_refl _) (fun hl => ⟨by simp [hl], Nat.le_refl _⟩)
  simp only [List.nil_append, List.length_nil, Nat.sub_self, List.replicate_zero,
    List.append_nil] at h
  have hst : (allocatedState (countPass lines) load_texcoords vars0 : ReadState F)
      = ⟨List.replicate (countKind LineKind.position lines) Vector3D.zero,
          if load_texcoords then
            List.replicate (countKind LineKind.texcoord lines) UVCoordinate.zero else [],
          List.replicate (countKind LineKind.face lines) ⟨⟨0, 0⟩, ⟨0, 0⟩, ⟨0, 0⟩⟩, 0, 0, 0,
          vars0⟩ := by
    rw [countPass_eq]
    rfl
  rw [hst]
  exact h

theorem forall_fin_three (P : Fin 3 → Prop) : (∀ j : Fin 3, P j) ↔ P 0 ∧ P 1 ∧ P 2 := by
  constructor
  · intro h
    exact ⟨h 0, h 1, h 2⟩
  · rintro ⟨h0, h1, h2⟩ j
    fin_cases j
    · exact h0
    · exact h1
    · exact h2

theorem Convert_Data_readsInBounds_iff (n : Nat) (polys : List SrcPoly) :
    Convert_Data_readsInBounds n polys = true
      ↔ ∀ p ∈ polys, ∀ j : Fin 3, intToUShort (p.vdata j).v < n := by
  simp only [forall_fin_three]
  induction polys with
  | nil => simp [Convert_Data_readsInBounds, Convert_Data_vertexReads]
  | cons p rest ih =>
    have hstep : Convert_Data_readsInBounds n (p :: rest)
        = (decide (intToUShort p.vdata0.v < n) && (decide (intToUShort p.vdata1.v < n)
          && (decide (intToUShort p.vdata2.v < n) && Convert_Data_readsInBounds n rest))) := by
      simp [Convert_Data_readsInBounds, Convert_Data_vertexReads, List.all_cons,
        Bool.and_assoc]
    rw [hstep]
    simp only [Bool.and_eq_true, decide_eq_true_eq, ih, List.mem_cons, forall_eq_or_imp]
    constructor
    · rintro ⟨h0, h1, h2, hr⟩
      exact ⟨⟨h0, h1, h2⟩, hr⟩
    · rintro ⟨⟨h0, h1, h2⟩, hr⟩
      exact ⟨h0, h1, h2, hr⟩

theorem Convert_Data_With_Texcoords_readsInBounds_iff (nv nt : Nat) (polys : List SrcPoly) :
    Convert_Data_With_Texcoords_readsInBounds nv nt polys = true
      ↔ ∀ p ∈ polys, ∀ j : Fin 3,
          0 ≤ (p.vdata j).v ∧ (p.vdata j).v < (nv : Int) ∧ 0 ≤ (p.vdata j).t
            ∧ (p.vdata j).t < (nt : Int) := by
  unfold Convert_Data_With_Texcoords_readsInBounds
  rw [List.all_eq_true]
  constructor
  · intro h p hp j
    have := h (p.vdata j) ((mem_cornerList polys _).mpr ⟨p, hp, j, rfl⟩)
    simpa using this
  · intro h c hc
    obtain ⟨p, hp, j, hj⟩ := (mem_cornerList polys c).mp hc
    have := h p hp j
    rw [hj] at this
    simpa using this

/-- C24 fails: the file `badIndexFile` has three positions and the face
`f 1 2 9`.  It passes the check of the required data, the reading loop stores
the record `(0, 1, 8)`, and the conversion reads `vertex[8]` of an array of 3
entries: the index is neither refused nor kept from being used.  Likewise with
`load_texcoords = true` for the face `f 1/1 2/2 3/9` with three texcoords (read
of `src_texcoords[8]`) and for the plain face `f 1 2 3` (read of
`src_texcoords[-1]`). -/
theorem index_range_counterexample :
    countPass badTexcoordFile = ⟨3, 3, 1⟩
    ∧ facesOf true ⟨0, 0, 0, 0, 0, 0⟩ badTexcoordFile = [⟨⟨0, 0⟩, ⟨1, 1⟩, ⟨2, 8⟩⟩]
    ∧ loadReadsInBounds badTexcoordFile true ⟨0, 0, 0, 0, 0, 0⟩ = false
    ∧ countPass plainFaceTexcoordFile = ⟨3, 3, 1⟩
    ∧ facesOf true ⟨0, 0, 0, 0, 0, 0⟩ plainFaceTexcoordFile
        = [⟨⟨0, -1⟩, ⟨1, -1⟩, ⟨2, -1⟩⟩]
    ∧ loadReadsInBounds plainFaceTexcoordFile true ⟨0, 0, 0, 0, 0, 0⟩ = false
    ∧ countPass badIndexFile = ⟨3, 0, 1⟩
    ∧ (readPass false
        (allocatedState (countPass badIndexFile) false ⟨0, 0, 0, 0, 0, 0⟩ : ReadState ℚ)
        badIndexFile).src_polys = [⟨⟨0, 0⟩, ⟨1, 0⟩, ⟨8, 0⟩⟩]
    ∧ Convert_Data_vertexReads [⟨⟨0, 0⟩, ⟨1, 0⟩, ⟨8, 0⟩⟩] = [0, 1, 8]
    ∧ Convert_Data_readsInBounds 3 [⟨⟨0, 0⟩, ⟨1, 0⟩, ⟨8, 0⟩⟩] = false
    ∧ loadReadsInBounds badIndexFile false ⟨0, 0, 0, 0, 0, 0⟩ = false := by
  refine ⟨by decide, by decide, by decide, by decide, by decide, by decide, by decide, ?_,
    by decide, by decide, by decide⟩
  rw [(readPass_allocatedState false badIndexFile ⟨0, 0, 0, 0, 0, 0⟩).2.1]
  decide

/-- C24. Index ranges are not checked.  For every file that passes the check
of the required data, in either mode, the reading loop stores every face record
as it is scanned.  The conversion reads inside its arrays exactly when, without
texcoords, every position index of a record, as an `unsigned short`, is below
the number of positions, and with texcoords, every position and texcoord index
of a record is at least 0 and below the number of positions and of texcoords;
in that case the load returns an object whose triangle indices are below its
number of vertices.  For a line `f a b c` with numerals in the range of `int`
the position indices of the record are `a-1`, `b-1`, `c-1`. -/
theorem no_index_range_check [DecidableEq F] (sqrtf : F → F) (lines : List (List Char))
    (load_texcoords smooth : Bool) (vars0 : ScanVars)
    (hv : countKind LineKind.position lines ≠ 0) (hp : countKind LineKind.face lines ≠ 0)
    (ht : load_texcoords = true → countKind LineKind.texcoord lines ≠ 0) :
    (readPass load_texcoords
        (allocatedState (countPass lines) load_texcoords vars0 : ReadState F)
        lines).src_polys = facesOf load_texcoords vars0 lines
    ∧ (loadReadsInBounds lines load_texcoords vars0 = true →
        ∃ object : Object3D F,
          ReadOBJFile sqrtf (some lines) load_texcoords smooth vars0
            = LoadOutcome.returned (some object)
          ∧ object.num_polygons = countKind LineKind.face lines
          ∧ (∀ q ∈ object.polygon, ∀ j : Fin 3, q.index j < object.num_vertices)
          ∧ (load_texcoords = false →
              object.num_vertices = countKind LineKind.position lines
              ∧ object.polygon = (facesOf false vars0 lines).map storedTriangle))
    ∧ (loadReadsInBounds lines false vars0 = true
        ↔ ∀ p ∈ facesOf false vars0 lines, ∀ j : Fin 3,
            intToUShort (p.vdata j).v < countKind LineKind.position lines)
    ∧ (loadReadsInBounds lines true vars0 = true
        ↔ ∀ p ∈ facesOf true vars0 lines, ∀ j : Fin 3,
            0 ≤ (p.vdata j).v ∧ (p.vdata j).v < (countKind LineKind.position lines : Int)
            ∧ 0 ≤ (p.vdata j).t
            ∧ (p.vdata j).t < (countKind LineKind.texcoord lines : Int))
    ∧ ∀ (a b c : Nat) (eol : List Char) (vars : ScanVars),
        a ≤ INT_MAX → b ≤ INT_MAX → c ≤ INT_MAX → '/' ∉ eol →
        (∀ ch, eol.head? = some ch → digitVal ch = none) →
        (ingestFaceLine false vars (faceLinePlain a b c eol)).1
          = ⟨⟨(a : Int) - 1, 0⟩, ⟨(b : Int) - 1, 0⟩, ⟨(c : Int) - 1, 0⟩⟩ := by
  have hfalse : loadReadsInBounds lines false vars0 = true
      ↔ ∀ p ∈ facesOf false vars0 lines, ∀ j : Fin 3,
          intToUShort (p.vdata j).v < countKind LineKind.position lines := by
    simp only [loadReadsInBounds, Bool.false_eq_true, if_false]
    exact Convert_Data_readsInBounds_iff _ _
  have htrue : loadReadsInBounds lines true vars0 = true
      ↔ ∀ p ∈ facesOf true vars0 lines, ∀ j : Fin 3,
          0 ≤ (p.vdata j).v ∧ (p.vdata j).v < (countKind LineKind.position lines : Int)
          ∧ 0 ≤ (p.vdata j).t
          ∧ (p.vdata j).t < (countKind LineKind.texcoord lines : Int) := by
    simp only [loadReadsInBounds, if_true]
    exact Convert_Data_With_Texcoords_readsInBounds_iff _ _ _
  refine ⟨(readPass_allocatedState load_texcoords lines vars0).2.1, ?_, hfalse, htrue, ?_⟩
  · intro hin
    have hload := ReadOBJFile_ok sqrtf lines load_texcoords smooth vars0 hv hp ht
    cases load_texcoords with
    | false =>
      rw [if_neg (by decide)] at hload
      have hpoly : (Convert_Data sqrtf (positionsOf lines) (facesOf false vars0 lines)
          smooth).polygon = (facesOf false vars0 lines).map storedTriangle :=
        Convert_Data_polygon sqrtf _ _ smooth
      have hnv : (Convert_Data sqrtf (positionsOf lines) (facesOf false vars0 lines)
          smooth).num_vertices = countKind LineKind.position lines :=
        length_positionsOf lines
      refine ⟨_, hload, length_facesOf false lines vars0, ?_, fun _ => ⟨hnv, hpoly⟩⟩
      intro q hq j
      rw [hpoly, List.mem_map] at hq
      obtain ⟨p, hp', hpq⟩ := hq
      rw [← hpq, storedTriangle_index, hnv]
      exact hfalse.mp hin p hp' j
    | true =>
      rw [if_pos rfl] at hload
      obtain ⟨obj, hc, -, hnv, hnp, -, -, hlen, hidx⟩ :=
        Convert_Data_With_Texcoords_spec sqrtf (positionsOf lines) (texcoordsOf lines)
          (facesOf true vars0 lines) smooth
      refine ⟨obj, ?_, ?_, ?_, fun h => absurd h (by decide)⟩
      · rw [hload]
        unfold callConvertWithTexcoords
        rw [hc]
      · rw [hnp]
        exact length_facesOf true lines vars0
      · intro q hq j
        obtain ⟨i, hi, hqi⟩ := List.getElem_of_mem hq
        have hi' : i < (facesOf true vars0 lines).length := hlen ▸ hi
        have hq' : obj.polygon[i]? = some q := by rw [List.getElem?_eq_getElem hi, hqi]
        rw [hidx i _ q (List.getElem?_eq_getElem hi') hq' j, hnv]
        have hmem : (facesOf true vars0 lines)[i].vdata j
            ∈ addSigs [] (cornerList (facesOf true vars0 lines)) :=
          (mem_finalSigs _ _).mpr ⟨_, List.getElem_mem hi', j, rfl⟩
        exact lt_of_le_of_lt (Nat.mod_le _ _) (List.indexOf_lt_length.mpr hmem)
  · intro a b c eol vars _ _ _ h1 h2
    rw [ingestFaceLine_faceLinePlain false vars a b c eol h1 h2]
    rfl

/-- Witness of C24 on the file of scenario A, whose indices are in range. -/
theorem no_index_range_check_witness :
    countKind LineKind.position scenarioA ≠ 0 ∧ countKind LineKind.face scenarioA ≠ 0
    ∧ loadReadsInBounds scenarioA false ⟨0, 0, 0, 0, 0, 0⟩ = true
    ∧ ∃ object : Object3D ℚ,
      ReadOBJFile Rat.sqrt (some scenarioA) false false ⟨0, 0, 0, 0, 0, 0⟩
        = LoadOutcome.returned (some object)
      ∧ object.num_polygons = countKind LineKind.face scenarioA
      ∧ (∀ q ∈ object.polygon, ∀ j : Fin 3, q.index j < object.num_vertices)
      ∧ ((false : Bool) = false →
          object.num_vertices = countKind LineKind.position scenarioA
          ∧ object.polygon = (facesOf false ⟨0, 0, 0, 0, 0, 0⟩ scenarioA).map storedTriangle) :=
  ⟨by decide, by decide, by decide,
    (no_index_range_check Rat.sqrt scenarioA false false ⟨0, 0, 0, 0, 0, 0⟩ (by decide)
      (by decide) (fun h => absurd h (by decide))).2.1 (by decide)⟩

/-- C26 fails: the face line `f 1/1 2 3` of the file `oneSlashFile` has one
slash and no `//`.  The file passes the check of the required data, and the
reading loop stores for the line the record `(-1, -1, -1)`, made from fields
that were not scanned, and goes on to `p = 1`; the conversion then reads
`vertex[65535]` of an array of 3 entries. -/
theorem unrecognised_face_counterexample :
    classifyLine ("f 1/1 2 3\n".toList) = LineKind.face
    ∧ faceFormat ("f 1/1 2 3\n".toList) = FaceFormat.unrecognised
    ∧ countPass oneSlashFile = ⟨3, 0, 1⟩
    ∧ (readPass false
        (allocatedState (countPass oneSlashFile) false ⟨0, 0, 0, 0, 0, 0⟩ : ReadState ℚ)
        oneSlashFile).src_polys = [⟨⟨-1, 0⟩, ⟨-1, 0⟩, ⟨-1, 0⟩⟩]
    ∧ (readPass false
        (allocatedState (countPass oneSlashFile) false ⟨0, 0, 0, 0, 0, 0⟩ : ReadState ℚ)
        oneSlashFile).p = 1
    ∧ Convert_Data_vertexReads [⟨⟨-1, 0⟩, ⟨-1, 0⟩, ⟨-1, 0⟩⟩] = [65535, 65535, 65535]
    ∧ loadReadsInBounds oneSlashFile false ⟨0, 0, 0, 0, 0, 0⟩ = false := by
  refine ⟨by decide, by decide, by decide, ?_, ?_, by decide, by decide⟩
  · rw [(readPass_allocatedState false oneSlashFile ⟨0, 0, 0, 0, 0, 0⟩).2.1]
    decide
  · rw [(readPass_counters false oneSlashFile _).2.1]
    decide

/-- C26. A face line that does not contain `//` and whose number of slashes
is not 0, 3 or 6 is not refused: no field is scanned, the variables
`tex0 .. vn2` keep their values, and the reading loop stores in `src_polys[p]`
the zero entry after the decrements (every position index `-1`, every texcoord
index `-1` with `load_texcoords` and `0` without) and advances `p`, as it does
for every face line. -/
theorem unrecognised_face_record (load_texcoords : Bool) (st : ReadState F) (line : List Char)
    (hface : classifyLine line = LineKind.face)
    (h1 : ¬ ∃ a b : List Char, line = a ++ '/' :: '/' :: b)
    (h0 : line.count '/' ≠ 0) (h3 : line.count '/' ≠ 3) (h6 : line.count '/' ≠ 6) :
    faceFormat line = FaceFormat.unrecognised
    ∧ ingestFaceLine load_texcoords st.vars line
      = (⟨⟨-1, if load_texcoords then -1 else 0⟩, ⟨-1, if load_texcoords then -1 else 0⟩,
          ⟨-1, if load_texcoords then -1 else 0⟩⟩, st.vars)
    ∧ readLine load_texcoords st line
      = { st with
          src_polys := st.src_polys.set st.p
            ⟨⟨-1, if load_texcoords then -1 else 0⟩, ⟨-1, if load_texcoords then -1 else 0⟩,
              ⟨-1, if load_texcoords then -1 else 0⟩⟩
          p := st.p + 1 } := by
  have hf := faceFormat_unrecognised line h1 h0 h3 h6
  have hrec : ingestFaceLine load_texcoords st.vars line
      = (⟨⟨-1, if load_texcoords then -1 else 0⟩, ⟨-1, if load_texcoords then -1 else 0⟩,
          ⟨-1, if load_texcoords then -1 else 0⟩⟩, st.vars) := by
    rw [ingestFaceLine_unrecognised load_texcoords st.vars line hf]
    cases load_texcoords <;> rfl
  refine ⟨hf, hrec, ?_⟩
  unfold readLine
  rw [hface]
  simp only [hrec]

/-- Witness of C26 on the face line `f 1/1 2 3` with `load_texcoords`. -/
theorem unrecognised_face_record_witness :
    classifyLine ("f 1/1 2 3\n".toList) = LineKind.face
    ∧ (¬ ∃ a b : List Char, "f 1/1 2 3\n".toList = a ++ '/' :: '/' :: b)
    ∧ ("f 1/1 2 3\n".toList).count '/' ≠ 0 ∧ ("f 1/1 2 3\n".toList).count '/' ≠ 3
    ∧ ("f 1/1 2 3\n".toList).count '/' ≠ 6
    ∧ ingestFaceLine true ⟨7, 7, 7, 7, 7, 7⟩ ("f 1/1 2 3\n".toList)
      = (⟨⟨-1, if true then -1 else 0⟩, ⟨-1, if true then -1 else 0⟩,
          ⟨-1, if true then -1 else 0⟩⟩, ⟨7, 7, 7, 7, 7, 7⟩) :=
  have h1 : ¬ ∃ a b : List Char, "f 1/1 2 3\n".toList = a ++ '/' :: '/' :: b := by
    rw [← strstrSlashSlash_iff]
    decide
  ⟨by decide, h1, by decide, by decide, by decide,
    (unrecognised_face_record true
      (allocatedState ⟨3, 3, 1⟩ true ⟨7, 7, 7, 7, 7, 7⟩ : ReadState ℚ)
      ("f 1/1 2 3\n".toList) (by decide) h1 (by decide) (by decide) (by decide)).2.1⟩

end UncheckedIndices

end RomanScutum
